import Mathlib

/-!
# dielectronQCMC: pair classification, gates and the run-parameter cache

Shallow embedding of `PWGEM/Dilepton/Tasks/dielectronQCMC.cxx` (namespace
`DielectronQCMC`); `PWGHF/HFL/Tasks/taskSingleMuonReader.cxx` follows in the namespace
`HfTaskSingleMuonReader`.

* Floating-point values are idealised as rationals (`ℚ`); the operations of
  ROOT, libm and the O2 utility headers that are not rational arithmetic are
  fields of `Ext` (external collaborators), never given a body here.
* The histogram registry is the list of fills in call order; a fill is the
  histogram name (the very string the source builds) and the value tuple.
* Table access (`iteratorAt`, `mothersIds()[0]`) is fallible: the functions that
  use it return `Option`, `none` standing for an out-of-range access.
* Row indices are unbounded integers; where the source stores a row index in an
  `int` (`used_trackIds`) the conversion is explicit (`toInt32`).
-/

namespace DielectronQCMC

/-! ## Data model -/

/-- One row of `aod::EMMCParticles` (the columns the task reads). -/
structure MCParticle where
  pdgCode : Int
  isPhysicalPrimary : Bool
  producedByGenerator : Bool
  emmceventId : Int
  mothersIds : List Int
  daughtersIds : List Int
  pt : ℚ
  eta : ℚ
  phi : ℚ
  y : ℚ

/-- One row of `MyMCTracks`; `emmcparticle` is the row reached through the MC label
(`emmcparticle_as<TMCParticles>()`). The remaining columns are read only by the cut
classes and by the track histograms, which are fields of `Ext`. -/
structure Track where
  globalIndex : Int
  sign : Int
  pt : ℚ
  eta : ℚ
  phi : ℚ
  px : ℚ
  py : ℚ
  pz : ℚ
  dcaXY : ℚ
  dcaZ : ℚ
  tpcChi2NCl : ℚ
  itsChi2NCl : ℚ
  emmcparticle : MCParticle

/-- One row of `MyCollisions`. -/
structure Collision where
  globalIndex : Int
  runNumber : Int
  timestamp : Int
  centFT0M : ℚ
  centFT0A : ℚ
  centFT0C : ℚ
  emmceventId : Int

/-- Value held by a `ROOT::Math::PtEtaPhiMVector`. -/
structure PtEtaPhiMVector where
  Pt : ℚ
  Eta : ℚ
  Phi : ℚ
  M : ℚ

/-- Content of a `GRPLHCIFData` object as read by `initCCDB` (`C` and `A` are the two
beams, `o2::constants::lhc::BeamC` and `BeamA`). -/
structure GRPLHCIFData where
  beamZ_C : Int
  beamZ_A : Int
  beamA_C : Int
  beamA_A : Int
  beamEnergyPerNucleonInGeV_C : ℚ
  beamEnergyPerNucleonInGeV_A : ℚ

/-- The conditions database behind `ccdb->getForTimeStamp<T>(path, timestamp)`; `none` is
the null pointer (`init` calls `setFatalWhenNull(false)`). A `GRPObject` is represented by
its `getNominalL3Field()`, a `GRPMagField` by its `getL3Current()`. -/
structure CCDB where
  getGRPObject : String → Int → Option ℚ
  getGRPMagField : String → Int → Option ℚ
  getGRPLHCIFData : String → Int → Option GRPLHCIFData

/-- One call of `ccdb->getForTimeStamp<T>`: the object type, the path and the timestamp. -/
inductive Query where
  | GRPObject (path : String) (timestamp : Int)
  | GRPMagField (path : String) (timestamp : Int)
  | GRPLHCIFData (path : String) (timestamp : Int)
deriving DecidableEq

/-- The configurables read by the modelled code (lines 62-72, 97-118, 150-153). -/
structure Config where
  grpPath : String
  grpmagPath : String
  skipGRPOquery : Bool
  d_bz_input : ℚ
  cfgCentEstimator : Int
  cfgCentMin : ℚ
  cfgCentMax : ℚ
  maxY : ℚ
  cfg_pid_scheme : Int
  min_mcPt : ℚ
  max_mcPt : ℚ
  min_mcEta : ℚ
  max_mcEta : ℚ

/-- One call of `fRegistry.fill(HIST(name), vals...)`. -/
structure Fill where
  name : String
  vals : List ℚ

/-- The mutable members of the task: the run cache (`mRunNumber`, `d_bz`, the beam
parameters of lines 277-282), `used_trackIds` (line 781), the registry as the list of
fills, and the conditions lookups performed so far. -/
structure Task where
  mRunNumber : Int
  d_bz : ℚ
  beamM1 : ℚ
  beamM2 : ℚ
  beamE1 : ℚ
  beamE2 : ℚ
  beamP1 : ℚ
  beamP2 : ℚ
  used_trackIds : List Int
  fills : List Fill
  queries : List Query

/-- Code outside `dielectronQCMC.cxx` that the task calls: the cut classes, the MC
utilities (`MCUtilities.h`) other than the common-mother search, the ROOT vector
operations, and the numeric helpers. The enumerators are the integer values of
`DielectronCut::PIDSchemes::kPIDML` and of `EM_HFeeType`. -/
structure Ext where
  kPIDML : Int
  IsSelectedTrack : Track → Bool
  IsSelectedTrackML : Track → Collision → Bool
  IsSelectedPair : Track → Track → ℚ → Bool
  IsSelected : Collision → Bool
  IsHF : MCParticle → MCParticle → List MCParticle → Int
  IsFromBeauty : MCParticle → List MCParticle → Int
  isCharmMeson : MCParticle → Bool
  isCharmBaryon : MCParticle → Bool
  isBeautyMeson : MCParticle → Bool
  isBeautyBaryon : MCParticle → Bool
  kCe_Ce : Int
  kBe_Be : Int
  kBCe_BCe : Int
  kBCe_Be_SameB : Int
  kBCe_Be_DiffB : Int
  MassElectron : ℚ
  MassProton : ℚ
  M_PI : ℚ
  makeVector : ℚ → ℚ → ℚ → ℚ → PtEtaPhiMVector
  vsum : PtEtaPhiMVector → PtEtaPhiMVector → PtEtaPhiMVector
  Rapidity : PtEtaPhiMVector → ℚ
  bringToPMPi : ℚ → ℚ
  sqrt : ℚ → ℚ
  dca3DinSigma : Track → ℚ
  getPhivPair : ℚ → ℚ → ℚ → ℚ → ℚ → ℚ → Int → Int → ℚ → ℚ
  getAngleCS : Track → Track → ℚ → ℚ → ℚ → ℚ → ℚ → ℚ → ℚ × ℚ
  getAngleCSMC : MCParticle → MCParticle → ℚ → ℚ → ℚ → ℚ → ℚ → ℚ → ℚ × ℚ
  trackHist : Track → String → List ℚ

/-- How a call of `initCCDB` ends: it returns, it is terminated by `LOG(fatal)`, or it
dereferences a null pointer. The task state at that moment is kept in each case. -/
inductive Outcome where
  | ok (s : Task)
  | fatal (s : Task)
  | nullDeref (s : Task)

/-! ## Table access and the resonance search -/

/-- Row `i` of the MC particle table (`mcparticles.iteratorAt(i)`); `none` out of range. -/
def iteratorAt (mcparticles : List MCParticle) (i : Int) : Option MCParticle :=
  if i < 0 then none else mcparticles[i.toNat]?

/-- Table indices met when walking up from `p` through first mothers
(`mothersIds()[0]`), nearest ancestor first, for at most `fuel` steps. -/
def motherChain (mcparticles : List MCParticle) : Nat → MCParticle → List Int
  | 0, _ => []
  | fuel + 1, p =>
    match p.mothersIds with
    | [] => []
    | m :: _ =>
      match iteratorAt mcparticles m with
      | none => []
      | some mp => m :: motherChain mcparticles fuel mp

/-- Modelled from the spec: `IsFromBeauty` of `PWGEM/Dilepton/Utils/MCUtilities.h`, which is
not among the sources. The spec has a quarkonium non-prompt when the "ancestor trace shows a
beauty hadron in the J/ψ lineage" (8), that is when it originates "via an intermediate
beauty-hadron decay" (glossary). The walk goes up the mother chain of `p` and, like the
search of 4.3, returns the table index of the nearest beauty hadron met, or an out-of-range
sentinel (-999) when there is none; `isBeautyHadron` is the test for a beauty hadron. -/
def IsFromBeauty (isBeautyHadron : MCParticle → Bool) (p : MCParticle)
    (mcparticles : List MCParticle) : Int :=
  match (motherChain mcparticles mcparticles.length p).find? (fun m =>
      match iteratorAt mcparticles m with
      | some mp => isBeautyHadron mp
      | none => false) with
  | some m => m
  | none => -999

/-- Modelled from the spec: `FindCommonMotherFrom2Prongs` of
`PWGEM/Dilepton/Utils/MCUtilities.h`, which is not among the sources. The spec (4.3, step 1):
"search for a common ancestor of the two legs with that exact code and exactly two
final-state descendants matching (-11,+11) (leg 1, leg 2 in either order). Implementation
walks both legs' mother chains comparing ancestor identity; returns the first [...]
matching ancestor's table index, or no match (represented as an out-of-range sentinel,
e.g. -1)". The two final-state descendants are read as the two legs; the walk is bounded by
the table size, the ancestry graph being acyclic. -/
def FindCommonMotherFrom2Prongs (p1 p2 : MCParticle)
    (expected_pdg1 expected_pdg2 expected_mother_pdg : Int)
    (mcparticles : List MCParticle) : Int :=
  if (p1.pdgCode = expected_pdg1 ∧ p2.pdgCode = expected_pdg2) ∨
      (p1.pdgCode = expected_pdg2 ∧ p2.pdgCode = expected_pdg1) then
    match (motherChain mcparticles mcparticles.length p1).find? (fun m =>
        decide (m ∈ motherChain mcparticles mcparticles.length p2) &&
        (match iteratorAt mcparticles m with
          | some mp => decide (mp.pdgCode = expected_mother_pdg)
          | none => false)) with
    | some m => m
    | none => -1
  else -1

/-- Value `*std::max_element(arr, arr + size)` of a non-empty `int` array `a :: rest`. -/
def max_element (a : Int) (rest : List Int) : Int :=
  rest.foldl max a

/-- `dielectronQCMC::FindLF` (lines 432-452). -/
def FindLF (posmc elemc : MCParticle) (mcparticles : List MCParticle) : Int :=
  max_element
    (FindCommonMotherFrom2Prongs posmc elemc (-11) 11 22 mcparticles)
    [FindCommonMotherFrom2Prongs posmc elemc (-11) 11 111 mcparticles,
     FindCommonMotherFrom2Prongs posmc elemc (-11) 11 221 mcparticles,
     FindCommonMotherFrom2Prongs posmc elemc (-11) 11 331 mcparticles,
     FindCommonMotherFrom2Prongs posmc elemc (-11) 11 113 mcparticles,
     FindCommonMotherFrom2Prongs posmc elemc (-11) 11 223 mcparticles,
     FindCommonMotherFrom2Prongs posmc elemc (-11) 11 333 mcparticles,
     FindCommonMotherFrom2Prongs posmc elemc (-11) 11 443 mcparticles,
     FindCommonMotherFrom2Prongs posmc elemc (-11) 11 100443 mcparticles,
     FindCommonMotherFrom2Prongs posmc elemc (-11) 11 553 mcparticles,
     FindCommonMotherFrom2Prongs posmc elemc (-11) 11 100553 mcparticles,
     FindCommonMotherFrom2Prongs posmc elemc (-11) 11 200553 mcparticles,
     FindCommonMotherFrom2Prongs posmc elemc (-11) 11 300553 mcparticles]

/-- The mother codes of the thirteen searches of `FindLF`, in the order of the array. -/
def allowList : List Int :=
  [22, 111, 221, 331, 113, 223, 333, 443, 100443, 553, 100553, 200553, 300553]

/-- `dielectronQCMC::isInAcceptance` (lines 454-462). -/
def isInAcceptance (cfg : Config) (t1 : MCParticle) : Bool :=
  if (cfg.min_mcPt < t1.pt ∧ t1.pt < cfg.max_mcPt) ∧
      (cfg.min_mcEta < t1.eta ∧ t1.eta < cfg.max_mcEta) then true else false

/-- Physical primary or produced by the generator (the test the task applies to legs and
mothers alike). -/
def isPrimary (p : MCParticle) : Bool :=
  p.isPhysicalPrimary || p.producedByGenerator

/-! ## Histogram fills -/

/-- `fRegistry.fill(HIST(name), vals...)`. -/
def fill (s : Task) (name : String) (vals : List ℚ) : Task :=
  { s with fills := s.fills ++ [⟨name, vals⟩] }

/-- `ele_source_types` (line 158). -/
def ele_source_types : List String :=
  ["lf/", "Photon/", "PromptJPsi/", "NonPromptJPsi/", "PromptPsi2S/", "NonPromptPsi2S/",
   "c2e/", "b2e/", "b2c2e/"]

/-- The histograms that `fillTrackInfo` fills, in the order of lines 471-503. -/
def trackHists : List String :=
  ["hPt", "hQoverPt", "hEtaPhi", "hDCAxyz", "hDCAxyzSigma", "hDCA3DSigma", "hDCAxyRes_Pt",
   "hDCAzRes_Pt", "hNclsITS", "hNclsTPC", "hNcrTPC", "hTPCNcr2Nf", "hTPCNcls2Nf", "hChi2TPC",
   "hChi2ITS", "hITSClusterMap", "hMeanClusterSizeITS", "hTPCdEdx", "hTPCNsigmaEl",
   "hTPCNsigmaMu", "hTPCNsigmaPi", "hTPCNsigmaKa", "hTPCNsigmaPr", "hTOFbeta", "h1overTOFbeta",
   "hTOFNsigmaEl", "hTOFNsigmaMu", "hTOFNsigmaPi", "hTOFNsigmaKa", "hTOFNsigmaPr",
   "hPtGen_DeltaPtOverPtGen", "hPtGen_DeltaEta", "hPtGen_DeltaPhi"]

/-- Conversion of a 64-bit row index to `int` (32 bits, two's complement), as done when
`emplace_back` stores `track.globalIndex()` in the `std::vector<int>` of line 781. -/
def toInt32 (x : Int) : Int :=
  (x + 2147483648) % 4294967296 - 2147483648

/-- `dielectronQCMC::fillTrackInfo<e_source_id>` (lines 464-506): when `std::find` does not
find the index of the track among the stored values of `used_trackIds` (each stored `int`
is compared with the 64-bit index), its single-track histograms under `Track/<source>/`
are filled and its index is stored as an `int`. The value tuple of each histogram is
`ext.trackHist track hist`. -/
def fillTrackInfo (ext : Ext) (e_source_id : Nat) (s : Task) (track : Track) : Task :=
  if track.globalIndex ∈ s.used_trackIds then s
  else
    { s with
      fills := s.fills ++ trackHists.map (fun h =>
        ⟨"Track/" ++ ele_source_types.getD e_source_id "" ++ h, ext.trackHist track h⟩)
      used_trackIds := s.used_trackIds ++ [toInt32 track.globalIndex] }

/-! ## fillTruePairInfo -/

/-- The tuple `v12.M(), v12.Pt(), abs(dphi), abs(cos_thetaCS), abs(phiCS), aco, asym,
abs(dphi_e_ee), dca_ee_3d` that every `hs` fill of `fillTruePairInfo` receives
(lines 542-563). -/
def pairHs (ext : Ext) (s : Task) (t1 t2 : Track) : List ℚ :=
  let v1 := ext.makeVector t1.pt t1.eta t1.phi ext.MassElectron
  let v2 := ext.makeVector t2.pt t2.eta t2.phi ext.MassElectron
  let v12 := ext.vsum v1 v2
  let dca_t1_3d := ext.dca3DinSigma t1
  let dca_t2_3d := ext.dca3DinSigma t2
  let dca_ee_3d := ext.sqrt ((dca_t1_3d * dca_t1_3d + dca_t2_3d * dca_t2_3d) / 2)
  let dphi := ext.bringToPMPi (v1.Phi - v2.Phi)
  let aco := 1 - |dphi| / ext.M_PI
  let asym := |v1.Pt - v2.Pt| / (v1.Pt + v2.Pt)
  let dphi_e_ee := ext.bringToPMPi (v1.Phi - v12.Phi)
  let cs := ext.getAngleCS t1 t2 ext.MassElectron ext.MassElectron
    s.beamE1 s.beamE2 s.beamP1 s.beamP2
  [v12.M, v12.Pt, |dphi|, |cs.1|, |cs.2|, aco, asym, |dphi_e_ee|, dca_ee_3d]

/-- The tuple `phiv, v12.M()` that every `hMvsPhiV` fill receives (lines 542-553). -/
def pairMvsPhiV (ext : Ext) (s : Task) (t1 t2 : Track) : List ℚ :=
  let v1 := ext.makeVector t1.pt t1.eta t1.phi ext.MassElectron
  let v2 := ext.makeVector t2.pt t2.eta t2.phi ext.MassElectron
  let v12 := ext.vsum v1 v2
  let phiv := ext.getPhivPair t1.px t1.py t1.pz t2.px t2.py t2.pz t1.sign t2.sign s.d_bz
  [phiv, v12.M]

/-- The resonance branch of `fillTruePairInfo` (lines 566-658), entered with the row
`mcmother` of the matched mother. The `switch` on `abs(mcmother.pdgCode())` is the chain of
tests on its (pairwise distinct) case labels. -/
def fillTruePairInfo_sm (ext : Ext) (s : Task) (t1 t2 : Track)
    (mcparticles : List MCParticle) (mcmother : MCParticle) : Task :=
  let t1mc := t1.emmcparticle
  let t2mc := t2.emmcparticle
  let hs := pairHs ext s t1 t2
  let mphiv := pairMvsPhiV ext s t1 t2
  let code := mcmother.pdgCode.natAbs
  if isPrimary mcmother then
    if isPrimary t1mc && isPrimary t2mc then
      if code = 111 then
        let s := fill s "Pair/sm/Pi0/hs" hs
        let s := fill s "Pair/sm/Pi0/hMvsPhiV" mphiv
        let s := fillTrackInfo ext 0 s t1
        fillTrackInfo ext 0 s t2
      else if code = 221 then
        let s := fill s "Pair/sm/Eta/hs" hs
        let s := fill s "Pair/sm/Eta/hMvsPhiV" mphiv
        let s := fillTrackInfo ext 0 s t1
        fillTrackInfo ext 0 s t2
      else if code = 331 then
        let s := fill s "Pair/sm/EtaPrime/hs" hs
        let s := fill s "Pair/sm/EtaPrime/hMvsPhiV" mphiv
        let s := fillTrackInfo ext 0 s t1
        fillTrackInfo ext 0 s t2
      else if code = 113 then
        let s := fill s "Pair/sm/Rho/hs" hs
        let s := fill s "Pair/sm/Rho/hMvsPhiV" mphiv
        let s := fillTrackInfo ext 0 s t1
        fillTrackInfo ext 0 s t2
      else if code = 223 then
        let s := fill s "Pair/sm/Omega/hs" hs
        let s := fill s "Pair/sm/Omega/hMvsPhiV" mphiv
        let s := fillTrackInfo ext 0 s t1
        let s := fillTrackInfo ext 0 s t2
        if mcmother.daughtersIds.length = 2 then
          let s := fill s "Pair/sm/Omega2ee/hs" hs
          fill s "Pair/sm/Omega2ee/hMvsPhiV" mphiv
        else s
      else if code = 333 then
        let s := fill s "Pair/sm/Phi/hs" hs
        let s := fill s "Pair/sm/Phi/hMvsPhiV" mphiv
        let s := fillTrackInfo ext 0 s t1
        let s := fillTrackInfo ext 0 s t2
        if mcmother.daughtersIds.length = 2 then
          let s := fill s "Pair/sm/Phi2ee/hs" hs
          fill s "Pair/sm/Phi2ee/hMvsPhiV" mphiv
        else s
      else if code = 443 then
        if ext.IsFromBeauty mcmother mcparticles > 0 then
          let s := fill s "Pair/sm/NonPromptJPsi/hs" hs
          let s := fill s "Pair/sm/NonPromptJPsi/hMvsPhiV" mphiv
          let s := fillTrackInfo ext 3 s t1
          fillTrackInfo ext 3 s t2
        else
          let s := fill s "Pair/sm/PromptJPsi/hs" hs
          let s := fill s "Pair/sm/PromptJPsi/hMvsPhiV" mphiv
          let s := fillTrackInfo ext 2 s t1
          fillTrackInfo ext 2 s t2
      else if code = 100443 then
        if ext.IsFromBeauty mcmother mcparticles > 0 then
          let s := fill s "Pair/sm/NonPromptPsi2S/hs" hs
          let s := fill s "Pair/sm/NonPromptPsi2S/hMvsPhiV" mphiv
          let s := fillTrackInfo ext 5 s t1
          fillTrackInfo ext 5 s t2
        else
          let s := fill s "Pair/sm/PromptPsi2S/hs" hs
          let s := fill s "Pair/sm/PromptPsi2S/hMvsPhiV" mphiv
          let s := fillTrackInfo ext 4 s t1
          fillTrackInfo ext 4 s t2
      else s
    else if !isPrimary t1mc && !isPrimary t2mc then
      if code = 22 then
        let s := fill s "Pair/sm/Photon/hs" hs
        let s := fill s "Pair/sm/Photon/hMvsPhiV" mphiv
        let s := fillTrackInfo ext 1 s t1
        fillTrackInfo ext 1 s t2
      else s
    else s
  else s

/-- The heavy-flavour branch of `fillTruePairInfo` once both legs are primary and the
rows `mp1`, `mp2` of their first mothers are read (lines 663-775). The `switch` on
`hfee_type` is the chain of tests on the `EM_HFeeType` enumerators; the branches that only
log ("You should not see ... Good luck.") leave the task unchanged. -/
def fillTruePairInfo_hf (ext : Ext) (s : Task) (t1 t2 : Track) (hfee_type : Int)
    (mp1 mp2 : MCParticle) : Task :=
  let t1mc := t1.emmcparticle
  let t2mc := t2.emmcparticle
  let hs := pairHs ext s t1 t2
  if t1mc.pdgCode * t2mc.pdgCode < 0 then
    if hfee_type = ext.kCe_Ce then
      let s := fill s "Pair/ccbar/c2e_c2e/hadron_hadron/hs" hs
      if ext.isCharmMeson mp1 && ext.isCharmMeson mp2 then
        let s := fill s "Pair/ccbar/c2e_c2e/meson_meson/hs" hs
        let s := fillTrackInfo ext 6 s t1
        fillTrackInfo ext 6 s t2
      else if ext.isCharmBaryon mp1 && ext.isCharmBaryon mp2 then
        let s := fill s "Pair/ccbar/c2e_c2e/baryon_baryon/hs" hs
        let s := fillTrackInfo ext 6 s t1
        fillTrackInfo ext 6 s t2
      else
        let s := fill s "Pair/ccbar/c2e_c2e/meson_baryon/hs" hs
        let s := fillTrackInfo ext 6 s t1
        fillTrackInfo ext 6 s t2
    else if hfee_type = ext.kBe_Be then
      let s := fill s "Pair/bbbar/b2e_b2e/hadron_hadron/hs" hs
      if ext.isBeautyMeson mp1 && ext.isBeautyMeson mp2 then
        let s := fill s "Pair/bbbar/b2e_b2e/meson_meson/hs" hs
        let s := fillTrackInfo ext 7 s t1
        fillTrackInfo ext 7 s t2
      else if ext.isBeautyBaryon mp1 && ext.isBeautyBaryon mp2 then
        let s := fill s "Pair/bbbar/b2e_b2e/baryon_baryon/hs" hs
        let s := fillTrackInfo ext 7 s t1
        fillTrackInfo ext 7 s t2
      else
        let s := fill s "Pair/bbbar/b2e_b2e/meson_baryon/hs" hs
        let s := fillTrackInfo ext 7 s t1
        fillTrackInfo ext 7 s t2
    else if hfee_type = ext.kBCe_BCe then
      let s := fill s "Pair/bbbar/b2c2e_b2c2e/hadron_hadron/hs" hs
      if ext.isCharmMeson mp1 && ext.isCharmMeson mp2 then
        let s := fill s "Pair/bbbar/b2c2e_b2c2e/meson_meson/hs" hs
        let s := fillTrackInfo ext 8 s t1
        fillTrackInfo ext 8 s t2
      else if ext.isCharmBaryon mp1 && ext.isCharmBaryon mp2 then
        let s := fill s "Pair/bbbar/b2c2e_b2c2e/baryon_baryon/hs" hs
        let s := fillTrackInfo ext 8 s t1
        fillTrackInfo ext 8 s t2
      else
        let s := fill s "Pair/bbbar/b2c2e_b2c2e/meson_baryon/hs" hs
        let s := fillTrackInfo ext 8 s t1
        fillTrackInfo ext 8 s t2
    else if hfee_type = ext.kBCe_Be_SameB then
      let s := fill s "Pair/bbbar/b2c2e_b2e_sameb/hadron_hadron/hs" hs
      let s :=
        if (ext.isCharmMeson mp1 && ext.isBeautyMeson mp2) ||
            (ext.isCharmMeson mp2 && ext.isBeautyMeson mp1) then
          fill s "Pair/bbbar/b2c2e_b2e_sameb/meson_meson/hs" hs
        else if (ext.isCharmBaryon mp1 && ext.isBeautyBaryon mp2) ||
            (ext.isCharmBaryon mp2 && ext.isBeautyBaryon mp1) then
          fill s "Pair/bbbar/b2c2e_b2e_sameb/baryon_baryon/hs" hs
        else
          fill s "Pair/bbbar/b2c2e_b2e_sameb/meson_baryon/hs" hs
      if (ext.isCharmMeson mp1 || ext.isCharmBaryon mp1) &&
          (ext.isBeautyMeson mp2 || ext.isBeautyBaryon mp2) then
        let s := fillTrackInfo ext 7 s t1
        fillTrackInfo ext 8 s t2
      else
        let s := fillTrackInfo ext 8 s t1
        fillTrackInfo ext 7 s t2
    else s
  else
    if hfee_type = ext.kCe_Ce then s
    else if hfee_type = ext.kBe_Be then s
    else if hfee_type = ext.kBCe_BCe then s
    else if hfee_type = ext.kBCe_Be_SameB then s
    else if hfee_type = ext.kBCe_Be_DiffB then
      let s := fill s "Pair/bbbar/b2c2e_b2e_diffb/hadron_hadron/hs" hs
      let s :=
        if (ext.isCharmMeson mp1 && ext.isBeautyMeson mp2) ||
            (ext.isCharmMeson mp2 && ext.isBeautyMeson mp1) then
          fill s "Pair/bbbar/b2c2e_b2e_diffb/meson_meson/hs" hs
        else if (ext.isCharmBaryon mp1 && ext.isBeautyBaryon mp2) ||
            (ext.isCharmBaryon mp2 && ext.isBeautyBaryon mp1) then
          fill s "Pair/bbbar/b2c2e_b2e_diffb/baryon_baryon/hs" hs
        else
          fill s "Pair/bbbar/b2c2e_b2e_diffb/meson_baryon/hs" hs
      if (ext.isCharmMeson mp1 || ext.isCharmBaryon mp1) &&
          (ext.isBeautyMeson mp2 || ext.isBeautyBaryon mp2) then
        let s := fillTrackInfo ext 7 s t1
        fillTrackInfo ext 8 s t2
      else
        let s := fillTrackInfo ext 8 s t1
        fillTrackInfo ext 7 s t2
    else s

/-- First entry of `mothersIds()` (`mothersIds()[0]`); `none` when the particle has no
mother. -/
def firstMother (p : MCParticle) : Option Int :=
  p.mothersIds.head?

/-- The test of lines 511-519: one of the two tracks fails the track cut, taken with the
ML model when the PID scheme is `kPIDML` and cut-based otherwise. -/
def trackCutFails (ext : Ext) (cfg : Config) (collision : Collision) (t1 t2 : Track) : Bool :=
  if cfg.cfg_pid_scheme = ext.kPIDML then
    !ext.IsSelectedTrackML t1 collision || !ext.IsSelectedTrackML t2 collision
  else !ext.IsSelectedTrack t1 || !ext.IsSelectedTrack t2

/-- `dielectronQCMC::fillTruePairInfo` (lines 508-779): the returned `bool` and the task
after the call. -/
def fillTruePairInfo (ext : Ext) (cfg : Config) (s : Task) (collision : Collision)
    (t1 t2 : Track) (mcparticles : List MCParticle) : Option (Bool × Task) :=
  if trackCutFails ext cfg collision t1 t2 then some (false, s)
  else if !ext.IsSelectedPair t1 t2 s.d_bz then some (false, s)
  else
    let t1mc := t1.emmcparticle
    let t2mc := t2.emmcparticle
    if t1mc.pdgCode.natAbs ≠ 11 ∨ t2mc.pdgCode.natAbs ≠ 11 then some (false, s)
    else if t1mc.emmceventId ≠ t2mc.emmceventId then some (false, s)
    else
      let mother_id := FindLF t1mc t2mc mcparticles
      let hfee_type := ext.IsHF t1mc t2mc mcparticles
      if mother_id < 0 ∧ hfee_type < 0 then some (false, s)
      else
        let v1 := ext.makeVector t1.pt t1.eta t1.phi ext.MassElectron
        let v2 := ext.makeVector t2.pt t2.eta t2.phi ext.MassElectron
        let v12 := ext.vsum v1 v2
        if |ext.Rapidity v12| > cfg.maxY then some (false, s)
        else if mother_id > -1 ∧ t1mc.pdgCode * t2mc.pdgCode < 0 then
          match iteratorAt mcparticles mother_id with
          | none => none
          | some mcmother => some (true, fillTruePairInfo_sm ext s t1 t2 mcparticles mcmother)
        else if hfee_type > -1 then
          if isPrimary t1mc && isPrimary t2mc then
            match (firstMother t1mc).bind (iteratorAt mcparticles),
                (firstMother t2mc).bind (iteratorAt mcparticles) with
            | some mp1, some mp2 => some (true, fillTruePairInfo_hf ext s t1 t2 hfee_type mp1 mp2)
            | _, _ => none
          else some (true, s)
        else some (true, s)

/-! ## processGen, unlike-sign loop -/

/-- The tuple `v12.M(), v12.Pt(), abs(dphi), abs(cos_thetaCS), abs(phiCS), aco, asym,
abs(dphi_e_ee)` that every fill of the unlike-sign loop of `processGen` receives
(lines 878-896). -/
def genHs (ext : Ext) (s : Task) (t1 t2 : MCParticle) : List ℚ :=
  let v1 := ext.makeVector t1.pt t1.eta t1.phi ext.MassElectron
  let v2 := ext.makeVector t2.pt t2.eta t2.phi ext.MassElectron
  let v12 := ext.vsum v1 v2
  let dphi := ext.bringToPMPi (v1.Phi - v2.Phi)
  let aco := 1 - |dphi| / ext.M_PI
  let asym := |v1.Pt - v2.Pt| / (v1.Pt + v2.Pt)
  let dphi_e_ee := ext.bringToPMPi (v1.Phi - v12.Phi)
  let cs := ext.getAngleCSMC t1 t2 ext.MassElectron ext.MassElectron
    s.beamE1 s.beamE2 s.beamP1 s.beamP2
  [v12.M, v12.Pt, |dphi|, |cs.1|, |cs.2|, aco, asym, |dphi_e_ee|]

/-- The resonance branch of the unlike-sign loop of `processGen` (lines 899-946). -/
def processGen_sm (ext : Ext) (s : Task) (t1 t2 : MCParticle)
    (mcparticles : List MCParticle) (mcmother : MCParticle) : Task :=
  let hs := genHs ext s t1 t2
  let code := mcmother.pdgCode.natAbs
  if isPrimary mcmother then
    if code = 111 then fill s "Generated/sm/Pi0/hs" hs
    else if code = 221 then fill s "Generated/sm/Eta/hs" hs
    else if code = 331 then fill s "Generated/sm/EtaPrime/hs" hs
    else if code = 113 then fill s "Generated/sm/Rho/hs" hs
    else if code = 223 then
      let s := fill s "Generated/sm/Omega/hs" hs
      if mcmother.daughtersIds.length = 2 then fill s "Generated/sm/Omega2ee/hs" hs else s
    else if code = 333 then
      let s := fill s "Generated/sm/Phi/hs" hs
      if mcmother.daughtersIds.length = 2 then fill s "Generated/sm/Phi2ee/hs" hs else s
    else if code = 443 then
      if ext.IsFromBeauty mcmother mcparticles > 0 then fill s "Generated/sm/NonPromptJPsi/hs" hs
      else fill s "Generated/sm/PromptJPsi/hs" hs
    else if code = 100443 then
      if ext.IsFromBeauty mcmother mcparticles > 0 then fill s "Generated/sm/NonPromptPsi2S/hs" hs
      else fill s "Generated/sm/PromptPsi2S/hs" hs
    else s
  else s

/-- The heavy-flavour branch of the unlike-sign loop of `processGen` once the rows `mp1`,
`mp2` of the first mothers are read (lines 950-1000). -/
def processGen_hf (ext : Ext) (s : Task) (t1 t2 : MCParticle) (hfee_type : Int)
    (mp1 mp2 : MCParticle) : Task :=
  let hs := genHs ext s t1 t2
  if hfee_type = ext.kCe_Ce then
    let s := fill s "Generated/ccbar/c2e_c2e/hadron_hadron/hs" hs
    if ext.isCharmMeson mp1 && ext.isCharmMeson mp2 then
      fill s "Generated/ccbar/c2e_c2e/meson_meson/hs" hs
    else if ext.isCharmBaryon mp1 && ext.isCharmBaryon mp2 then
      fill s "Generated/ccbar/c2e_c2e/baryon_baryon/hs" hs
    else
      fill s "Generated/ccbar/c2e_c2e/meson_baryon/hs" hs
  else if hfee_type = ext.kBe_Be then
    let s := fill s "Generated/bbbar/b2e_b2e/hadron_hadron/hs" hs
    if ext.isBeautyMeson mp1 && ext.isBeautyMeson mp2 then
      fill s "Generated/bbbar/b2e_b2e/meson_meson/hs" hs
    else if ext.isBeautyBaryon mp1 && ext.isBeautyBaryon mp2 then
      fill s "Generated/bbbar/b2e_b2e/baryon_baryon/hs" hs
    else
      fill s "Generated/bbbar/b2e_b2e/meson_baryon/hs" hs
  else if hfee_type = ext.kBCe_BCe then
    let s := fill s "Generated/bbbar/b2c2e_b2c2e/hadron_hadron/hs" hs
    if ext.isCharmMeson mp1 && ext.isCharmMeson mp2 then
      fill s "Generated/bbbar/b2e_b2e/meson_meson/hs" hs
    else if ext.isCharmBaryon mp1 && ext.isCharmBaryon mp2 then
      fill s "Generated/bbbar/b2e_b2e/baryon_baryon/hs" hs
    else
      fill s "Generated/bbbar/b2e_b2e/meson_baryon/hs" hs
  else if hfee_type = ext.kBCe_Be_SameB then
    let s := fill s "Generated/bbbar/b2c2e_b2e_sameb/hadron_hadron/hs" hs
    if (ext.isCharmMeson mp1 && ext.isBeautyMeson mp2) ||
        (ext.isCharmMeson mp2 && ext.isBeautyMeson mp1) then
      fill s "Generated/bbbar/b2c2e_b2e_sameb/meson_meson/hs" hs
    else if (ext.isCharmBaryon mp1 && ext.isBeautyBaryon mp2) ||
        (ext.isCharmBaryon mp2 && ext.isBeautyBaryon mp1) then
      fill s "Generated/bbbar/b2c2e_b2e_sameb/baryon_baryon/hs" hs
    else
      fill s "Generated/bbbar/b2c2e_b2e_sameb/meson_baryon/hs" hs
  else s

/-- Body of the unlike-sign pair loop of `dielectronQCMC::processGen` (lines 859-1002) for
one pair `(t1, t2)`: the task after the iteration (`continue` leaves it unchanged). -/
def processGen_ULS (ext : Ext) (cfg : Config) (s : Task) (t1 t2 : MCParticle)
    (mcparticles : List MCParticle) : Option Task :=
  if !isInAcceptance cfg t1 || !isInAcceptance cfg t2 then some s
  else if !t1.isPhysicalPrimary && !t1.producedByGenerator then some s
  else if !t2.isPhysicalPrimary && !t2.producedByGenerator then some s
  else
    let mother_id := FindLF t1 t2 mcparticles
    let hfee_type := ext.IsHF t1 t2 mcparticles
    if mother_id < 0 ∧ hfee_type < 0 then some s
    else
      let v1 := ext.makeVector t1.pt t1.eta t1.phi ext.MassElectron
      let v2 := ext.makeVector t2.pt t2.eta t2.phi ext.MassElectron
      let v12 := ext.vsum v1 v2
      if |ext.Rapidity v12| > cfg.maxY then some s
      else if mother_id > -1 then
        match iteratorAt mcparticles mother_id with
        | none => none
        | some mcmother => some (processGen_sm ext s t1 t2 mcparticles mcmother)
      else if hfee_type > -1 then
        match (firstMother t1).bind (iteratorAt mcparticles),
            (firstMother t2).bind (iteratorAt mcparticles) with
        | some mp1, some mp2 => some (processGen_hf ext s t1 t2 hfee_type mp1 mp2)
        | _, _ => none
      else some s

/-! ## The run-parameter cache -/

/-- `std::lround`: the nearest integer, halfway cases away from zero. -/
def lround (x : ℚ) : Int :=
  if 0 ≤ x then ⌊x + 1 / 2⌋ else -⌊-x + 1 / 2⌋

/-- The state `init` leaves (lines 277-297): run number and field zero, the beam masses the
proton mass, the beam energies and momenta zero, nothing filled or looked up. -/
def init (ext : Ext) : Task :=
  { mRunNumber := 0, d_bz := 0, beamM1 := ext.MassProton, beamM2 := ext.MassProton,
    beamE1 := 0, beamE2 := 0, beamP1 := 0, beamP2 := 0,
    used_trackIds := [], fills := [], queries := [] }

/-- `dielectronQCMC::initCCDB` (lines 310-362). Every `ccdb->getForTimeStamp` call is
appended to `queries`. `LOG(fatal)` ends the call as `Outcome.fatal`; `grplhcif` is
dereferenced at line 351 without a test, so a null pointer there ends it as
`Outcome.nullDeref`. The local `grpmag` object of the override branch has no effect on the
task and is left out, as are the `LOG(info)` lines. -/
def initCCDB (ext : Ext) (cfg : Config) (ccdb : CCDB) (s : Task) (collision : Collision) :
    Outcome :=
  if s.mRunNumber = collision.runNumber then Outcome.ok s
  else if cfg.d_bz_input > -990 then
    Outcome.ok { s with d_bz := cfg.d_bz_input, mRunNumber := collision.runNumber }
  else
    let run3grp_timestamp := collision.timestamp
    let grpo : Option ℚ :=
      if !cfg.skipGRPOquery then ccdb.getGRPObject cfg.grpPath run3grp_timestamp else none
    let s : Task :=
      if !cfg.skipGRPOquery then
        { s with queries := s.queries ++ [Query.GRPObject cfg.grpPath run3grp_timestamp] }
      else s
    let field : Task × Option ℚ :=
      match grpo with
      | some nominalL3Field => (s, some nominalL3Field)
      | none =>
        ({ s with queries := s.queries ++ [Query.GRPMagField cfg.grpmagPath run3grp_timestamp] },
          (ccdb.getGRPMagField cfg.grpmagPath run3grp_timestamp).map
            (fun l3Current => ((lround (5 * l3Current / 30000) : Int) : ℚ)))
    match field with
    | (s, none) => Outcome.fatal s
    | (s, some bz) =>
      let s : Task := { s with d_bz := bz, mRunNumber := collision.runNumber }
      let s : Task :=
        { s with queries := s.queries ++ [Query.GRPLHCIFData "GLO/Config/GRPLHCIF" collision.timestamp] }
      match ccdb.getGRPLHCIFData "GLO/Config/GRPLHCIF" collision.timestamp with
      | none => Outcome.nullDeref s
      | some grplhcif =>
        let beamA1 := grplhcif.beamA_C
        let beamA2 := grplhcif.beamA_A
        let beamE1 := grplhcif.beamEnergyPerNucleonInGeV_C
        let beamE2 := grplhcif.beamEnergyPerNucleonInGeV_A
        let beamM1 := ext.MassProton * beamA1
        let beamM2 := ext.MassProton * beamA2
        let beamP1 := ext.sqrt (beamE1 ^ 2 - beamM1 ^ 2)
        let beamP2 := ext.sqrt (beamE2 ^ 2 - beamM2 ^ 2)
        Outcome.ok { s with beamE1 := beamE1, beamE2 := beamE2, beamM1 := beamM1,
                            beamM2 := beamM2, beamP1 := beamP1, beamP2 := beamP2 }

/-! ## Cut definition and table filters -/

/-- The configurables of the group `dielectroncuts` that `DefineDileptonCut` hands to the
pair and track setters and that `trackFilter` reads (lines 97-116). -/
structure DielectronCutGroup where
  cfg_min_mass : ℚ
  cfg_max_mass : ℚ
  cfg_min_pair_dca3d : ℚ
  cfg_max_pair_dca3d : ℚ
  cfg_apply_phiv : Bool
  cfg_apply_pf : Bool
  cfg_require_itsib_any : Bool
  cfg_require_itsib_1st : Bool
  cfg_phiv_slope : ℚ
  cfg_phiv_intercept : ℚ
  cfg_min_pt_track : ℚ
  cfg_max_eta_track : ℚ
  cfg_min_ncluster_tpc : Int
  cfg_min_ncluster_its : Int
  cfg_min_ncrossedrows : Int
  cfg_max_chi2tpc : ℚ
  cfg_max_chi2its : ℚ
  cfg_max_dcaxy : ℚ
  cfg_max_dcaz : ℚ

/-- The arguments that `DefineDileptonCut` passes to the pair and track setters of
`fDielectonCut` (lines 383-402), one field per setter. How the class `DielectronCut`
compares a track or a pair with them is outside this file. -/
structure DielectronCut where
  MeeRange : ℚ × ℚ
  MaxPhivPairMeeDep : ℚ → ℚ
  PairDCARange : ℚ × ℚ
  ApplyPhiV : Bool
  ApplyPrefilter : Bool
  RequireITSibAny : Bool
  RequireITSib1st : Bool
  TrackPtRange : ℚ × ℚ
  TrackEtaRange : ℚ × ℚ
  MinNClustersTPC : Int
  MinNCrossedRowsTPC : Int
  MinNCrossedRowsOverFindableClustersTPC : ℚ
  Chi2PerClusterTPC : ℚ × ℚ
  Chi2PerClusterITS : ℚ × ℚ
  NClustersITS : Int × Int
  MeanClusterSizeITSob : ℚ × ℚ
  MaxDcaXY : ℚ
  MaxDcaZ : ℚ

/-- `dielectronQCMC::DefineDileptonCut`, pair and track part (lines 383-402). -/
def DefineDileptonCut (dielectroncuts : DielectronCutGroup) : DielectronCut :=
  { MeeRange := (dielectroncuts.cfg_min_mass, dielectroncuts.cfg_max_mass)
    MaxPhivPairMeeDep := fun mll =>
      (mll - dielectroncuts.cfg_phiv_intercept) / dielectroncuts.cfg_phiv_slope
    PairDCARange := (dielectroncuts.cfg_min_pair_dca3d, dielectroncuts.cfg_max_pair_dca3d)
    ApplyPhiV := dielectroncuts.cfg_apply_phiv
    ApplyPrefilter := dielectroncuts.cfg_apply_pf
    RequireITSibAny := dielectroncuts.cfg_require_itsib_any
    RequireITSib1st := dielectroncuts.cfg_require_itsib_1st
    TrackPtRange := (dielectroncuts.cfg_min_pt_track, 10000000000)
    TrackEtaRange := (-dielectroncuts.cfg_max_eta_track, dielectroncuts.cfg_max_eta_track)
    MinNClustersTPC := dielectroncuts.cfg_min_ncluster_tpc
    MinNCrossedRowsTPC := dielectroncuts.cfg_min_ncrossedrows
    MinNCrossedRowsOverFindableClustersTPC := 8 / 10
    Chi2PerClusterTPC := (0, dielectroncuts.cfg_max_chi2tpc)
    Chi2PerClusterITS := (0, dielectroncuts.cfg_max_chi2its)
    NClustersITS := (dielectroncuts.cfg_min_ncluster_its, 7)
    MeanClusterSizeITSob := (0, 16)
    MaxDcaXY := dielectroncuts.cfg_max_dcaxy
    MaxDcaZ := dielectroncuts.cfg_max_dcaz }

/-- `dielectronQCMC::trackFilter` (line 784): the rows of the track table that the task
receives (`nabs` is the absolute value). -/
def trackFilter (dielectroncuts : DielectronCutGroup) (track : Track) : Bool :=
  decide (dielectroncuts.cfg_min_pt_track < track.pt) &&
  decide (|track.eta| < dielectroncuts.cfg_max_eta_track) &&
  decide (track.tpcChi2NCl < dielectroncuts.cfg_max_chi2tpc) &&
  decide (track.itsChi2NCl < dielectroncuts.cfg_max_chi2its) &&
  decide (|track.dcaXY| < dielectroncuts.cfg_max_dcaxy) &&
  decide (|track.dcaZ| < dielectroncuts.cfg_max_dcaz)

/-! ## The classification part of the pair functions -/

/-- The part of `fillTruePairInfo` after the rapidity test (lines 550-778). -/
def fillTruePairInfo_classify (ext : Ext) (s : Task) (t1 t2 : Track)
    (mcparticles : List MCParticle) : Option (Bool × Task) :=
  let t1mc := t1.emmcparticle
  let t2mc := t2.emmcparticle
  let mother_id := FindLF t1mc t2mc mcparticles
  let hfee_type := ext.IsHF t1mc t2mc mcparticles
  if mother_id > -1 ∧ t1mc.pdgCode * t2mc.pdgCode < 0 then
    match iteratorAt mcparticles mother_id with
    | none => none
    | some mcmother => some (true, fillTruePairInfo_sm ext s t1 t2 mcparticles mcmother)
  else if hfee_type > -1 then
    if isPrimary t1mc && isPrimary t2mc then
      match (firstMother t1mc).bind (iteratorAt mcparticles),
          (firstMother t2mc).bind (iteratorAt mcparticles) with
      | some mp1, some mp2 => some (true, fillTruePairInfo_hf ext s t1 t2 hfee_type mp1 mp2)
      | _, _ => none
    else some (true, s)
  else some (true, s)

/-- The part of the body of the unlike-sign loop of `processGen` after the rapidity test
(lines 888-1001). -/
def processGen_classify (ext : Ext) (s : Task) (t1 t2 : MCParticle)
    (mcparticles : List MCParticle) : Option Task :=
  let mother_id := FindLF t1 t2 mcparticles
  let hfee_type := ext.IsHF t1 t2 mcparticles
  if mother_id > -1 then
    match iteratorAt mcparticles mother_id with
    | none => none
    | some mcmother => some (processGen_sm ext s t1 t2 mcparticles mcmother)
  else if hfee_type > -1 then
    match (firstMother t1).bind (iteratorAt mcparticles),
        (firstMother t2).bind (iteratorAt mcparticles) with
    | some mp1, some mp2 => some (processGen_hf ext s t1 t2 hfee_type mp1 mp2)
    | _, _ => none
  else some s

/-! ## processQCMC -/

/-- The event histogram helper `eventhistogram::fillEventInfo<ev_id>` of
`PWGEM/Dilepton/Utils/EventHistograms.h`: the fills it makes in the registry for a
collision. -/
structure EventUtil where
  fillEventInfo : Nat → Collision → List Fill

/-- `centralities[cfgCentEstimator]` (lines 800-801); `none` when the index is outside the
three-element array. -/
def centralityOf (cfg : Config) (collision : Collision) : Option ℚ :=
  if cfg.cfgCentEstimator < 0 then none
  else [collision.centFT0M, collision.centFT0A, collision.centFT0C][cfg.cfgCentEstimator.toNat]?

/-- The pairs of `combinations(CombinationsFullIndexPolicy(a, b))`: every row of `a` with
every row of `b`. -/
def CombinationsFullIndexPolicy (a b : List Track) : List (Track × Track) :=
  a.flatMap (fun x => b.map (fun y => (x, y)))

/-- The pairs of `combinations(CombinationsStrictlyUpperIndexPolicy(a, a))`: every row with
every later row. -/
def CombinationsStrictlyUpperIndexPolicy : List Track → List (Track × Track)
  | [] => []
  | x :: rest => rest.map (fun y => (x, y)) ++ CombinationsStrictlyUpperIndexPolicy rest

/-- One pair loop of `processQCMC` (lines 817-827): `fillTruePairInfo` on every pair in
turn, its result being ignored; `none` when a call does not return. -/
def fillPairs (ext : Ext) (cfg : Config) (collision : Collision)
    (mcparticles : List MCParticle) : Task → List (Track × Track) → Option Task
  | s, [] => some s
  | s, (t1, t2) :: rest =>
    match fillTruePairInfo ext cfg s collision t1 t2 mcparticles with
    | none => none
    | some (_, s') => fillPairs ext cfg collision mcparticles s' rest

/-- Body of the collision loop of `processQCMC` (lines 799-827) for one collision whose
positive and negative tracks are `pos` and `neg`; `none` when the iteration does not
complete (`initCCDB` does not return, or a table or array access is out of range). -/
def processQCMC_collision (ext : Ext) (ev : EventUtil) (cfg : Config) (ccdb : CCDB)
    (mcparticles : List MCParticle) (s : Task) (collision : Collision)
    (pos neg : List Track) : Option Task :=
  match initCCDB ext cfg ccdb s collision with
  | Outcome.ok s =>
    match centralityOf cfg collision with
    | none => none
    | some centrality =>
      if centrality < cfg.cfgCentMin ∨ cfg.cfgCentMax < centrality then some s
      else
        let s := { s with fills := s.fills ++ ev.fillEventInfo 0 collision }
        if !ext.IsSelected collision then some s
        else
          let s := { s with fills := s.fills ++ ev.fillEventInfo 1 collision }
          let s := fill s "Event/before/hCollisionCounter" [10]
          let s := fill s "Event/after/hCollisionCounter" [10]
          (fillPairs ext cfg collision mcparticles s
            (CombinationsFullIndexPolicy pos neg)).bind (fun s =>
          (fillPairs ext cfg collision mcparticles s
            (CombinationsStrictlyUpperIndexPolicy pos)).bind (fun s =>
          fillPairs ext cfg collision mcparticles s
            (CombinationsStrictlyUpperIndexPolicy neg)))
  | _ => none

/-- The collision loop of `processQCMC` (lines 798-829); `posTracks_per_coll` and
`negTracks_per_coll` are the slices of the two partitions for a collision. -/
def processQCMC_loop (ext : Ext) (ev : EventUtil) (cfg : Config) (ccdb : CCDB)
    (mcparticles : List MCParticle)
    (posTracks_per_coll negTracks_per_coll : Collision → List Track) :
    Task → List Collision → Option Task
  | s, [] => some s
  | s, collision :: rest =>
    match processQCMC_collision ext ev cfg ccdb mcparticles s collision
        (posTracks_per_coll collision) (negTracks_per_coll collision) with
    | none => none
    | some s' =>
      processQCMC_loop ext ev cfg ccdb mcparticles posTracks_per_coll negTracks_per_coll s' rest

/-- `dielectronQCMC::processQCMC` (lines 794-834): the collision loop, then
`used_trackIds.clear()`. `reserve` and `shrink_to_fit` do not change the content. -/
def processQCMC (ext : Ext) (ev : EventUtil) (cfg : Config) (ccdb : CCDB) (s : Task)
    (collisions : List Collision)
    (posTracks_per_coll negTracks_per_coll : Collision → List Track)
    (mcparticles : List MCParticle) : Option Task :=
  (processQCMC_loop ext ev cfg ccdb mcparticles posTracks_per_coll negTracks_per_coll
    s collisions).map (fun s => { s with used_trackIds := [] })

/-- The tables handed to one call of `processQCMC`. -/
structure QCMCInput where
  collisions : List Collision
  posTracks_per_coll : Collision → List Track
  negTracks_per_coll : Collision → List Track
  mcparticles : List MCParticle

/-- A sequence of `processQCMC` calls, each on its own tables, every call returning before
the next one starts. -/
def processQCMC_calls (ext : Ext) (ev : EventUtil) (cfg : Config) (ccdb : CCDB) :
    Task → List QCMCInput → Option Task
  | s, [] => some s
  | s, input :: rest =>
    match processQCMC ext ev cfg ccdb s input.collisions input.posTracks_per_coll
        input.negTracks_per_coll input.mcparticles with
    | none => none
    | some s' => processQCMC_calls ext ev cfg ccdb s' rest

/-! ## The centrality selection -/

/-- `collisionFilter_centrality` (line 791), the filter of the collisions that
`processQCMC` receives. -/
def collisionFilter_centrality (cfg : Config) (collision : Collision) : Bool :=
  decide ((cfg.cfgCentMin < collision.centFT0M ∧ collision.centFT0M < cfg.cfgCentMax) ∨
    (cfg.cfgCentMin < collision.centFT0A ∧ collision.centFT0A < cfg.cfgCentMax) ∨
    (cfg.cfgCentMin < collision.centFT0C ∧ collision.centFT0C < cfg.cfgCentMax))

/-- The test that opens the body of the collision loop of `processQCMC` (lines 800-803) and
of `processGen` (lines 846-849), the same in both: `some true` when the loop `continue`s,
`none` when `cfgCentEstimator` is outside the three-element array. -/
def centralityContinue (cfg : Config) (collision : Collision) : Option Bool :=
  (centralityOf cfg collision).map
    (fun centrality => decide (centrality < cfg.cfgCentMin ∨ cfg.cfgCentMax < centrality))

/-- The table `FilteredMyCollisions` that `processQCMC` iterates over: the collisions that
pass `collisionFilter_centrality`. -/
def FilteredMyCollisions (cfg : Config) (collisions : List Collision) : List Collision :=
  collisions.filter (collisionFilter_centrality cfg)

/-! ## The azimuthal wrap -/

/-- Modelled from the spec: `o2::math_utils::bringToPMPi`, whose body is not under src/.
The spec (4.1 and 8) has the angle "normalized into (-π, π] via a wrap function": the
value that differs from `phi` by a whole number of turns `2 * pi` and lies in that
interval, `pi` being the value of π in use. -/
def bringToPMPi (pi phi : ℚ) : ℚ :=
  phi - 2 * pi * ⌈(phi - pi) / (2 * pi)⌉

/-! ## The 4-vector arithmetic -/

/-- Modelled from the spec: the elementary functions that the 4-vector arithmetic of
`ROOT::Math::PtEtaPhiMVector` (not under src/) is built from, over the values `K`. -/
structure Elementary (K : Type) where
  cos : K → K
  sin : K → K
  cosh : K → K
  sinh : K → K
  sqrt : K → K

/-- Modelled from the spec: a 4-vector by its Cartesian momentum components and its
energy. -/
structure PxPyPzEVector (K : Type) where
  Px : K
  Py : K
  Pz : K
  E : K

/-- Modelled from the spec: the 4-momentum of a track candidate "(pt, eta, phi, fixed lepton
mass hypothesis)" of spec 4.1, the vector `v1(t1.pt(), t1.eta(), t1.phi(), MassElectron)`
of line 541: `px = pt cos(phi)`, `py = pt sin(phi)`, `pz = pt sinh(eta)` and
`E = sqrt(pt^2 cosh(eta)^2 + m^2)`. -/
def legVector {K : Type} [Field K] (f : Elementary K) (pt eta phi m : K) : PxPyPzEVector K :=
  { Px := pt * f.cos phi
    Py := pt * f.sin phi
    Pz := pt * f.sinh eta
    E := f.sqrt (pt * pt * (f.cosh eta * f.cosh eta) + m * m) }

/-- Modelled from the spec: the "4-vector sum" of spec 4.1, `v1 + v2` of line 543. -/
def vectorSum {K : Type} [Field K] (a b : PxPyPzEVector K) : PxPyPzEVector K :=
  { Px := a.Px + b.Px, Py := a.Py + b.Py, Pz := a.Pz + b.Pz, E := a.E + b.E }

/-- Modelled from the spec: the "invariant mass" of spec 4.1, `v12.M()`:
`sqrt(E^2 - px^2 - py^2 - pz^2)`. -/
def invariantMass {K : Type} [Field K] (f : Elementary K) (v : PxPyPzEVector K) : K :=
  f.sqrt (v.E * v.E - v.Px * v.Px - v.Py * v.Py - v.Pz * v.Pz)

/-- Modelled from the spec: the invariant mass of the sum of two legs taken with the mass
`m` (lines 541-543 and the first entry of the `hs` fills). -/
def pairMass {K : Type} [Field K] (f : Elementary K) (pt1 eta1 phi1 pt2 eta2 phi2 m : K) : K :=
  invariantMass f (vectorSum (legVector f pt1 eta1 phi1 m) (legVector f pt2 eta2 phi2 m))

/-! ## Vocabulary of the statements -/

/-- The histogram `name` lies under the directory `dir` (`dir` is an initial segment of
`name`). -/
def under (dir name : String) : Bool :=
  dir.data.isPrefixOf name.data

/-- A resonance bucket of reconstructed pairs. -/
def isResonanceName (name : String) : Bool :=
  under "Pair/sm/" name

/-- A heavy-flavour bucket, of reconstructed or of generated pairs. -/
def isHeavyFlavourName (name : String) : Bool :=
  under "Pair/ccbar/" name || under "Pair/bbbar/" name ||
  under "Generated/ccbar/" name || under "Generated/bbbar/" name

/-- The directories of the five heavy-flavour categories of reconstructed pairs
(lines 224-231). -/
def hfCategoryDirs : List String :=
  ["Pair/ccbar/c2e_c2e/", "Pair/bbbar/b2e_b2e/", "Pair/bbbar/b2c2e_b2c2e/",
   "Pair/bbbar/b2c2e_b2e_sameb/", "Pair/bbbar/b2c2e_b2e_diffb/"]

/-- The task `s'` is `s` after the fills `extra`, made in that order. -/
def FillsAdded (s s' : Task) (extra : List Fill) : Prop :=
  s'.fills = s.fills ++ extra

/-- The result of the search of `FindLF` for the mother code `code`. -/
def search (posmc elemc : MCParticle) (mcparticles : List MCParticle) (code : Int) : Int :=
  FindCommonMotherFrom2Prongs posmc elemc (-11) 11 code mcparticles

/-- The result the spec's "first match wins" reading gives `FindLF`: the match of the
first code of the allow-list whose search matches, `-1` when none does. -/
def firstMatch (posmc elemc : MCParticle) (mcparticles : List MCParticle) : Int :=
  ((allowList.map (search posmc elemc mcparticles)).find? (fun r => decide (0 ≤ r))).getD (-1)

/-- All the fills made between `s` and `s'` have a name satisfying `P`. -/
def OnlyFills (P : String → Prop) (s s' : Task) : Prop :=
  ∃ extra, FillsAdded s s' extra ∧ ∀ f ∈ extra, P f.name

/-- The pair directory and the track source (index into `ele_source_types`) of the
prompt / non-prompt rule for a quarkonium mother code (443, otherwise 100443) and the
outcome of the beauty test. -/
def quarkoniumBucket (code : Nat) (fromBeauty : Bool) : String × Nat :=
  if code = 443 then
    if fromBeauty then ("Pair/sm/NonPromptJPsi/", 3) else ("Pair/sm/PromptJPsi/", 2)
  else
    if fromBeauty then ("Pair/sm/NonPromptPsi2S/", 5) else ("Pair/sm/PromptPsi2S/", 4)

/-- The fills of the prompt / non-prompt rule for a bucket `(dir, source)`: the pair into
`dir` (`hs` and `hMvsPhiV`), then the tracks of the two legs into `Track/<source>/`. -/
def fillBucket (ext : Ext) (s : Task) (t1 t2 : Track) (bucket : String × Nat) : Task :=
  fillTrackInfo ext bucket.2
    (fillTrackInfo ext bucket.2
      (fill (fill s (bucket.1 ++ "hs") (pairHs ext s t1 t2))
        (bucket.1 ++ "hMvsPhiV") (pairMvsPhiV ext s t1 t2)) t1) t2

/-- The number of fills made so far into the single-track histograms (the histograms
under `Track/`). -/
def trackFillCount (s : Task) : Nat :=
  (s.fills.filter (fun f => under "Track/" f.name)).length

/-- The row index `x` is in the range of `int` (32 bits). -/
def fitsInt (x : Int) : Bool :=
  decide (-2147483648 ≤ x ∧ x < 2147483648)

/-- Between `s` and `s'` the track indices `ids` were recorded, each of them new and once,
and the single-track histograms received one set of fills (one per histogram of
`trackHists`) for each of them. -/
def TracksOnce (s s' : Task) : Prop :=
  ∃ ids, s'.used_trackIds = s.used_trackIds ++ ids ∧ ids.Nodup ∧
    (∀ i ∈ ids, i ∉ s.used_trackIds) ∧
    trackFillCount s' = trackFillCount s + trackHists.length * ids.length

/-- The collision loop of `processQCMC` reaches the collision and goes past the centrality
test: the collision is in the filtered table and the test does not `continue`. -/
def processQCMC_selects (cfg : Config) (collisions : List Collision) (collision : Collision) :
    Prop :=
  collision ∈ FilteredMyCollisions cfg collisions ∧
    centralityContinue cfg collision = some false

/-- The collision loop of `processGen`, which iterates over the unfiltered table, goes past
the centrality test. -/
def processGen_selects (cfg : Config) (collisions : List Collision) (collision : Collision) :
    Prop :=
  collision ∈ collisions ∧ centralityContinue cfg collision = some false

/-- The lineage of `p`, its ancestors through the mother chain, contains a beauty hadron. -/
def lineageHasBeauty (isBeautyHadron : MCParticle → Bool) (p : MCParticle)
    (mcparticles : List MCParticle) : Bool :=
  (motherChain mcparticles mcparticles.length p).any (fun m =>
    match iteratorAt mcparticles m with
    | some mp => isBeautyHadron mp
    | none => false)

/-! ## Sample inputs -/

/-- Codes taken as charm mesons, charm baryons, beauty mesons and beauty baryons by the
sample collaborators below. -/
def sampleFamilies : List Nat × List Nat × List Nat × List Nat :=
  ([411, 421, 431], [4122, 4232, 4132], [511, 521, 531], [5122, 5232, 5132])

/-- Sample collaborators: every cut passes; the family tests read the code of the
particle; `IsHF` reads the first mothers only (both charm: `kCe_Ce`, both beauty: `kBe_Be`,
otherwise `-1`); `IsFromBeauty` returns the index of a beauty first mother, else `-999`;
the numeric operations are simple rational stand-ins. -/
def sampleExt : Ext :=
  let isC : MCParticle → Bool := fun p =>
    decide (p.pdgCode.natAbs ∈ sampleFamilies.1 ∨ p.pdgCode.natAbs ∈ sampleFamilies.2.1)
  let isB : MCParticle → Bool := fun p =>
    decide (p.pdgCode.natAbs ∈ sampleFamilies.2.2.1 ∨ p.pdgCode.natAbs ∈ sampleFamilies.2.2.2)
  { kPIDML := 4
    IsSelectedTrack := fun _ => true
    IsSelectedTrackML := fun _ _ => true
    IsSelectedPair := fun _ _ _ => true
    IsSelected := fun _ => true
    IsHF := fun p1 p2 tbl =>
      match (firstMother p1).bind (iteratorAt tbl), (firstMother p2).bind (iteratorAt tbl) with
      | some m1, some m2 =>
        if isC m1 && isC m2 then 0 else if isB m1 && isB m2 then 1 else -1
      | _, _ => -1
    IsFromBeauty := fun p tbl =>
      match firstMother p with
      | some m =>
        match iteratorAt tbl m with
        | some mp => if isB mp then m else -999
        | none => -999
      | none => -999
    isCharmMeson := fun p => decide (p.pdgCode.natAbs ∈ sampleFamilies.1)
    isCharmBaryon := fun p => decide (p.pdgCode.natAbs ∈ sampleFamilies.2.1)
    isBeautyMeson := fun p => decide (p.pdgCode.natAbs ∈ sampleFamilies.2.2.1)
    isBeautyBaryon := fun p => decide (p.pdgCode.natAbs ∈ sampleFamilies.2.2.2)
    kCe_Ce := 0
    kBe_Be := 1
    kBCe_BCe := 2
    kBCe_Be_SameB := 3
    kBCe_Be_DiffB := 4
    MassElectron := 511 / 1000000
    MassProton := 938 / 1000
    M_PI := 355 / 113
    makeVector := fun pt eta phi m => ⟨pt, eta, phi, m⟩
    vsum := fun a b => ⟨a.Pt + b.Pt, (a.Eta + b.Eta) / 2, (a.Phi + b.Phi) / 2, a.M + b.M⟩
    Rapidity := fun v => v.Eta
    bringToPMPi := fun x => x
    sqrt := fun x => x
    dca3DinSigma := fun _ => 1
    getPhivPair := fun _ _ _ _ _ _ _ _ _ => 0
    getAngleCS := fun _ _ _ _ _ _ _ _ => (0, 0)
    getAngleCSMC := fun _ _ _ _ _ _ _ _ => (0, 0)
    trackHist := fun t _ => [t.pt] }

/-- The default values of the configurables (lines 63-72, 118, 150-153). -/
def defaultConfig : Config :=
  { grpPath := "GLO/GRP/GRP"
    grpmagPath := "GLO/Config/GRPMagField"
    skipGRPOquery := true
    d_bz_input := -999
    cfgCentEstimator := 2
    cfgCentMin := 0
    cfgCentMax := 999
    maxY := 9 / 10
    cfg_pid_scheme := 2
    min_mcPt := 5 / 100
    max_mcPt := 10000000000
    min_mcEta := -9 / 10
    max_mcEta := 9 / 10 }

/-- The default configuration with a magnetic-field override of 5 kG. -/
def overrideConfig : Config :=
  { defaultConfig with d_bz_input := 5 }

/-- A primary MC particle of the sample tables with code `pdg`, first mothers `mothers` and
daughters `daughters`, at pt 1, eta 0, phi 0. -/
def sampleParticle (pdg : Int) (mothers daughters : List Int) : MCParticle :=
  { pdgCode := pdg, isPhysicalPrimary := true, producedByGenerator := true, emmceventId := 0,
    mothersIds := mothers, daughtersIds := daughters, pt := 1, eta := 0, phi := 0, y := 0 }

/-- A reconstructed track with index `idx` and charge sign `sign` matched to `mc`. -/
def sampleTrack (idx sign : Int) (mc : MCParticle) : Track :=
  { globalIndex := idx, sign := sign, pt := 1, eta := 0, phi := 0, px := 1, py := 0, pz := 0,
    dcaXY := 0, dcaZ := 0, tpcChi2NCl := 1, itsChi2NCl := 1, emmcparticle := mc }

/-- A collision of run `run`. -/
def sampleCollision (run : Int) : Collision :=
  { globalIndex := 0, runNumber := run, timestamp := 1700000000000, centFT0M := 10,
    centFT0A := 10, centFT0C := 10, emmceventId := 0 }

/-- Upsilon(4S) -> B+ B-, each B decaying to an electron: rows 0 to 4. -/
def upsilonTable : List MCParticle :=
  [sampleParticle 300553 [] [1, 2], sampleParticle 521 [0] [3], sampleParticle (-521) [0] [4],
   sampleParticle (-11) [1] [], sampleParticle 11 [2] []]

/-- An eta' decaying to rho0 gamma, the rho0 to e+ e-: rows 0 to 3. -/
def etaPrimeTable : List MCParticle :=
  [sampleParticle 331 [] [1], sampleParticle 113 [0] [2, 3], sampleParticle (-11) [1] [],
   sampleParticle 11 [1] []]

/-- A proton (row 0), a B0 (row 1) decaying to a J/psi (row 2), the J/psi decaying to
e+ e- (rows 3 and 4). -/
def nonPromptJPsiTable : List MCParticle :=
  [sampleParticle 2212 [] [1], sampleParticle 511 [0] [2], sampleParticle 443 [1] [3, 4],
   sampleParticle (-11) [2] [], sampleParticle 11 [2] []]

/-- A D0 and an anti-D0, each decaying to an electron: rows 0 to 3. -/
def charmTable : List MCParticle :=
  [sampleParticle 421 [] [2], sampleParticle (-421) [] [3], sampleParticle (-11) [0] [],
   sampleParticle 11 [1] []]

/-- Two electrons from two charged pions (no resonance, no heavy flavour): rows 0 to 3. -/
def backgroundTable : List MCParticle :=
  [sampleParticle 211 [] [2], sampleParticle (-211) [] [3], sampleParticle (-11) [0] [],
   sampleParticle 11 [1] []]

/-- A conditions database holding an L3 current of 30000 A and proton beams of 6800 GeV
for every path and timestamp, and no `GRPObject`. -/
def sampleCCDB : CCDB :=
  { getGRPObject := fun _ _ => none
    getGRPMagField := fun _ _ => some 30000
    getGRPLHCIFData := fun _ _ => some
      { beamZ_C := 1, beamZ_A := 1, beamA_C := 1, beamA_A := 1,
        beamEnergyPerNucleonInGeV_C := 6800, beamEnergyPerNucleonInGeV_A := 6800 } }

/-- The same database without the `GRPLHCIF` object. -/
def ccdbWithoutLHCIF : CCDB :=
  { sampleCCDB with getGRPLHCIFData := fun _ _ => none }

/-- The same database without the `GRPMagField` object. -/
def ccdbWithoutMagField : CCDB :=
  { sampleCCDB with getGRPMagField := fun _ _ => none }

/-- The default values of the configurables of the group `dielectroncuts`
(lines 97-116). -/
def defaultCuts : DielectronCutGroup :=
  { cfg_min_mass := 0
    cfg_max_mass := 10000000000
    cfg_min_pair_dca3d := 0
    cfg_max_pair_dca3d := 10000000000
    cfg_apply_phiv := true
    cfg_apply_pf := false
    cfg_require_itsib_any := true
    cfg_require_itsib_1st := false
    cfg_phiv_slope := 185 / 10000
    cfg_phiv_intercept := -28 / 1000
    cfg_min_pt_track := 2 / 10
    cfg_max_eta_track := 8 / 10
    cfg_min_ncluster_tpc := 0
    cfg_min_ncluster_its := 5
    cfg_min_ncrossedrows := 100
    cfg_max_chi2tpc := 4
    cfg_max_chi2its := 5
    cfg_max_dcaxy := 1
    cfg_max_dcaz := 1 }

/-- A track at the given pt, eta and DCA values, its other columns well inside the cuts. -/
def kinematicTrack (pt eta dcaXY dcaZ : ℚ) : Track :=
  { sampleTrack 0 1 (sampleParticle (-11) [] []) with
    pt := pt, eta := eta, dcaXY := dcaXY, dcaZ := dcaZ }

/-- A stand-in for `IsHF` on the sample tables, reading the first mother and the
grandmother of each leg: both mothers charm with beauty grandmothers give `kBCe_BCe` (2),
both mothers charm `kCe_Ce` (0), both mothers beauty `kBe_Be` (1), one mother beauty and
the other charm with a beauty grandmother `kBCe_Be_SameB` (3) when that grandmother is the
first leg's beauty mother and `kBCe_Be_DiffB` (4) otherwise; `-1` in every other case. -/
def sampleIsHF (p1 p2 : MCParticle) (mcparticles : List MCParticle) : Int :=
  let isC : MCParticle → Bool := fun p =>
    decide (p.pdgCode.natAbs ∈ sampleFamilies.1 ∨ p.pdgCode.natAbs ∈ sampleFamilies.2.1)
  let isB : MCParticle → Bool := fun p =>
    decide (p.pdgCode.natAbs ∈ sampleFamilies.2.2.1 ∨ p.pdgCode.natAbs ∈ sampleFamilies.2.2.2)
  let fromB : MCParticle → Bool := fun m =>
    match (firstMother m).bind (iteratorAt mcparticles) with
    | some g => isB g
    | none => false
  match (firstMother p1).bind (iteratorAt mcparticles),
      (firstMother p2).bind (iteratorAt mcparticles) with
  | some m1, some m2 =>
    if isC m1 && isC m2 then (if fromB m1 && fromB m2 then 2 else 0)
    else if isB m1 && isB m2 then 1
    else if isB m1 && isC m2 && fromB m2 then
      (if firstMother m2 = firstMother p1 then 3 else 4)
    else if isC m1 && fromB m1 && isB m2 then
      (if firstMother m1 = firstMother p2 then 3 else 4)
    else -1
  | _, _ => -1

/-- The sample collaborators with `sampleIsHF` as `IsHF`. -/
def hfExt : Ext :=
  { sampleExt with IsHF := sampleIsHF }

/-- A B0 (row 0) and an anti-B0 (row 1), each decaying to a D meson (rows 2 and 3) that
decays to an electron (rows 4 and 5). -/
def beautyCharmTable : List MCParticle :=
  [sampleParticle 511 [] [2], sampleParticle (-511) [] [3], sampleParticle (-411) [0] [5],
   sampleParticle 411 [1] [4], sampleParticle (-11) [3] [], sampleParticle 11 [2] []]

/-- Event histograms of the samples: one counter fill per call. -/
def sampleEventUtil : EventUtil :=
  { fillEventInfo := fun ev_id _ => [⟨"Event/hCollisionCounter", [ev_id]⟩] }

/-- The default configuration with the rapidity bound set to 1/2. -/
def boundaryConfig : Config :=
  { defaultConfig with maxY := 1 / 2 }

/-- The electron legs of the J/psi of `nonPromptJPsiTable` at eta 1/2, as MC particles. -/
def boundaryLeg (pdg : Int) : MCParticle :=
  { sampleParticle pdg [2] [] with eta := 1 / 2 }

/-- A reconstructed track at eta 1/2 matched to `boundaryLeg pdg`. -/
def boundaryTrack (idx sign pdg : Int) : Track :=
  { sampleTrack idx sign (boundaryLeg pdg) with eta := 1 / 2 }

/-- A D0 and an anti-D0, each decaying to an electron of the same charge (code 11):
rows 0 to 3. -/
def likeSignCharmTable : List MCParticle :=
  [sampleParticle 421 [] [2], sampleParticle (-421) [] [3], sampleParticle 11 [0] [],
   sampleParticle 11 [1] []]

/-- A B0 (row 0) decaying to a positron (row 3) and an anti-B0 (row 1) decaying to a D-
(row 2) that decays to an electron (row 4). -/
def diffBTable : List MCParticle :=
  [sampleParticle 511 [] [3], sampleParticle (-511) [] [2], sampleParticle (-411) [1] [4],
   sampleParticle (-11) [0] [], sampleParticle 11 [2] []]

/-- The positron of the J/psi of `nonPromptJPsiTable`, reconstructed as track 0. -/
def sharedPositron : Track :=
  sampleTrack 0 1 (sampleParticle (-11) [2] [])

/-- The electron of the J/psi of `nonPromptJPsiTable`, reconstructed as track `idx`. -/
def electronCopy (idx : Int) : Track :=
  sampleTrack idx (-1) (sampleParticle 11 [2] [])

/-- The tables of one `processQCMC` call: one collision of run 1 with the positron track 0
and two tracks (1 and 2) matched to the same electron, so that track 0 takes part in two
classified pairs. -/
def sampleInput : QCMCInput :=
  { collisions := [sampleCollision 1]
    posTracks_per_coll := fun _ => [sharedPositron]
    negTracks_per_coll := fun _ => [electronCopy 1, electronCopy 2]
    mcparticles := nonPromptJPsiTable }

/-- The task at the end of the collision loop of a `processQCMC` call on `sampleInput`
when `initCCDB` has returned with the task `s`: the event histograms and counters are
filled and the two unlike-sign pairs are filled into the non-prompt J/psi bucket. -/
def sampleCall (s : Task) : Task :=
  let s : Task := { s with fills := s.fills ++ sampleEventUtil.fillEventInfo 0 (sampleCollision 1) }
  let s : Task := { s with fills := s.fills ++ sampleEventUtil.fillEventInfo 1 (sampleCollision 1) }
  let s := fill s "Event/before/hCollisionCounter" [10]
  let s := fill s "Event/after/hCollisionCounter" [10]
  let s := fillBucket sampleExt s sharedPositron (electronCopy 1) ("Pair/sm/NonPromptJPsi/", 3)
  fillBucket sampleExt s sharedPositron (electronCopy 2) ("Pair/sm/NonPromptJPsi/", 3)

/-- The task at the end of the collision loop of the first call on `sampleInput` with the
field override: run 1 is cached with the field 5 kG. -/
def sampleLoopResult : Task :=
  sampleCall { init sampleExt with d_bz := 5, mRunNumber := 1 }

/-- The task after two `processQCMC` calls on `sampleInput` with the field override. -/
def sampleCallsResult : Task :=
  { sampleCall { sampleLoopResult with used_trackIds := [] } with used_trackIds := [] }

/-- The sample collaborators with the wrap modelled from the spec as `bringToPMPi`. -/
def wrapExt : Ext :=
  { sampleExt with bringToPMPi := bringToPMPi (355 / 113) }

/-- A track at pt `pt` and azimuth `phi`, its other columns those of `kinematicTrack`. -/
def azimuthTrack (pt phi : ℚ) : Track :=
  { kinematicTrack pt 0 0 0 with phi := phi }

/-- A B0 (row 0) decaying to a D- (row 1) and a positron (row 2), the D- decaying to an
electron (row 3). -/
def sameBTable : List MCParticle :=
  [sampleParticle 511 [] [1, 2], sampleParticle (-411) [0] [3], sampleParticle (-11) [0] [],
   sampleParticle 11 [1] []]

/-- A collision of run 1 whose FT0C centrality is 0, the default `cfgCentMin`, the other
two estimators being at 10. -/
def edgeCollision : Collision :=
  { sampleCollision 1 with centFT0C := 0 }

/-- A collision of run 1 whose three centrality values are 0. -/
def zeroCentralityCollision : Collision :=
  { sampleCollision 1 with centFT0M := 0, centFT0A := 0, centFT0C := 0 }

end DielectronQCMC

/-!
# taskSingleMuonReader: the single-muon selection

Shallow embedding of `PWGHF/HFL/Tasks/taskSingleMuonReader.cxx`, with the conventions of
the first part: floating-point values are rationals, the registry is the list of fills, and
a table access that can be out of range returns `Option`.
-/

namespace HfTaskSingleMuonReader

/-- One row of `MyMuons` (the columns `process` reads); `trackType` is an unsigned 8-bit
column and `matchMCHTrackId` the index column behind `has_matchMCHTrack()` and
`matchMCHTrack_as<MyMuons>()`. -/
structure Muon where
  trackType : Nat
  eta : ℚ
  pDca : ℚ
  rAtAbsorberEnd : ℚ
  fwdDcaX : ℚ
  fwdDcaY : ℚ
  pt : ℚ
  sign : Int
  chi2MatchMCHMFT : ℚ
  matchMCHTrackId : Int

/-- One row of `MyCollisions` (the column `process` reads). -/
structure Collision where
  posZ : ℚ

/-- The configurables of the task (lines 36-42). -/
structure Config where
  trkType : Int
  etaMin : ℚ
  etaMax : ℚ
  pDcaMax : ℚ
  rAbsMax : ℚ
  rAbsMin : ℚ
  zVtx : ℚ

/-- One call `registry.fill(HIST(name), vals...)`. -/
structure Fill where
  name : String
  vals : List ℚ

/-- `muon.has_matchMCHTrack()`: the index column holds a row index (it is not negative). -/
def has_matchMCHTrack (muon : Muon) : Bool :=
  decide (0 ≤ muon.matchMCHTrackId)

/-- `muon.matchMCHTrack_as<MyMuons>()`: the row of the muon table at the index column;
`none` when the index is outside the table. -/
def matchMCHTrack_as (table : List Muon) (muon : Muon) : Option Muon :=
  if muon.matchMCHTrackId < 0 then none else table[muon.matchMCHTrackId.toNat]?

/-- Modelled from the spec: `RecoDecay::sqrtSumOfSquares` (`Common/Core/RecoDecay.h`, not
under src/), the square root of the sum of the squares of its arguments; the root of the
library is the parameter `sqrt`. -/
def sqrtSumOfSquares (sqrt : ℚ → ℚ) (x y : ℚ) : ℚ :=
  sqrt (x * x + y * y)

/-- Body of the muon loop of `HfTaskSingleMuonReader::process` (lines 72-97) for one muon:
the registry after the iteration (`continue` leaves it unchanged). -/
def processMuon (sqrt : ℚ → ℚ) (cfg : Config) (table : List Muon) (registry : List Fill)
    (muon : Muon) : Option (List Fill) :=
  if (muon.trackType : Int) ≠ cfg.trkType then some registry
  else
    let eta := muon.eta
    let pDca := muon.pDca
    let rAbs := muon.rAtAbsorberEnd
    let dcaXY := sqrtSumOfSquares sqrt muon.fwdDcaX muon.fwdDcaY
    let pt := muon.pt
    let charge := muon.sign
    let chi2 := muon.chi2MatchMCHMFT
    if eta ≥ cfg.etaMax ∨ eta < cfg.etaMin then some registry
    else if rAbs ≥ cfg.rAbsMax ∨ rAbs < cfg.rAbsMin then some registry
    else if pDca ≥ cfg.pDcaMax then some registry
    else if has_matchMCHTrack muon then
      match matchMCHTrack_as table muon with
      | none => none
      | some muonType3 =>
        let Dpt := muonType3.pt - pt
        some (registry ++ [⟨"hMuAfterCuts", [pt, eta, dcaXY, charge, chi2, Dpt]⟩])
    else some registry

/-- The muon loop of `process` (lines 71-98). -/
def processMuons (sqrt : ℚ → ℚ) (cfg : Config) (table : List Muon) :
    List Fill → List Muon → Option (List Fill)
  | registry, [] => some registry
  | registry, muon :: rest =>
    match processMuon sqrt cfg table registry muon with
    | none => none
    | some registry' => processMuons sqrt cfg table registry' rest

/-- `HfTaskSingleMuonReader::process` (lines 68-100) on the registry `registry`: `table` is
the whole muon table, `muons` the muons of the collision. -/
def process (sqrt : ℚ → ℚ) (cfg : Config) (table : List Muon) (registry : List Fill)
    (collision : Collision) (muons : List Muon) : Option (List Fill) :=
  processMuons sqrt cfg table (registry ++ [⟨"hVtxZ", [collision.posZ]⟩]) muons

/-! ## Vocabulary of the statements -/

/-- The selection in the words of C30: the track type is `trkType`,
`etaMin <= eta < etaMax`, `rAbsMin <= rAtAbsorberEnd < rAbsMax`, `pDca < pDcaMax`, and the
muon has a matched MCH track. -/
def selectedMuon (cfg : Config) (muon : Muon) : Bool :=
  decide ((muon.trackType : Int) = cfg.trkType ∧ cfg.etaMin ≤ muon.eta ∧ muon.eta < cfg.etaMax ∧
    cfg.rAbsMin ≤ muon.rAtAbsorberEnd ∧ muon.rAtAbsorberEnd < cfg.rAbsMax ∧
    muon.pDca < cfg.pDcaMax ∧ 0 ≤ muon.matchMCHTrackId)

/-- The fill in the words of C30: `(pt, eta, sqrt(fwdDcaX^2 + fwdDcaY^2), sign,
chi2MatchMCHMFT, matched-track pt - pt)` into `hMuAfterCuts`. -/
def muonFill (sqrt : ℚ → ℚ) (muon matched : Muon) : Fill :=
  ⟨"hMuAfterCuts", [muon.pt, muon.eta, sqrt (muon.fwdDcaX * muon.fwdDcaX +
    muon.fwdDcaY * muon.fwdDcaY), muon.sign, muon.chi2MatchMCHMFT, matched.pt - muon.pt]⟩

/-- The fills of the selected muons of a list, in order, each with its matched row. -/
def selectedFills (sqrt : ℚ → ℚ) (cfg : Config) (table : List Muon) (muons : List Muon) :
    List Fill :=
  muons.filterMap (fun muon =>
    if selectedMuon cfg muon then (matchMCHTrack_as table muon).map (muonFill sqrt muon)
    else none)

/-! ## Sample inputs -/

/-- The default values of the configurables (lines 36-42). -/
def defaultConfig : Config :=
  { trkType := 0, etaMin := -36 / 10, etaMax := -25 / 10, pDcaMax := 594,
    rAbsMax := 895 / 10, rAbsMin := 265 / 10, zVtx := 10 }

/-- A global muon (type 0) inside the acceptance, matched to row 1 of `sampleMuons`. -/
def globalMuon : Muon :=
  { trackType := 0, eta := -3, pDca := 100, rAtAbsorberEnd := 50, fwdDcaX := 3, fwdDcaY := 4,
    pt := 2, sign := 1, chi2MatchMCHMFT := 7, matchMCHTrackId := 1 }

/-- The MCH track (type 3) of `globalMuon`, at pt 5/2. -/
def mchTrack : Muon :=
  { trackType := 3, eta := -3, pDca := 100, rAtAbsorberEnd := 50, fwdDcaX := 0, fwdDcaY := 0,
    pt := 5 / 2, sign := 1, chi2MatchMCHMFT := 0, matchMCHTrackId := -1 }

/-- A global muon with `eta` exactly the default `etaMax`. -/
def edgeMuon : Muon :=
  { globalMuon with eta := -25 / 10 }

/-- A global muon inside the acceptance without a matched MCH track. -/
def unmatchedMuon : Muon :=
  { globalMuon with matchMCHTrackId := -1 }

/-- A muon table: `globalMuon`, its MCH track, `edgeMuon` and `unmatchedMuon`. -/
def sampleMuons : List Muon :=
  [globalMuon, mchTrack, edgeMuon, unmatchedMuon]

/-- A stand-in for the square root, exact on 25. -/
def sampleSqrt (x : ℚ) : ℚ :=
  if x = 25 then 5 else x

end HfTaskSingleMuonReader

namespace DielectronQCMC

/-! # Theorems -/

/-! ## Lemmas on the resonance search -/

theorem max_element_mem (a : Int) (rest : List Int) : max_element a rest ∈ a :: rest := by
  unfold max_element
  induction rest generalizing a with
  | nil => simp
  | cons b rest ih =>
    simp only [List.foldl_cons]
    have h := ih (max a b)
    rcases List.mem_cons.mp h with h | h
    · rcases max_choice a b with hm | hm
      · rw [h, hm]; simp
      · rw [h, hm]; simp
    · exact List.mem_cons_of_mem _ (List.mem_cons_of_mem _ h)

theorem le_max_element (a : Int) (rest : List Int) :
    ∀ x ∈ a :: rest, x ≤ max_element a rest := by
  unfold max_element
  induction rest generalizing a with
  | nil => simp
  | cons b rest ih =>
    intro x hx
    simp only [List.foldl_cons]
    rcases List.mem_cons.mp hx with hx | hx
    · exact le_trans (by rw [hx]; exact le_max_left a b) (ih (max a b) _ (List.mem_cons_self _ _))
    · rcases List.mem_cons.mp hx with hx | hx
      · exact le_trans (by rw [hx]; exact le_max_right a b) (ih (max a b) _ (List.mem_cons_self _ _))
      · exact ih (max a b) x (List.mem_cons_of_mem _ hx)

theorem motherChain_valid (mcparticles : List MCParticle) (fuel : Nat) (p : MCParticle) :
    ∀ m ∈ motherChain mcparticles fuel p, 0 ≤ m ∧ (iteratorAt mcparticles m).isSome := by
  induction fuel generalizing p with
  | zero => simp [motherChain]
  | succ fuel ih =>
    intro m hm
    unfold motherChain at hm
    split at hm
    · simp at hm
    · rename_i m0 _ _
      split at hm
      · simp at hm
      · rename_i mp hmp
        rcases List.mem_cons.mp hm with h | h
        · subst h
          refine ⟨?_, by simp [hmp]⟩
          unfold iteratorAt at hmp
          split at hmp
          · simp at hmp
          · omega
        · exact ih mp m h

theorem FindCommonMotherFrom2Prongs_cases (p1 p2 : MCParticle) (e1 e2 em : Int)
    (mcparticles : List MCParticle) :
    FindCommonMotherFrom2Prongs p1 p2 e1 e2 em mcparticles = -1 ∨
    (((p1.pdgCode = e1 ∧ p2.pdgCode = e2) ∨ (p1.pdgCode = e2 ∧ p2.pdgCode = e1)) ∧
      0 ≤ FindCommonMotherFrom2Prongs p1 p2 e1 e2 em mcparticles ∧
      ∃ mp, iteratorAt mcparticles (FindCommonMotherFrom2Prongs p1 p2 e1 e2 em mcparticles)
          = some mp ∧ mp.pdgCode = em) := by
  unfold FindCommonMotherFrom2Prongs
  split
  · rename_i hlegs
    split
    · rename_i m hfind
      right
      have hmem := List.mem_of_find?_eq_some hfind
      have hp := List.find?_some hfind
      have hv := motherChain_valid mcparticles _ p1 m hmem
      refine ⟨hlegs, hv.1, ?_⟩
      simp only [Bool.and_eq_true, decide_eq_true_eq] at hp
      rcases hp with ⟨_, hp⟩
      split at hp
      · rename_i mp hmp
        exact ⟨mp, hmp, by simpa using hp⟩
      · simp at hp
    · left; rfl
  · left; rfl

theorem onlyFills_refl (P : String → Prop) (s : Task) : OnlyFills P s s :=
  ⟨[], by simp [FillsAdded], by simp⟩

theorem onlyFills_fill {P : String → Prop} {s s1 : Task} (name : String) (vals : List ℚ)
    (h : OnlyFills P s s1) (hn : P name) : OnlyFills P s (fill s1 name vals) := by
  obtain ⟨extra, he, hp⟩ := h
  refine ⟨extra ++ [⟨name, vals⟩], ?_, ?_⟩
  · simp only [FillsAdded] at he ⊢
    simp only [fill, he, List.append_assoc]
  · intro f hf
    rcases List.mem_append.mp hf with hf | hf
    · exact hp f hf
    · rw [List.mem_singleton] at hf; subst hf; exact hn

theorem under_append (dir rest : String) : under dir (dir ++ rest) = true := by
  simp [under, String.data_append]

theorem onlyFills_track {P : String → Prop} {s s1 : Task} (ext : Ext) (id : Nat) (t : Track)
    (h : OnlyFills P s s1) (hn : ∀ n, under "Track/" n = true → P n) :
    OnlyFills P s (fillTrackInfo ext id s1 t) := by
  obtain ⟨extra, he, hp⟩ := h
  unfold fillTrackInfo
  split
  · exact ⟨extra, he, hp⟩
  · refine ⟨extra ++ trackHists.map (fun h =>
        ⟨"Track/" ++ ele_source_types.getD id "" ++ h, ext.trackHist t h⟩), ?_, ?_⟩
    · simp only [FillsAdded] at he ⊢
      simp [he]
    · intro f hf
      rcases List.mem_append.mp hf with hf | hf
      · exact hp f hf
      · obtain ⟨h, _, rfl⟩ := List.mem_map.mp hf
        apply hn
        rw [String.append_assoc]
        exact under_append _ _

theorem under_exclusive (a b : String) {n : String} (hab : a.data.isPrefixOf b.data = false)
    (hba : b.data.isPrefixOf a.data = false) (ha : under a n = true) : under b n = false := by
  by_contra hb
  simp only [Bool.not_eq_false] at hb
  unfold under at ha hb
  rw [List.isPrefixOf_iff_prefix] at ha hb
  rcases List.prefix_or_prefix_of_prefix ha hb with h | h
  · rw [← List.isPrefixOf_iff_prefix] at h; simp [h] at hab
  · rw [← List.isPrefixOf_iff_prefix] at h; simp [h] at hba

theorem onlyFills_ite {P : String → Prop} {s a b : Task} (c : Prop) [Decidable c]
    (ha : OnlyFills P s a) (hb : OnlyFills P s b) : OnlyFills P s (if c then a else b) := by
  split
  · exact ha
  · exact hb

theorem sm_only (ext : Ext) (s : Task) (t1 t2 : Track) (mcparticles : List MCParticle)
    (mcmother : MCParticle) :
    OnlyFills (fun n => under "Pair/sm/" n = true ∨ under "Track/" n = true) s
      (fillTruePairInfo_sm ext s t1 t2 mcparticles mcmother) := by
  unfold fillTruePairInfo_sm
  generalize pairHs ext s t1 t2 = hs
  generalize pairMvsPhiV ext s t1 t2 = mphiv
  dsimp only
  repeat (first
    | with_reducible exact onlyFills_refl _ _
    | with_reducible apply onlyFills_ite
    | (with_reducible apply onlyFills_track; rotate_left; exact fun n hn => Or.inr hn)
    | (with_reducible apply onlyFills_fill; rotate_left; exact Or.inl (by decide)))

theorem fillTruePairInfo_cases (ext : Ext) (cfg : Config) (s : Task) (collision : Collision)
    (t1 t2 : Track) (mcparticles : List MCParticle) (r : Option (Bool × Task))
    (hr : fillTruePairInfo ext cfg s collision t1 t2 mcparticles = r) :
    r = some (false, s) ∨
    (¬ (FindLF t1.emmcparticle t2.emmcparticle mcparticles < 0 ∧
        ext.IsHF t1.emmcparticle t2.emmcparticle mcparticles < 0) ∧
      ((FindLF t1.emmcparticle t2.emmcparticle mcparticles > -1 ∧
          t1.emmcparticle.pdgCode * t2.emmcparticle.pdgCode < 0 ∧
          r = (iteratorAt mcparticles (FindLF t1.emmcparticle t2.emmcparticle mcparticles)).map
              (fun mcmother => (true, fillTruePairInfo_sm ext s t1 t2 mcparticles mcmother))) ∨
       (¬ (FindLF t1.emmcparticle t2.emmcparticle mcparticles > -1 ∧
            t1.emmcparticle.pdgCode * t2.emmcparticle.pdgCode < 0) ∧
          (r = some (true, s) ∨ r = none ∨
           ∃ mp1 mp2, r = some (true, fillTruePairInfo_hf ext s t1 t2
               (ext.IsHF t1.emmcparticle t2.emmcparticle mcparticles) mp1 mp2))))) := by
  unfold fillTruePairInfo at hr
  dsimp only at hr
  by_cases h1 : trackCutFails ext cfg collision t1 t2 = true
  · rw [if_pos h1] at hr; exact Or.inl hr.symm
  rw [if_neg h1] at hr
  by_cases h2 : (!ext.IsSelectedPair t1 t2 s.d_bz) = true
  · rw [if_pos h2] at hr; exact Or.inl hr.symm
  rw [if_neg h2] at hr
  by_cases h3 : t1.emmcparticle.pdgCode.natAbs ≠ 11 ∨ t2.emmcparticle.pdgCode.natAbs ≠ 11
  · rw [if_pos h3] at hr; exact Or.inl hr.symm
  rw [if_neg h3] at hr
  by_cases h4 : t1.emmcparticle.emmceventId ≠ t2.emmcparticle.emmceventId
  · rw [if_pos h4] at hr; exact Or.inl hr.symm
  rw [if_neg h4] at hr
  by_cases h5 : FindLF t1.emmcparticle t2.emmcparticle mcparticles < 0 ∧
      ext.IsHF t1.emmcparticle t2.emmcparticle mcparticles < 0
  · rw [if_pos h5] at hr; exact Or.inl hr.symm
  rw [if_neg h5] at hr
  by_cases h6 : |ext.Rapidity (ext.vsum (ext.makeVector t1.pt t1.eta t1.phi ext.MassElectron)
      (ext.makeVector t2.pt t2.eta t2.phi ext.MassElectron))| > cfg.maxY
  · rw [if_pos h6] at hr; exact Or.inl hr.symm
  rw [if_neg h6] at hr
  refine Or.inr ⟨h5, ?_⟩
  by_cases h7 : FindLF t1.emmcparticle t2.emmcparticle mcparticles > -1 ∧
      t1.emmcparticle.pdgCode * t2.emmcparticle.pdgCode < 0
  · rw [if_pos h7] at hr
    refine Or.inl ⟨h7.1, h7.2, ?_⟩
    rw [← hr]
    cases iteratorAt mcparticles (FindLF t1.emmcparticle t2.emmcparticle mcparticles) <;> rfl
  rw [if_neg h7] at hr
  refine Or.inr ⟨h7, ?_⟩
  by_cases h8 : ext.IsHF t1.emmcparticle t2.emmcparticle mcparticles > -1
  · rw [if_pos h8] at hr
    by_cases h9 : (isPrimary t1.emmcparticle && isPrimary t2.emmcparticle) = true
    · rw [if_pos h9] at hr
      split at hr
      · exact Or.inr (Or.inr ⟨_, _, hr.symm⟩)
      · exact Or.inr (Or.inl hr.symm)
    · rw [if_neg h9] at hr; exact Or.inl hr.symm
  · rw [if_neg h8] at hr; exact Or.inl hr.symm

theorem exists_onlyFills_ite {P : String → String → Prop} {s a b : Task} (c : Prop)
    [Decidable c]
    (ha : ∃ d ∈ hfCategoryDirs, OnlyFills (P d) s a)
    (hb : ∃ d ∈ hfCategoryDirs, OnlyFills (P d) s b) :
    ∃ d ∈ hfCategoryDirs, OnlyFills (P d) s (if c then a else b) := by
  split
  · exact ha
  · exact hb

theorem hf_only (ext : Ext) (s : Task) (t1 t2 : Track) (hfee_type : Int)
    (mp1 mp2 : MCParticle) :
    ∃ d ∈ hfCategoryDirs,
      OnlyFills (fun n => under d n = true ∨ under "Track/" n = true) s
        (fillTruePairInfo_hf ext s t1 t2 hfee_type mp1 mp2) := by
  unfold fillTruePairInfo_hf
  generalize pairHs ext s t1 t2 = hs
  dsimp only
  repeat (first
    | with_reducible apply exists_onlyFills_ite
    | focus
        refine ⟨"Pair/ccbar/c2e_c2e/", by decide, ?_⟩
        repeat (first
          | with_reducible exact onlyFills_refl _ _
          | with_reducible apply onlyFills_ite
          | (with_reducible apply onlyFills_track; rotate_left; exact fun n hn => Or.inr hn)
          | (with_reducible apply onlyFills_fill; rotate_left; exact Or.inl (by decide)))
        done
    | focus
        refine ⟨"Pair/bbbar/b2e_b2e/", by decide, ?_⟩
        repeat (first
          | with_reducible exact onlyFills_refl _ _
          | with_reducible apply onlyFills_ite
          | (with_reducible apply onlyFills_track; rotate_left; exact fun n hn => Or.inr hn)
          | (with_reducible apply onlyFills_fill; rotate_left; exact Or.inl (by decide)))
        done
    | focus
        refine ⟨"Pair/bbbar/b2c2e_b2c2e/", by decide, ?_⟩
        repeat (first
          | with_reducible exact onlyFills_refl _ _
          | with_reducible apply onlyFills_ite
          | (with_reducible apply onlyFills_track; rotate_left; exact fun n hn => Or.inr hn)
          | (with_reducible apply onlyFills_fill; rotate_left; exact Or.inl (by decide)))
        done
    | focus
        refine ⟨"Pair/bbbar/b2c2e_b2e_sameb/", by decide, ?_⟩
        repeat (first
          | with_reducible exact onlyFills_refl _ _
          | with_reducible apply onlyFills_ite
          | (with_reducible apply onlyFills_track; rotate_left; exact fun n hn => Or.inr hn)
          | (with_reducible apply onlyFills_fill; rotate_left; exact Or.inl (by decide)))
        done
    | focus
        refine ⟨"Pair/bbbar/b2c2e_b2e_diffb/", by decide, ?_⟩
        repeat (first
          | with_reducible exact onlyFills_refl _ _
          | with_reducible apply onlyFills_ite
          | (with_reducible apply onlyFills_track; rotate_left; exact fun n hn => Or.inr hn)
          | (with_reducible apply onlyFills_fill; rotate_left; exact Or.inl (by decide))))

theorem FindLF_eq_max_element (posmc elemc : MCParticle) (mcparticles : List MCParticle) :
    FindLF posmc elemc mcparticles =
      max_element (search posmc elemc mcparticles 22)
        (allowList.tail.map (search posmc elemc mcparticles)) := rfl

theorem FindLF_mem_results (posmc elemc : MCParticle) (mcparticles : List MCParticle) :
    FindLF posmc elemc mcparticles ∈ allowList.map (search posmc elemc mcparticles) := by
  rw [FindLF_eq_max_element]
  exact max_element_mem _ _

theorem results_le_FindLF (posmc elemc : MCParticle) (mcparticles : List MCParticle) :
    ∀ r ∈ allowList.map (search posmc elemc mcparticles), r ≤ FindLF posmc elemc mcparticles := by
  rw [FindLF_eq_max_element]
  exact le_max_element _ _

theorem FindLF_nonneg (posmc elemc : MCParticle) (mcparticles : List MCParticle)
    (h : 0 ≤ FindLF posmc elemc mcparticles) :
    posmc.pdgCode * elemc.pdgCode < 0 ∧
    ∃ code ∈ allowList, search posmc elemc mcparticles code = FindLF posmc elemc mcparticles ∧
      ∃ mcmother, iteratorAt mcparticles (FindLF posmc elemc mcparticles) = some mcmother ∧
        mcmother.pdgCode = code := by
  obtain ⟨code, hcode, heq⟩ := List.mem_map.mp (FindLF_mem_results posmc elemc mcparticles)
  rcases FindCommonMotherFrom2Prongs_cases posmc elemc (-11) 11 code mcparticles with hneg | hpos
  · unfold search at heq
    rw [← heq, hneg] at h
    omega
  · obtain ⟨hlegs, _, mp, hmp, hpdg⟩ := hpos
    refine ⟨?_, code, hcode, heq, mp, ?_, hpdg⟩
    · rcases hlegs with ⟨h1, h2⟩ | ⟨h1, h2⟩ <;> rw [h1, h2] <;> decide
    · rw [← heq]; exact hmp

theorem processGen_sm_only (ext : Ext) (s : Task) (t1 t2 : MCParticle)
    (mcparticles : List MCParticle) (mcmother : MCParticle) :
    OnlyFills (fun n => under "Generated/sm/" n = true) s
      (processGen_sm ext s t1 t2 mcparticles mcmother) := by
  unfold processGen_sm
  generalize genHs ext s t1 t2 = hs
  dsimp only
  repeat (first
    | with_reducible exact onlyFills_refl _ _
    | with_reducible apply onlyFills_ite
    | (with_reducible apply onlyFills_fill; rotate_left; exact (by decide)))

theorem processGen_cases (ext : Ext) (cfg : Config) (s : Task) (t1 t2 : MCParticle)
    (mcparticles : List MCParticle) (r : Option Task)
    (hr : processGen_ULS ext cfg s t1 t2 mcparticles = r) :
    r = some s ∨
    (¬ (FindLF t1 t2 mcparticles < 0 ∧ ext.IsHF t1 t2 mcparticles < 0) ∧
      ((FindLF t1 t2 mcparticles > -1 ∧
          r = (iteratorAt mcparticles (FindLF t1 t2 mcparticles)).map
              (fun mcmother => processGen_sm ext s t1 t2 mcparticles mcmother)) ∨
       (¬ FindLF t1 t2 mcparticles > -1 ∧
          (r = none ∨
           ∃ mp1 mp2, r = some (processGen_hf ext s t1 t2
               (ext.IsHF t1 t2 mcparticles) mp1 mp2))))) := by
  unfold processGen_ULS at hr
  dsimp only at hr
  by_cases h1 : (!isInAcceptance cfg t1 || !isInAcceptance cfg t2) = true
  · rw [if_pos h1] at hr; exact Or.inl hr.symm
  rw [if_neg h1] at hr
  by_cases h2 : (!t1.isPhysicalPrimary && !t1.producedByGenerator) = true
  · rw [if_pos h2] at hr; exact Or.inl hr.symm
  rw [if_neg h2] at hr
  by_cases h3 : (!t2.isPhysicalPrimary && !t2.producedByGenerator) = true
  · rw [if_pos h3] at hr; exact Or.inl hr.symm
  rw [if_neg h3] at hr
  by_cases h5 : FindLF t1 t2 mcparticles < 0 ∧ ext.IsHF t1 t2 mcparticles < 0
  · rw [if_pos h5] at hr; exact Or.inl hr.symm
  rw [if_neg h5] at hr
  by_cases h6 : |ext.Rapidity (ext.vsum (ext.makeVector t1.pt t1.eta t1.phi ext.MassElectron)
      (ext.makeVector t2.pt t2.eta t2.phi ext.MassElectron))| > cfg.maxY
  · rw [if_pos h6] at hr; exact Or.inl hr.symm
  rw [if_neg h6] at hr
  by_cases h7 : FindLF t1 t2 mcparticles > -1
  · rw [if_pos h7] at hr
    refine Or.inr ⟨h5, Or.inl ⟨h7, ?_⟩⟩
    rw [← hr]
    cases iteratorAt mcparticles (FindLF t1 t2 mcparticles) <;> rfl
  rw [if_neg h7] at hr
  by_cases h8 : ext.IsHF t1 t2 mcparticles > -1
  · rw [if_pos h8] at hr
    refine Or.inr ⟨h5, Or.inr ⟨h7, ?_⟩⟩
    split at hr
    · exact Or.inr ⟨_, _, hr.symm⟩
    · exact Or.inl hr.symm
  · rw [if_neg h8] at hr; exact Or.inl hr.symm

theorem onlyFills_mono {P Q : String → Prop} {s s' : Task} (hPQ : ∀ n, P n → Q n)
    (h : OnlyFills P s s') : OnlyFills Q s s' := by
  obtain ⟨extra, he, hp⟩ := h
  exact ⟨extra, he, fun f hf => hPQ _ (hp f hf)⟩

theorem not_hf_of_sm_or_track (n : String)
    (h : under "Pair/sm/" n = true ∨ under "Track/" n = true) :
    isHeavyFlavourName n = false := by
  unfold isHeavyFlavourName
  rcases h with h | h
  · simp [under_exclusive "Pair/sm/" "Pair/ccbar/" (by decide) (by decide) h,
      under_exclusive "Pair/sm/" "Pair/bbbar/" (by decide) (by decide) h,
      under_exclusive "Pair/sm/" "Generated/ccbar/" (by decide) (by decide) h,
      under_exclusive "Pair/sm/" "Generated/bbbar/" (by decide) (by decide) h]
  · simp [under_exclusive "Track/" "Pair/ccbar/" (by decide) (by decide) h,
      under_exclusive "Track/" "Pair/bbbar/" (by decide) (by decide) h,
      under_exclusive "Track/" "Generated/ccbar/" (by decide) (by decide) h,
      under_exclusive "Track/" "Generated/bbbar/" (by decide) (by decide) h]

theorem not_hf_of_gen_sm (n : String) (h : under "Generated/sm/" n = true) :
    isHeavyFlavourName n = false := by
  unfold isHeavyFlavourName
  simp [under_exclusive "Generated/sm/" "Pair/ccbar/" (by decide) (by decide) h,
    under_exclusive "Generated/sm/" "Pair/bbbar/" (by decide) (by decide) h,
    under_exclusive "Generated/sm/" "Generated/ccbar/" (by decide) (by decide) h,
    under_exclusive "Generated/sm/" "Generated/bbbar/" (by decide) (by decide) h]

/-- C1. Resonance precedence: when `FindLF` returns an index `>= 0` and `IsHF` a category
`>= 0`, `fillTruePairInfo` either rejects the pair and leaves the task as it was, or
returns `true` after evaluating the resonance branch on the matched mother and nothing
else; the unlike-sign loop of `processGen` either skips the pair or evaluates its resonance
branch. In both, no fill made for the pair is a heavy-flavour histogram. -/
theorem resonance_precedence (ext : Ext) (cfg : Config) (s : Task) (collision : Collision)
    (t1 t2 : Track) (p1 p2 : MCParticle) (mcparticles : List MCParticle)
    (hLF : 0 ≤ FindLF t1.emmcparticle t2.emmcparticle mcparticles)
    (_hHF : 0 ≤ ext.IsHF t1.emmcparticle t2.emmcparticle mcparticles)
    (hLFgen : 0 ≤ FindLF p1 p2 mcparticles)
    (_hHFgen : 0 ≤ ext.IsHF p1 p2 mcparticles) :
    (∃ mcmother b s',
      iteratorAt mcparticles (FindLF t1.emmcparticle t2.emmcparticle mcparticles)
        = some mcmother ∧
      fillTruePairInfo ext cfg s collision t1 t2 mcparticles = some (b, s') ∧
      ((b = false ∧ s' = s) ∨
        (b = true ∧ s' = fillTruePairInfo_sm ext s t1 t2 mcparticles mcmother)) ∧
      OnlyFills (fun n => isHeavyFlavourName n = false) s s') ∧
    (∃ mcmother s',
      iteratorAt mcparticles (FindLF p1 p2 mcparticles) = some mcmother ∧
      processGen_ULS ext cfg s p1 p2 mcparticles = some s' ∧
      (s' = s ∨ s' = processGen_sm ext s p1 p2 mcparticles mcmother) ∧
      OnlyFills (fun n => isHeavyFlavourName n = false) s s') := by
  constructor
  · obtain ⟨huls, _, _, _, mcmother, hm, _⟩ := FindLF_nonneg _ _ _ hLF
    refine ⟨mcmother, ?_⟩
    rcases fillTruePairInfo_cases ext cfg s collision t1 t2 mcparticles _ rfl with h | ⟨_, h⟩
    · exact ⟨false, s, hm, h, Or.inl ⟨rfl, rfl⟩, onlyFills_refl _ _⟩
    · rcases h with ⟨_, _, h⟩ | ⟨hno, _⟩
      · rw [hm] at h
        exact ⟨true, _, hm, h, Or.inr ⟨rfl, rfl⟩,
          onlyFills_mono not_hf_of_sm_or_track (sm_only ext s t1 t2 mcparticles mcmother)⟩
      · exact absurd ⟨by omega, huls⟩ hno
  · obtain ⟨_, _, _, _, mcmother, hm, _⟩ := FindLF_nonneg _ _ _ hLFgen
    refine ⟨mcmother, ?_⟩
    rcases processGen_cases ext cfg s p1 p2 mcparticles _ rfl with h | ⟨_, h⟩
    · exact ⟨s, hm, h, Or.inl rfl, onlyFills_refl _ _⟩
    · rcases h with ⟨_, h⟩ | ⟨hno, _⟩
      · rw [hm] at h
        exact ⟨_, hm, h, Or.inr rfl,
          onlyFills_mono not_hf_of_gen_sm (processGen_sm_only ext s p1 p2 mcparticles mcmother)⟩
      · exact absurd (by omega) hno

/-- Witness of C1: the electrons of the two B mesons of an Upsilon(4S) have both a
resonance match (row 0) and a heavy-flavour category. -/
theorem resonance_precedence_witness :
    (∃ mcmother b s',
      iteratorAt upsilonTable (FindLF (sampleTrack 0 1 (sampleParticle (-11) [1] [])).emmcparticle
        (sampleTrack 1 (-1) (sampleParticle 11 [2] [])).emmcparticle upsilonTable)
        = some mcmother ∧
      fillTruePairInfo sampleExt defaultConfig (init sampleExt) (sampleCollision 1)
        (sampleTrack 0 1 (sampleParticle (-11) [1] []))
        (sampleTrack 1 (-1) (sampleParticle 11 [2] [])) upsilonTable = some (b, s') ∧
      ((b = false ∧ s' = init sampleExt) ∨
        (b = true ∧ s' = fillTruePairInfo_sm sampleExt (init sampleExt)
          (sampleTrack 0 1 (sampleParticle (-11) [1] []))
          (sampleTrack 1 (-1) (sampleParticle 11 [2] [])) upsilonTable mcmother)) ∧
      OnlyFills (fun n => isHeavyFlavourName n = false) (init sampleExt) s') ∧
    (∃ mcmother s',
      iteratorAt upsilonTable
        (FindLF (sampleParticle (-11) [1] []) (sampleParticle 11 [2] []) upsilonTable)
        = some mcmother ∧
      processGen_ULS sampleExt defaultConfig (init sampleExt) (sampleParticle (-11) [1] [])
        (sampleParticle 11 [2] []) upsilonTable = some s' ∧
      (s' = init sampleExt ∨ s' = processGen_sm sampleExt (init sampleExt)
        (sampleParticle (-11) [1] []) (sampleParticle 11 [2] []) upsilonTable mcmother) ∧
      OnlyFills (fun n => isHeavyFlavourName n = false) (init sampleExt) s') :=
  resonance_precedence sampleExt defaultConfig (init sampleExt) (sampleCollision 1)
    (sampleTrack 0 1 (sampleParticle (-11) [1] []))
    (sampleTrack 1 (-1) (sampleParticle 11 [2] []))
    (sampleParticle (-11) [1] []) (sampleParticle 11 [2] []) upsilonTable
    (by decide) (by decide) (by decide) (by decide)

theorem hfDir_exclusive {c n : String} (hc : c ∈ hfCategoryDirs) (hn : under c n = true) :
    under "Pair/sm/" n = false ∧ under "Track/" n = false := by
  simp only [hfCategoryDirs, List.mem_cons, List.mem_singleton, List.not_mem_nil, or_false] at hc
  rcases hc with rfl | rfl | rfl | rfl | rfl <;>
    exact ⟨under_exclusive _ _ (by decide) (by decide) hn,
      under_exclusive _ _ (by decide) (by decide) hn⟩

theorem under_comparable {a b n : String} (ha : under a n = true) (hb : under b n = true) :
    a.data.isPrefixOf b.data = true ∨ b.data.isPrefixOf a.data = true := by
  unfold under at ha hb
  rw [List.isPrefixOf_iff_prefix] at ha hb
  rcases List.prefix_or_prefix_of_prefix ha hb with h | h
  · exact Or.inl (List.isPrefixOf_iff_prefix.mpr h)
  · exact Or.inr (List.isPrefixOf_iff_prefix.mpr h)

theorem hfDir_unique {c d n : String} (hc : c ∈ hfCategoryDirs) (hd : d ∈ hfCategoryDirs)
    (hcn : under c n = true) (hdn : under d n = true) : c = d := by
  simp only [hfCategoryDirs, List.mem_cons, List.mem_singleton, List.not_mem_nil, or_false]
    at hc hd
  rcases hc with rfl | rfl | rfl | rfl | rfl <;> rcases hd with rfl | rfl | rfl | rfl | rfl <;>
    first
    | rfl
    | (rcases under_comparable hcn hdn with h | h <;> exact absurd h (by decide))

/-- C2. At most one classification per pair: the fills of one call of `fillTruePairInfo`
never comprise both a resonance bucket (under `Pair/sm/`) and a heavy-flavour bucket (under
`Pair/ccbar/` or `Pair/bbbar/`), and the heavy-flavour category directories under which
they lie are all the same one. -/
theorem at_most_one_classification (ext : Ext) (cfg : Config) (s : Task)
    (collision : Collision) (t1 t2 : Track) (mcparticles : List MCParticle)
    (b : Bool) (s' : Task)
    (h : fillTruePairInfo ext cfg s collision t1 t2 mcparticles = some (b, s')) :
    ∃ extra, FillsAdded s s' extra ∧
      ¬ ((∃ f ∈ extra, isResonanceName f.name = true) ∧
         (∃ g ∈ extra, under "Pair/ccbar/" g.name = true ∨ under "Pair/bbbar/" g.name = true)) ∧
      ∀ f ∈ extra, ∀ g ∈ extra, ∀ c ∈ hfCategoryDirs, ∀ d ∈ hfCategoryDirs,
        under c f.name = true → under d g.name = true → c = d := by
  have key : OnlyFills (fun n => under "Pair/sm/" n = true ∨ under "Track/" n = true) s s' ∨
      ∃ d ∈ hfCategoryDirs,
        OnlyFills (fun n => under d n = true ∨ under "Track/" n = true) s s' := by
    rcases fillTruePairInfo_cases ext cfg s collision t1 t2 mcparticles _ h with h | ⟨_, h⟩
    · injection h with h; injection h with _ h
      rw [h]; exact Or.inl (onlyFills_refl _ _)
    · rcases h with ⟨_, _, h⟩ | ⟨_, h | h | ⟨mp1, mp2, h⟩⟩
      · cases hm : iteratorAt mcparticles
            (FindLF t1.emmcparticle t2.emmcparticle mcparticles) with
        | none => rw [hm] at h; exact Option.noConfusion h
        | some mcmother =>
          rw [hm] at h
          injection h with h; injection h with _ h
          rw [h]; exact Or.inl (sm_only ext s t1 t2 mcparticles mcmother)
      · injection h with h; injection h with _ h
        rw [h]; exact Or.inl (onlyFills_refl _ _)
      · exact Option.noConfusion h
      · injection h with h; injection h with _ h
        rw [h]; exact Or.inr (hf_only ext s t1 t2 _ mp1 mp2)
  rcases key with ⟨extra, he, hp⟩ | ⟨d0, hd0, extra, he, hp⟩
  · refine ⟨extra, he, ?_, ?_⟩
    · rintro ⟨_, g, hg, hgn⟩
      have hn := not_hf_of_sm_or_track _ (hp g hg)
      unfold isHeavyFlavourName at hn
      rcases hgn with hgn | hgn <;> simp [hgn] at hn
    · intro f hf g _ c hc d _ hcf _
      have hx := hfDir_exclusive hc hcf
      rcases hp f hf with h1 | h1
      · rw [hx.1] at h1; exact Bool.noConfusion h1
      · rw [hx.2] at h1; exact Bool.noConfusion h1
  · refine ⟨extra, he, ?_, ?_⟩
    · rintro ⟨⟨f, hf, hfn⟩, _⟩
      unfold isResonanceName at hfn
      rcases hp f hf with h1 | h1
      · rw [(hfDir_exclusive hd0 h1).1] at hfn; exact Bool.noConfusion hfn
      · rw [under_exclusive "Track/" "Pair/sm/" (by decide) (by decide) h1] at hfn
        exact Bool.noConfusion hfn
    · intro f hf g hg c hc d hd hcf hdg
      have hc0 : c = d0 := by
        rcases hp f hf with h1 | h1
        · exact hfDir_unique hc hd0 hcf h1
        · rw [(hfDir_exclusive hc hcf).2] at h1; exact Bool.noConfusion h1
      have hd1 : d = d0 := by
        rcases hp g hg with h1 | h1
        · exact hfDir_unique hd hd0 hdg h1
        · rw [(hfDir_exclusive hd hdg).2] at h1; exact Bool.noConfusion h1
      rw [hc0, hd1]

/-- Witness of C2: the electrons of a D0 and an anti-D0, a call that fills the `c2e_c2e`
buckets. -/
theorem at_most_one_classification_witness :
    fillTruePairInfo sampleExt defaultConfig (init sampleExt) (sampleCollision 1)
        (sampleTrack 0 1 (sampleParticle (-11) [0] []))
        (sampleTrack 1 (-1) (sampleParticle 11 [1] [])) charmTable
      = some (true, fillTruePairInfo_hf sampleExt (init sampleExt)
          (sampleTrack 0 1 (sampleParticle (-11) [0] []))
          (sampleTrack 1 (-1) (sampleParticle 11 [1] [])) 0
          (sampleParticle 421 [] [2]) (sampleParticle (-421) [] [3])) ∧
    ∃ extra, FillsAdded (init sampleExt) (fillTruePairInfo_hf sampleExt (init sampleExt)
          (sampleTrack 0 1 (sampleParticle (-11) [0] []))
          (sampleTrack 1 (-1) (sampleParticle 11 [1] [])) 0
          (sampleParticle 421 [] [2]) (sampleParticle (-421) [] [3])) extra ∧
      ¬ ((∃ f ∈ extra, isResonanceName f.name = true) ∧
         (∃ g ∈ extra, under "Pair/ccbar/" g.name = true ∨ under "Pair/bbbar/" g.name = true)) ∧
      ∀ f ∈ extra, ∀ g ∈ extra, ∀ c ∈ hfCategoryDirs, ∀ d ∈ hfCategoryDirs,
        under c f.name = true → under d g.name = true → c = d := by
  have hy : ¬ |sampleExt.Rapidity (sampleExt.vsum
      (sampleExt.makeVector (1 : ℚ) 0 0 sampleExt.MassElectron)
      (sampleExt.makeVector (1 : ℚ) 0 0 sampleExt.MassElectron))| > defaultConfig.maxY := by
    norm_num [sampleExt, defaultConfig]
  have h : fillTruePairInfo sampleExt defaultConfig (init sampleExt) (sampleCollision 1)
        (sampleTrack 0 1 (sampleParticle (-11) [0] []))
        (sampleTrack 1 (-1) (sampleParticle 11 [1] [])) charmTable
      = some (true, fillTruePairInfo_hf sampleExt (init sampleExt)
          (sampleTrack 0 1 (sampleParticle (-11) [0] []))
          (sampleTrack 1 (-1) (sampleParticle 11 [1] [])) 0
          (sampleParticle 421 [] [2]) (sampleParticle (-421) [] [3])) := by
    unfold fillTruePairInfo
    rw [if_neg (show ¬ (trackCutFails sampleExt defaultConfig (sampleCollision 1)
          (sampleTrack 0 1 (sampleParticle (-11) [0] []))
          (sampleTrack 1 (-1) (sampleParticle 11 [1] [])) = true) by decide)]
    simp only [sampleTrack]
    rw [if_neg (by decide), if_neg (by decide), if_neg (by decide), if_neg (by decide),
      if_neg hy, if_neg (by decide), if_pos (by decide), if_pos (by decide)]
    rfl
  exact ⟨h, at_most_one_classification _ _ _ _ _ _ _ _ _ h⟩

/-- C3. Background is discarded: when `FindLF` and `IsHF` both return a negative value,
`fillTruePairInfo` returns `false` with the task exactly as it was (no histogram filled),
and the unlike-sign loop of `processGen` leaves the task as it was; this holds whether or not
the earlier gates pass. -/
theorem background_discarded (ext : Ext) (cfg : Config) (s : Task) (collision : Collision)
    (t1 t2 : Track) (p1 p2 : MCParticle) (mcparticles : List MCParticle)
    (hLF : FindLF t1.emmcparticle t2.emmcparticle mcparticles < 0)
    (hHF : ext.IsHF t1.emmcparticle t2.emmcparticle mcparticles < 0)
    (hLFgen : FindLF p1 p2 mcparticles < 0)
    (hHFgen : ext.IsHF p1 p2 mcparticles < 0) :
    fillTruePairInfo ext cfg s collision t1 t2 mcparticles = some (false, s) ∧
    processGen_ULS ext cfg s p1 p2 mcparticles = some s := by
  constructor
  · rcases fillTruePairInfo_cases ext cfg s collision t1 t2 mcparticles _ rfl with h | ⟨hno, _⟩
    · exact h
    · exact absurd ⟨hLF, hHF⟩ hno
  · rcases processGen_cases ext cfg s p1 p2 mcparticles _ rfl with h | ⟨hno, _⟩
    · exact h
    · exact absurd ⟨hLFgen, hHFgen⟩ hno

/-- Witness of C3: two electrons from two charged pions. -/
theorem background_discarded_witness :
    fillTruePairInfo sampleExt defaultConfig (init sampleExt) (sampleCollision 1)
        (sampleTrack 0 1 (sampleParticle (-11) [0] []))
        (sampleTrack 1 (-1) (sampleParticle 11 [1] [])) backgroundTable
      = some (false, init sampleExt) ∧
    processGen_ULS sampleExt defaultConfig (init sampleExt) (sampleParticle (-11) [0] [])
        (sampleParticle 11 [1] []) backgroundTable = some (init sampleExt) :=
  background_discarded sampleExt defaultConfig (init sampleExt) (sampleCollision 1)
    (sampleTrack 0 1 (sampleParticle (-11) [0] []))
    (sampleTrack 1 (-1) (sampleParticle 11 [1] []))
    (sampleParticle (-11) [0] []) (sampleParticle 11 [1] []) backgroundTable
    (by decide) (by decide) (by decide) (by decide)

/-- C4. No partial fills on rejection: whenever `fillTruePairInfo` returns `false`, the task
is exactly what it was before the call, in particular no histogram has been filled and
`used_trackIds` is unchanged; and one of the six rejection tests held: a track cut failed,
the pair cut failed, a leg's truth code is not +-11, the legs are of different MC events,
neither classification matched, or `|rapidity| > maxY`. -/
theorem no_partial_fill_on_rejection (ext : Ext) (cfg : Config) (s : Task)
    (collision : Collision) (t1 t2 : Track) (mcparticles : List MCParticle) (s' : Task)
    (h : fillTruePairInfo ext cfg s collision t1 t2 mcparticles = some (false, s')) :
    s' = s ∧ s'.fills = s.fills ∧ s'.used_trackIds = s.used_trackIds ∧
    (trackCutFails ext cfg collision t1 t2 = true ∨
      ext.IsSelectedPair t1 t2 s.d_bz = false ∨
      (t1.emmcparticle.pdgCode.natAbs ≠ 11 ∨ t2.emmcparticle.pdgCode.natAbs ≠ 11) ∨
      t1.emmcparticle.emmceventId ≠ t2.emmcparticle.emmceventId ∨
      (FindLF t1.emmcparticle t2.emmcparticle mcparticles < 0 ∧
        ext.IsHF t1.emmcparticle t2.emmcparticle mcparticles < 0) ∨
      |ext.Rapidity (ext.vsum (ext.makeVector t1.pt t1.eta t1.phi ext.MassElectron)
        (ext.makeVector t2.pt t2.eta t2.phi ext.MassElectron))| > cfg.maxY) := by
  have hs : s' = s := by
    rcases fillTruePairInfo_cases ext cfg s collision t1 t2 mcparticles _ h with h | ⟨_, h⟩
    · injection h with h; injection h
    · rcases h with ⟨_, _, h⟩ | ⟨_, h | h | ⟨mp1, mp2, h⟩⟩
      · cases hm : iteratorAt mcparticles
            (FindLF t1.emmcparticle t2.emmcparticle mcparticles) with
        | none => rw [hm] at h; exact Option.noConfusion h
        | some mcmother =>
          rw [hm] at h
          simp at h
      · simp at h
      · exact Option.noConfusion h
      · simp at h
  refine ⟨hs, by rw [hs], by rw [hs], ?_⟩
  unfold fillTruePairInfo at h
  dsimp only at h
  by_cases h1 : trackCutFails ext cfg collision t1 t2 = true
  · exact Or.inl h1
  rw [if_neg h1] at h
  by_cases h2 : (!ext.IsSelectedPair t1 t2 s.d_bz) = true
  · exact Or.inr (Or.inl (by simpa using h2))
  rw [if_neg h2] at h
  by_cases h3 : t1.emmcparticle.pdgCode.natAbs ≠ 11 ∨ t2.emmcparticle.pdgCode.natAbs ≠ 11
  · exact Or.inr (Or.inr (Or.inl h3))
  rw [if_neg h3] at h
  by_cases h4 : t1.emmcparticle.emmceventId ≠ t2.emmcparticle.emmceventId
  · exact Or.inr (Or.inr (Or.inr (Or.inl h4)))
  rw [if_neg h4] at h
  by_cases h5 : FindLF t1.emmcparticle t2.emmcparticle mcparticles < 0 ∧
      ext.IsHF t1.emmcparticle t2.emmcparticle mcparticles < 0
  · exact Or.inr (Or.inr (Or.inr (Or.inr (Or.inl h5))))
  rw [if_neg h5] at h
  by_cases h6 : |ext.Rapidity (ext.vsum (ext.makeVector t1.pt t1.eta t1.phi ext.MassElectron)
      (ext.makeVector t2.pt t2.eta t2.phi ext.MassElectron))| > cfg.maxY
  · exact Or.inr (Or.inr (Or.inr (Or.inr (Or.inr h6))))
  rw [if_neg h6] at h
  exfalso
  split at h
  · split at h
    · exact Option.noConfusion h
    · simp at h
  · split at h
    · split at h
      · split at h
        · simp at h
        · exact Option.noConfusion h
      · simp at h
    · simp at h

/-- Witness of C4: the pair of two electrons from two charged pions is rejected. -/
theorem no_partial_fill_on_rejection_witness :
    fillTruePairInfo sampleExt defaultConfig (init sampleExt) (sampleCollision 1)
        (sampleTrack 0 1 (sampleParticle (-11) [0] []))
        (sampleTrack 1 (-1) (sampleParticle 11 [1] [])) backgroundTable
      = some (false, init sampleExt) ∧
    init sampleExt = init sampleExt ∧ (init sampleExt).fills = (init sampleExt).fills ∧
    (init sampleExt).used_trackIds = (init sampleExt).used_trackIds :=
  ⟨rfl, (no_partial_fill_on_rejection sampleExt defaultConfig (init sampleExt)
    (sampleCollision 1) (sampleTrack 0 1 (sampleParticle (-11) [0] []))
    (sampleTrack 1 (-1) (sampleParticle 11 [1] [])) backgroundTable (init sampleExt) rfl).1,
   (no_partial_fill_on_rejection sampleExt defaultConfig (init sampleExt)
    (sampleCollision 1) (sampleTrack 0 1 (sampleParticle (-11) [0] []))
    (sampleTrack 1 (-1) (sampleParticle 11 [1] [])) backgroundTable (init sampleExt) rfl).2.1,
   (no_partial_fill_on_rejection sampleExt defaultConfig (init sampleExt)
    (sampleCollision 1) (sampleTrack 0 1 (sampleParticle (-11) [0] []))
    (sampleTrack 1 (-1) (sampleParticle 11 [1] [])) backgroundTable (init sampleExt) rfl).2.2.1⟩

theorem fillTruePairInfo_sm_quarkonium (ext : Ext) (s : Task) (t1 t2 : Track)
    (mcparticles : List MCParticle) (mcmother : MCParticle)
    (hp1 : isPrimary t1.emmcparticle = true) (hp2 : isPrimary t2.emmcparticle = true)
    (hpm : isPrimary mcmother = true)
    (hcode : mcmother.pdgCode.natAbs = 443 ∨ mcmother.pdgCode.natAbs = 100443) :
    fillTruePairInfo_sm ext s t1 t2 mcparticles mcmother =
      fillBucket ext s t1 t2 (quarkoniumBucket mcmother.pdgCode.natAbs
        (decide (ext.IsFromBeauty mcmother mcparticles > 0))) := by
  unfold fillTruePairInfo_sm quarkoniumBucket fillBucket
  generalize pairHs ext s t1 t2 = hs
  generalize pairMvsPhiV ext s t1 t2 = mphiv
  dsimp only
  rw [if_pos hpm, if_pos (by rw [hp1, hp2]; rfl)]
  rcases hcode with hc | hc <;> rw [hc] <;>
    by_cases hb : ext.IsFromBeauty mcmother mcparticles > 0 <;> simp [hb]

theorem IsFromBeauty_nonneg_iff (isBeautyHadron : MCParticle → Bool) (p : MCParticle)
    (mcparticles : List MCParticle) :
    0 ≤ IsFromBeauty isBeautyHadron p mcparticles ↔
      lineageHasBeauty isBeautyHadron p mcparticles = true := by
  unfold IsFromBeauty lineageHasBeauty
  cases hf : (motherChain mcparticles mcparticles.length p).find? (fun m =>
      match iteratorAt mcparticles m with
      | some mp => isBeautyHadron mp
      | none => false) with
  | none =>
    rw [List.find?_eq_none] at hf
    constructor
    · intro h
      exact absurd h (by decide)
    · intro h
      rw [List.any_eq_true] at h
      obtain ⟨m, hm, hb⟩ := h
      exact absurd hb (hf m hm)
  | some m =>
    have hmem := List.mem_of_find?_eq_some hf
    have hb := List.find?_some hf
    constructor
    · intro _
      rw [List.any_eq_true]
      exact ⟨m, hmem, hb⟩
    · intro _
      exact (motherChain_valid mcparticles mcparticles.length p m hmem).1

/-- C6. Resonance allow-list: `FindLF` is the largest element of the array of the searches
for the leg codes (-11, +11) and exactly the thirteen mother codes 22, 111, 221, 331, 113,
223, 333, 443, 100443, 553, 100553, 200553, 300553, so a non-negative result is the
non-negative result of the search for one of these codes. -/
theorem FindLF_allow_list (posmc elemc : MCParticle) (mcparticles : List MCParticle) :
    allowList = [22, 111, 221, 331, 113, 223, 333, 443, 100443, 553, 100553, 200553, 300553] ∧
    FindLF posmc elemc mcparticles =
      max_element (FindCommonMotherFrom2Prongs posmc elemc (-11) 11 22 mcparticles)
        ([111, 221, 331, 113, 223, 333, 443, 100443, 553, 100553, 200553, 300553].map
          (fun code => FindCommonMotherFrom2Prongs posmc elemc (-11) 11 code mcparticles)) ∧
    (0 ≤ FindLF posmc elemc mcparticles →
      ∃ code ∈ allowList,
        0 ≤ FindCommonMotherFrom2Prongs posmc elemc (-11) 11 code mcparticles ∧
        FindCommonMotherFrom2Prongs posmc elemc (-11) 11 code mcparticles =
          FindLF posmc elemc mcparticles) := by
  refine ⟨rfl, rfl, fun h => ?_⟩
  obtain ⟨code, hcode, heq⟩ := List.mem_map.mp (FindLF_mem_results posmc elemc mcparticles)
  unfold search at heq
  exact ⟨code, hcode, by rw [heq]; exact h, heq⟩

/-- Witness of C6: for the electrons of a J/psi the result 2 is that of the search for
code 443. -/
theorem FindLF_allow_list_witness :
    0 ≤ FindLF (sampleParticle (-11) [2] []) (sampleParticle 11 [2] []) nonPromptJPsiTable ∧
    ∃ code ∈ allowList,
      0 ≤ FindCommonMotherFrom2Prongs (sampleParticle (-11) [2] []) (sampleParticle 11 [2] [])
        (-11) 11 code nonPromptJPsiTable ∧
      FindCommonMotherFrom2Prongs (sampleParticle (-11) [2] []) (sampleParticle 11 [2] [])
        (-11) 11 code nonPromptJPsiTable =
        FindLF (sampleParticle (-11) [2] []) (sampleParticle 11 [2] []) nonPromptJPsiTable :=
  ⟨by decide, (FindLF_allow_list (sampleParticle (-11) [2] []) (sampleParticle 11 [2] [])
    nonPromptJPsiTable).2.2 (by decide)⟩

/-- Counterexample to C7: for the electrons of a rho0 (row 1) that comes from an eta'
(row 0), the searches for 331 and 113 both match; 331 comes first in the allow-list and its
match is row 0, yet `FindLF` returns row 1. -/
theorem first_match_wins_counterexample :
    search (sampleParticle (-11) [1] []) (sampleParticle 11 [1] []) etaPrimeTable 331 = 0 ∧
    search (sampleParticle (-11) [1] []) (sampleParticle 11 [1] []) etaPrimeTable 113 = 1 ∧
    firstMatch (sampleParticle (-11) [1] []) (sampleParticle 11 [1] []) etaPrimeTable = 0 ∧
    FindLF (sampleParticle (-11) [1] []) (sampleParticle 11 [1] []) etaPrimeTable = 1 ∧
    FindLF (sampleParticle (-11) [1] []) (sampleParticle 11 [1] []) etaPrimeTable ≠
      firstMatch (sampleParticle (-11) [1] []) (sampleParticle 11 [1] []) etaPrimeTable := by
  decide

/-- C7 as amended. `FindLF` returns the largest of the thirteen search results: it is one of
them and no result exceeds it, so among several matches it returns the greatest matched
table index, whatever the place of its code in the allow-list; when no search matches it
returns the sentinel `-1`. -/
theorem FindLF_largest_match_or_sentinel (posmc elemc : MCParticle)
    (mcparticles : List MCParticle) :
    FindLF posmc elemc mcparticles ∈ allowList.map (search posmc elemc mcparticles) ∧
    (∀ r ∈ allowList.map (search posmc elemc mcparticles),
      r ≤ FindLF posmc elemc mcparticles) ∧
    ((∀ r ∈ allowList.map (search posmc elemc mcparticles), r < 0) →
      FindLF posmc elemc mcparticles = -1) := by
  refine ⟨FindLF_mem_results _ _ _, results_le_FindLF _ _ _, fun hall => ?_⟩
  have hmem := FindLF_mem_results posmc elemc mcparticles
  have hneg := hall _ hmem
  obtain ⟨code, _, heq⟩ := List.mem_map.mp hmem
  unfold search at heq
  rcases FindCommonMotherFrom2Prongs_cases posmc elemc (-11) 11 code mcparticles with h | h
  · rw [← heq]; exact h
  · rw [← heq] at hneg
    exact absurd h.2.1 (by omega)

/-- Witness of C7 as amended: no search matches for two electrons from two charged pions,
and `FindLF` returns `-1`. -/
theorem FindLF_largest_match_or_sentinel_witness :
    (∀ r ∈ allowList.map (search (sampleParticle (-11) [0] []) (sampleParticle 11 [1] [])
        backgroundTable), r < 0) ∧
    FindLF (sampleParticle (-11) [0] []) (sampleParticle 11 [1] []) backgroundTable = -1 :=
  ⟨by decide, (FindLF_largest_match_or_sentinel (sampleParticle (-11) [0] [])
    (sampleParticle 11 [1] []) backgroundTable).2.2 (by decide)⟩

theorem initCCDB_same_run (ext : Ext) (cfg : Config) (ccdb : CCDB) (s : Task)
    (collision : Collision) (h : s.mRunNumber = collision.runNumber) :
    initCCDB ext cfg ccdb s collision = Outcome.ok s := by
  unfold initCCDB
  rw [if_pos h]

theorem initCCDB_ok (ext : Ext) (cfg : Config) (ccdb : CCDB) (s : Task)
    (collision : Collision) (s' : Task)
    (h : initCCDB ext cfg ccdb s collision = Outcome.ok s') :
    s'.mRunNumber = collision.runNumber ∧
    ∃ extra, s'.queries = s.queries ++ extra ∧ extra.Nodup ∧ extra.length ≤ 3 ∧
      (s.mRunNumber = collision.runNumber ∨ cfg.d_bz_input > -990 → extra = []) ∧
      (s.mRunNumber ≠ collision.runNumber ∧ ¬ cfg.d_bz_input > -990 →
        Query.GRPLHCIFData "GLO/Config/GRPLHCIF" collision.timestamp ∈ extra) := by
  unfold initCCDB at h
  by_cases h1 : s.mRunNumber = collision.runNumber
  · rw [if_pos h1] at h
    injection h with h
    subst h
    exact ⟨h1, [], by simp, by simp, by simp, fun _ => rfl, fun hh => absurd h1 hh.1⟩
  rw [if_neg h1] at h
  by_cases h2 : cfg.d_bz_input > -990
  · rw [if_pos h2] at h
    injection h with h
    subst h
    exact ⟨rfl, [], by simp, by simp, by simp, fun _ => rfl, fun hh => absurd h2 hh.2⟩
  rw [if_neg h2] at h
  dsimp only at h
  cases hskip : cfg.skipGRPOquery <;>
    cases hgrpo : ccdb.getGRPObject cfg.grpPath collision.timestamp <;>
    cases hmag : ccdb.getGRPMagField cfg.grpmagPath collision.timestamp <;>
    cases hlhc : ccdb.getGRPLHCIFData "GLO/Config/GRPLHCIF" collision.timestamp <;>
    simp [hskip, hgrpo, hmag, hlhc] at h <;>
    subst h <;>
    refine ⟨rfl, ?_⟩ <;>
    simp [h1, h2]

/-- C8. Run-parameter cache: a call of `initCCDB` whose run number equals `mRunNumber`
returns with the task unchanged (no lookup, no field changed); a call that returns normally
leaves `mRunNumber` equal to the collision's run, has made at most three lookups, no lookup
twice (none at all when the run was the stored one or the field is overridden, the
`GRPLHCIF` lookup among them when the run is new and the field not overridden), and every
later call with that run number returns with the task unchanged. -/
theorem run_parameter_cache (ext : Ext) (cfg : Config) (ccdb : CCDB) (s : Task)
    (collision : Collision) :
    (s.mRunNumber = collision.runNumber →
      initCCDB ext cfg ccdb s collision = Outcome.ok s) ∧
    (∀ s', initCCDB ext cfg ccdb s collision = Outcome.ok s' →
      s'.mRunNumber = collision.runNumber ∧
      (∃ extra, s'.queries = s.queries ++ extra ∧ extra.Nodup ∧ extra.length ≤ 3 ∧
        (s.mRunNumber = collision.runNumber ∨ cfg.d_bz_input > -990 → extra = []) ∧
        (s.mRunNumber ≠ collision.runNumber ∧ ¬ cfg.d_bz_input > -990 →
          Query.GRPLHCIFData "GLO/Config/GRPLHCIF" collision.timestamp ∈ extra)) ∧
      ∀ collision' : Collision, collision'.runNumber = collision.runNumber →
        initCCDB ext cfg ccdb s' collision' = Outcome.ok s') := by
  refine ⟨initCCDB_same_run ext cfg ccdb s collision, fun s' h => ?_⟩
  obtain ⟨hrun, hq⟩ := initCCDB_ok ext cfg ccdb s collision s' h
  exact ⟨hrun, hq, fun collision' hc =>
    initCCDB_same_run ext cfg ccdb s' collision' (by rw [hrun, hc])⟩

/-- Witness of C8: after `init`, a collision of run 1 triggers the refresh, and a second
call with run 1 returns with the task unchanged. -/
theorem run_parameter_cache_witness :
    ∃ s', initCCDB sampleExt defaultConfig sampleCCDB (init sampleExt) (sampleCollision 1)
        = Outcome.ok s' ∧
      s'.mRunNumber = 1 ∧
      s'.queries = [Query.GRPMagField "GLO/Config/GRPMagField" 1700000000000,
        Query.GRPLHCIFData "GLO/Config/GRPLHCIF" 1700000000000] ∧
      initCCDB sampleExt defaultConfig sampleCCDB s' (sampleCollision 1) = Outcome.ok s' := by
  have h : ∃ s', initCCDB sampleExt defaultConfig sampleCCDB (init sampleExt)
      (sampleCollision 1) = Outcome.ok s' ∧
      s'.queries = [Query.GRPMagField "GLO/Config/GRPMagField" 1700000000000,
        Query.GRPLHCIFData "GLO/Config/GRPLHCIF" 1700000000000] := by
    unfold initCCDB
    rw [if_neg (by decide), if_neg (by norm_num [defaultConfig])]
    exact ⟨_, rfl, rfl⟩
  obtain ⟨s', hs', hq⟩ := h
  have hc := (run_parameter_cache sampleExt defaultConfig sampleCCDB (init sampleExt)
    (sampleCollision 1)).2 s' hs'
  exact ⟨s', hs', hc.1, hq, hc.2.2 (sampleCollision 1) rfl⟩

/-- C9, the code at the failing input. Without a field override, when the lookup of
`GRPLHCIF` returns a null pointer `initCCDB` does not end in `LOG(fatal)`: it has already
stored the new run number (line 347) and dereferences the null pointer (line 351). The
missing `GRPMagField` of the sibling lookup does end in `LOG(fatal)`, with `mRunNumber`
still the old one. -/
theorem missing_GRPLHCIF_not_fatal :
    initCCDB sampleExt defaultConfig ccdbWithoutLHCIF (init sampleExt) (sampleCollision 1)
      = Outcome.nullDeref { init sampleExt with
          d_bz := 5, mRunNumber := 1,
          queries := [Query.GRPMagField "GLO/Config/GRPMagField" 1700000000000,
            Query.GRPLHCIFData "GLO/Config/GRPLHCIF" 1700000000000] } ∧
    initCCDB sampleExt defaultConfig ccdbWithoutMagField (init sampleExt) (sampleCollision 1)
      = Outcome.fatal { init sampleExt with
          queries := [Query.GRPMagField "GLO/Config/GRPMagField" 1700000000000] } ∧
    (init sampleExt).mRunNumber = 0 := by
  refine ⟨?_, ?_, rfl⟩
  · have h5 : ((lround (5 * 30000 / 30000) : Int) : ℚ) = 5 := by norm_num [lround]
    rw [← h5]
    unfold initCCDB
    rw [if_neg (by decide), if_neg (by norm_num [defaultConfig])]
    rfl
  · unfold initCCDB
    rw [if_neg (by decide), if_neg (by norm_num [defaultConfig])]
    rfl

/-- Counterexample to C10: with a field override of 5 kG, `initCCDB` returns normally for a
collision of a new run without any lookup, and the beam energy stays 0 although the
conditions database holds 6800 GeV for that collision. -/
theorem beam_parameters_override_counterexample :
    (init sampleExt).mRunNumber ≠ (sampleCollision 1).runNumber ∧
    initCCDB sampleExt overrideConfig sampleCCDB (init sampleExt) (sampleCollision 1)
      = Outcome.ok { init sampleExt with d_bz := 5, mRunNumber := 1 } ∧
    ({ init sampleExt with d_bz := 5, mRunNumber := 1 } : Task).beamE1 = 0 ∧
    ({ init sampleExt with d_bz := 5, mRunNumber := 1 } : Task).queries = [] ∧
    (sampleCCDB.getGRPLHCIFData "GLO/Config/GRPLHCIF" (sampleCollision 1).timestamp).map
      (fun d => d.beamEnergyPerNucleonInGeV_C) = some 6800 := by
  refine ⟨by decide, ?_, rfl, rfl, rfl⟩
  unfold initCCDB
  rw [if_neg (by decide), if_pos (by norm_num [overrideConfig])]
  rfl

/-- C10 as amended. For a collision whose run number differs from the stored one: without
a field override (`d_bz_input <= -990`), after `initCCDB` returns normally the beam
parameters are those of the `GRPLHCIF` object looked up at the collision's timestamp
(energy per nucleon, proton mass times A, `sqrt(E^2 - M^2)`); with an override
(`d_bz_input > -990`) `initCCDB` returns after storing the field and the run number only,
the beam parameters and the lookups being what they were. -/
theorem beam_parameters_follow_run (ext : Ext) (cfg : Config) (ccdb : CCDB) (s : Task)
    (collision : Collision) (hrun : s.mRunNumber ≠ collision.runNumber) :
    (¬ cfg.d_bz_input > -990 → ∀ s', initCCDB ext cfg ccdb s collision = Outcome.ok s' →
      ∃ grplhcif,
        ccdb.getGRPLHCIFData "GLO/Config/GRPLHCIF" collision.timestamp = some grplhcif ∧
        s'.beamE1 = grplhcif.beamEnergyPerNucleonInGeV_C ∧
        s'.beamE2 = grplhcif.beamEnergyPerNucleonInGeV_A ∧
        s'.beamM1 = ext.MassProton * grplhcif.beamA_C ∧
        s'.beamM2 = ext.MassProton * grplhcif.beamA_A ∧
        s'.beamP1 = ext.sqrt (s'.beamE1 ^ 2 - s'.beamM1 ^ 2) ∧
        s'.beamP2 = ext.sqrt (s'.beamE2 ^ 2 - s'.beamM2 ^ 2)) ∧
    (cfg.d_bz_input > -990 →
      initCCDB ext cfg ccdb s collision =
        Outcome.ok { s with d_bz := cfg.d_bz_input, mRunNumber := collision.runNumber }) := by
  constructor
  · intro hno s' h
    unfold initCCDB at h
    rw [if_neg hrun, if_neg hno] at h
    dsimp only at h
    cases hlhc : ccdb.getGRPLHCIFData "GLO/Config/GRPLHCIF" collision.timestamp with
    | none =>
      exfalso
      cases hskip : cfg.skipGRPOquery <;>
        cases hgrpo : ccdb.getGRPObject cfg.grpPath collision.timestamp <;>
        cases hmag : ccdb.getGRPMagField cfg.grpmagPath collision.timestamp <;>
        simp [hskip, hgrpo, hmag, hlhc] at h
    | some grplhcif =>
      refine ⟨grplhcif, rfl, ?_⟩
      cases hskip : cfg.skipGRPOquery <;>
        cases hgrpo : ccdb.getGRPObject cfg.grpPath collision.timestamp <;>
        cases hmag : ccdb.getGRPMagField cfg.grpmagPath collision.timestamp <;>
        simp [hskip, hgrpo, hmag, hlhc] at h <;>
        subst h <;>
        exact ⟨rfl, rfl, rfl, rfl, rfl, rfl⟩
  · intro hov
    unfold initCCDB
    rw [if_neg hrun, if_pos hov]

/-- Witness of C10 as amended: after `init`, without override, a collision of run 1 leaves
the beam energies at the 6800 GeV of the conditions database. -/
theorem beam_parameters_follow_run_witness :
    ∃ s', initCCDB sampleExt defaultConfig sampleCCDB (init sampleExt) (sampleCollision 1)
        = Outcome.ok s' ∧ s'.beamE1 = 6800 ∧ s'.beamE2 = 6800 := by
  have h : ∃ s', initCCDB sampleExt defaultConfig sampleCCDB (init sampleExt)
      (sampleCollision 1) = Outcome.ok s' := by
    unfold initCCDB
    rw [if_neg (by decide), if_neg (by norm_num [defaultConfig])]
    exact ⟨_, rfl⟩
  obtain ⟨s', hs'⟩ := h
  obtain ⟨d, hd, h1, h2, _⟩ := (beam_parameters_follow_run sampleExt defaultConfig sampleCCDB
    (init sampleExt) (sampleCollision 1) (by decide)).1 (by norm_num [defaultConfig]) s' hs'
  have hd' : some d = sampleCCDB.getGRPLHCIFData "GLO/Config/GRPLHCIF"
      (sampleCollision 1).timestamp := hd.symm
  injection hd' with hd'
  subst hd'
  exact ⟨s', hs', h1, h2⟩

/-! ## The rapidity bound -/

theorem fillTruePairInfo_classify_true (ext : Ext) (s : Task) (t1 t2 : Track)
    (mcparticles : List MCParticle) (s' : Task) :
    fillTruePairInfo_classify ext s t1 t2 mcparticles ≠ some (false, s') := by
  intro h
  unfold fillTruePairInfo_classify at h
  dsimp only at h
  split at h
  · split at h
    · exact Option.noConfusion h
    · simp at h
  · split at h
    · split at h
      · split at h
        · simp at h
        · exact Option.noConfusion h
      · simp at h
    · simp at h

theorem fillTruePairInfo_after_gates (ext : Ext) (cfg : Config) (s : Task)
    (collision : Collision) (t1 t2 : Track) (mcparticles : List MCParticle)
    (hcut : trackCutFails ext cfg collision t1 t2 = false)
    (hpair : ext.IsSelectedPair t1 t2 s.d_bz = true)
    (hpdg : t1.emmcparticle.pdgCode.natAbs = 11 ∧ t2.emmcparticle.pdgCode.natAbs = 11)
    (hev : t1.emmcparticle.emmceventId = t2.emmcparticle.emmceventId)
    (hclass : ¬ (FindLF t1.emmcparticle t2.emmcparticle mcparticles < 0 ∧
      ext.IsHF t1.emmcparticle t2.emmcparticle mcparticles < 0)) :
    fillTruePairInfo ext cfg s collision t1 t2 mcparticles =
      if |ext.Rapidity (ext.vsum (ext.makeVector t1.pt t1.eta t1.phi ext.MassElectron)
          (ext.makeVector t2.pt t2.eta t2.phi ext.MassElectron))| > cfg.maxY
      then some (false, s) else fillTruePairInfo_classify ext s t1 t2 mcparticles := by
  unfold fillTruePairInfo fillTruePairInfo_classify
  dsimp only
  rw [if_neg (by rw [hcut]; exact Bool.false_ne_true), if_neg (by rw [hpair]; decide),
    if_neg (by rw [hpdg.1, hpdg.2]; decide), if_neg (fun h => h hev), if_neg hclass]

theorem processGen_after_gates (ext : Ext) (cfg : Config) (s : Task)
    (t1 t2 : MCParticle) (mcparticles : List MCParticle)
    (hacc : isInAcceptance cfg t1 = true ∧ isInAcceptance cfg t2 = true)
    (hprim : isPrimary t1 = true ∧ isPrimary t2 = true)
    (hclass : ¬ (FindLF t1 t2 mcparticles < 0 ∧ ext.IsHF t1 t2 mcparticles < 0)) :
    processGen_ULS ext cfg s t1 t2 mcparticles =
      if |ext.Rapidity (ext.vsum (ext.makeVector t1.pt t1.eta t1.phi ext.MassElectron)
          (ext.makeVector t2.pt t2.eta t2.phi ext.MassElectron))| > cfg.maxY
      then some s else processGen_classify ext s t1 t2 mcparticles := by
  have h1 : ¬ ((!t1.isPhysicalPrimary && !t1.producedByGenerator) = true) := by
    have := hprim.1
    unfold isPrimary at this
    cases h : t1.isPhysicalPrimary <;> cases h' : t1.producedByGenerator <;> simp_all
  have h2 : ¬ ((!t2.isPhysicalPrimary && !t2.producedByGenerator) = true) := by
    have := hprim.2
    unfold isPrimary at this
    cases h : t2.isPhysicalPrimary <;> cases h' : t2.producedByGenerator <;> simp_all
  unfold processGen_ULS processGen_classify
  dsimp only
  rw [if_neg (by rw [hacc.1, hacc.2]; decide), if_neg h1, if_neg h2, if_neg hclass]

/-- C11. The rapidity bound is strict: a pair that reaches the rapidity test (the earlier
gates passed and one of the two classifications matched) is rejected, with nothing filled,
exactly when `|rapidity| > maxY`: `fillTruePairInfo` then returns `false` and the loop of
`processGen` leaves the task as it was; otherwise, in particular when `|rapidity|` equals
`maxY`, both go on to the classification. -/
theorem rapidity_bound_is_strict (ext : Ext) (cfg : Config) (s : Task)
    (collision : Collision) (t1 t2 : Track) (p1 p2 : MCParticle)
    (mcparticles : List MCParticle)
    (hcut : trackCutFails ext cfg collision t1 t2 = false)
    (hpair : ext.IsSelectedPair t1 t2 s.d_bz = true)
    (hpdg : t1.emmcparticle.pdgCode.natAbs = 11 ∧ t2.emmcparticle.pdgCode.natAbs = 11)
    (hev : t1.emmcparticle.emmceventId = t2.emmcparticle.emmceventId)
    (hclass : ¬ (FindLF t1.emmcparticle t2.emmcparticle mcparticles < 0 ∧
      ext.IsHF t1.emmcparticle t2.emmcparticle mcparticles < 0))
    (hacc : isInAcceptance cfg p1 = true ∧ isInAcceptance cfg p2 = true)
    (hprim : isPrimary p1 = true ∧ isPrimary p2 = true)
    (hclassgen : ¬ (FindLF p1 p2 mcparticles < 0 ∧ ext.IsHF p1 p2 mcparticles < 0)) :
    ((|ext.Rapidity (ext.vsum (ext.makeVector t1.pt t1.eta t1.phi ext.MassElectron)
          (ext.makeVector t2.pt t2.eta t2.phi ext.MassElectron))| > cfg.maxY →
        fillTruePairInfo ext cfg s collision t1 t2 mcparticles = some (false, s)) ∧
     (¬ |ext.Rapidity (ext.vsum (ext.makeVector t1.pt t1.eta t1.phi ext.MassElectron)
          (ext.makeVector t2.pt t2.eta t2.phi ext.MassElectron))| > cfg.maxY →
        fillTruePairInfo ext cfg s collision t1 t2 mcparticles =
          fillTruePairInfo_classify ext s t1 t2 mcparticles) ∧
     ((∃ s', fillTruePairInfo ext cfg s collision t1 t2 mcparticles = some (false, s')) ↔
        |ext.Rapidity (ext.vsum (ext.makeVector t1.pt t1.eta t1.phi ext.MassElectron)
          (ext.makeVector t2.pt t2.eta t2.phi ext.MassElectron))| > cfg.maxY) ∧
     (|ext.Rapidity (ext.vsum (ext.makeVector t1.pt t1.eta t1.phi ext.MassElectron)
          (ext.makeVector t2.pt t2.eta t2.phi ext.MassElectron))| = cfg.maxY →
        fillTruePairInfo ext cfg s collision t1 t2 mcparticles =
          fillTruePairInfo_classify ext s t1 t2 mcparticles)) ∧
    ((|ext.Rapidity (ext.vsum (ext.makeVector p1.pt p1.eta p1.phi ext.MassElectron)
          (ext.makeVector p2.pt p2.eta p2.phi ext.MassElectron))| > cfg.maxY →
        processGen_ULS ext cfg s p1 p2 mcparticles = some s) ∧
     (¬ |ext.Rapidity (ext.vsum (ext.makeVector p1.pt p1.eta p1.phi ext.MassElectron)
          (ext.makeVector p2.pt p2.eta p2.phi ext.MassElectron))| > cfg.maxY →
        processGen_ULS ext cfg s p1 p2 mcparticles =
          processGen_classify ext s p1 p2 mcparticles) ∧
     (|ext.Rapidity (ext.vsum (ext.makeVector p1.pt p1.eta p1.phi ext.MassElectron)
          (ext.makeVector p2.pt p2.eta p2.phi ext.MassElectron))| = cfg.maxY →
        processGen_ULS ext cfg s p1 p2 mcparticles =
          processGen_classify ext s p1 p2 mcparticles)) := by
  have hrec := fillTruePairInfo_after_gates ext cfg s collision t1 t2 mcparticles hcut hpair
    hpdg hev hclass
  have hgen := processGen_after_gates ext cfg s p1 p2 mcparticles hacc hprim hclassgen
  refine ⟨⟨fun hy => ?_, fun hy => ?_, ⟨fun hex => ?_, fun hy => ?_⟩, fun hy => ?_⟩,
    fun hy => ?_, fun hy => ?_, fun hy => ?_⟩
  · rw [hrec, if_pos hy]
  · rw [hrec, if_neg hy]
  · by_contra hy
    obtain ⟨s', hs'⟩ := hex
    rw [hrec, if_neg hy] at hs'
    exact fillTruePairInfo_classify_true ext s t1 t2 mcparticles s' hs'
  · exact ⟨s, by rw [hrec, if_pos hy]⟩
  · rw [hrec, if_neg (by rw [hy]; exact lt_irrefl _)]
  · rw [hgen, if_pos hy]
  · rw [hgen, if_neg hy]
  · rw [hgen, if_neg (by rw [hy]; exact lt_irrefl _)]

/-- Witness of C11: with `maxY` = 1/2 the electrons of a J/psi whose pair rapidity is
exactly 1/2 are not rejected. -/
theorem rapidity_bound_is_strict_witness :
    fillTruePairInfo sampleExt boundaryConfig (init sampleExt) (sampleCollision 1)
        (boundaryTrack 0 1 (-11)) (boundaryTrack 1 (-1) 11) nonPromptJPsiTable =
      fillTruePairInfo_classify sampleExt (init sampleExt)
        (boundaryTrack 0 1 (-11)) (boundaryTrack 1 (-1) 11) nonPromptJPsiTable ∧
    processGen_ULS sampleExt boundaryConfig (init sampleExt) (boundaryLeg (-11))
        (boundaryLeg 11) nonPromptJPsiTable =
      processGen_classify sampleExt (init sampleExt) (boundaryLeg (-11)) (boundaryLeg 11)
        nonPromptJPsiTable := by
  have h := rapidity_bound_is_strict sampleExt boundaryConfig (init sampleExt)
    (sampleCollision 1) (boundaryTrack 0 1 (-11)) (boundaryTrack 1 (-1) 11)
    (boundaryLeg (-11)) (boundaryLeg 11) nonPromptJPsiTable
    (by decide) (by decide) (by decide) (by decide) (by decide)
    (by constructor <;>
      norm_num [isInAcceptance, boundaryConfig, defaultConfig, boundaryLeg, sampleParticle])
    (by decide) (by decide)
  exact ⟨h.1.2.2.2 (by norm_num [sampleExt, boundaryConfig, boundaryTrack, sampleTrack]),
    h.2.2.2 (by norm_num [sampleExt, boundaryConfig, boundaryLeg, sampleParticle])⟩

/-! ## The track filter and the cut definition -/

theorem trackFilter_iff (cuts : DielectronCutGroup) (track : Track) :
    trackFilter cuts track = true ↔
      cuts.cfg_min_pt_track < track.pt ∧ |track.eta| < cuts.cfg_max_eta_track ∧
      track.tpcChi2NCl < cuts.cfg_max_chi2tpc ∧ track.itsChi2NCl < cuts.cfg_max_chi2its ∧
      |track.dcaXY| < cuts.cfg_max_dcaxy ∧ |track.dcaZ| < cuts.cfg_max_dcaz := by
  simp only [trackFilter, Bool.and_eq_true, decide_eq_true_eq, and_assoc]

/-- C12. The DCA cut is strict: the track filter is the conjunction of six requirements,
of which the DCA_xy one is `|dcaXY| < cfg_max_dcaxy` and the DCA_z one is
`|dcaZ| < cfg_max_dcaz`. A track passing the other five requirements is accepted if and
only if `|dcaXY| < cfg_max_dcaxy` (respectively `|dcaZ| < cfg_max_dcaz`), a track with
`|dcaXY|` or `|dcaZ|` equal to the configured maximum is rejected, and `DefineDileptonCut`
hands the same two maxima to the cut object. -/
theorem dca_cut_is_strict (cuts : DielectronCutGroup) (track : Track) :
    (trackFilter cuts track = true ↔
      cuts.cfg_min_pt_track < track.pt ∧ |track.eta| < cuts.cfg_max_eta_track ∧
      track.tpcChi2NCl < cuts.cfg_max_chi2tpc ∧ track.itsChi2NCl < cuts.cfg_max_chi2its ∧
      |track.dcaXY| < cuts.cfg_max_dcaxy ∧ |track.dcaZ| < cuts.cfg_max_dcaz) ∧
    (cuts.cfg_min_pt_track < track.pt ∧ |track.eta| < cuts.cfg_max_eta_track ∧
      track.tpcChi2NCl < cuts.cfg_max_chi2tpc ∧ track.itsChi2NCl < cuts.cfg_max_chi2its ∧
      |track.dcaZ| < cuts.cfg_max_dcaz →
        (trackFilter cuts track = true ↔ |track.dcaXY| < cuts.cfg_max_dcaxy)) ∧
    (cuts.cfg_min_pt_track < track.pt ∧ |track.eta| < cuts.cfg_max_eta_track ∧
      track.tpcChi2NCl < cuts.cfg_max_chi2tpc ∧ track.itsChi2NCl < cuts.cfg_max_chi2its ∧
      |track.dcaXY| < cuts.cfg_max_dcaxy →
        (trackFilter cuts track = true ↔ |track.dcaZ| < cuts.cfg_max_dcaz)) ∧
    (|track.dcaXY| = cuts.cfg_max_dcaxy → trackFilter cuts track = false) ∧
    (|track.dcaZ| = cuts.cfg_max_dcaz → trackFilter cuts track = false) ∧
    (DefineDileptonCut cuts).MaxDcaXY = cuts.cfg_max_dcaxy ∧
    (DefineDileptonCut cuts).MaxDcaZ = cuts.cfg_max_dcaz := by
  refine ⟨trackFilter_iff cuts track, ?_, ?_, ?_, ?_, rfl, rfl⟩
  · rintro ⟨h1, h2, h3, h4, h6⟩
    rw [trackFilter_iff]
    exact ⟨fun h => h.2.2.2.2.1, fun h5 => ⟨h1, h2, h3, h4, h5, h6⟩⟩
  · rintro ⟨h1, h2, h3, h4, h5⟩
    rw [trackFilter_iff]
    exact ⟨fun h => h.2.2.2.2.2, fun h6 => ⟨h1, h2, h3, h4, h5, h6⟩⟩
  · intro h
    rw [← Bool.not_eq_true, trackFilter_iff]
    intro hf
    exact absurd hf.2.2.2.2.1 (by rw [h]; exact lt_irrefl _)
  · intro h
    rw [← Bool.not_eq_true, trackFilter_iff]
    intro hf
    exact absurd hf.2.2.2.2.2 (by rw [h]; exact lt_irrefl _)

/-- Witness of C12: at the default cuts a track with DCA_xy exactly 1 is rejected and one
with DCA_xy 999/1000 is accepted. -/
theorem dca_cut_is_strict_witness :
    trackFilter defaultCuts (kinematicTrack 1 0 1 0) = false ∧
    trackFilter defaultCuts (kinematicTrack 1 0 (999 / 1000) 0) = true :=
  ⟨(dca_cut_is_strict defaultCuts (kinematicTrack 1 0 1 0)).2.2.2.1
      (by norm_num [defaultCuts, kinematicTrack, sampleTrack]),
   ((dca_cut_is_strict defaultCuts (kinematicTrack 1 0 (999 / 1000) 0)).2.1
      (by norm_num [defaultCuts, kinematicTrack, sampleTrack])).2
      (by norm_num [defaultCuts, kinematicTrack, sampleTrack, abs_lt])⟩

/-- Counterexample to C13: at the default cuts a track with pT exactly `cfg_min_pt_track`
(0.2), and a track with eta exactly `cfg_max_eta_track` (0.8), lie in the closed window
and pass every other requirement of the filter (the same tracks at pT 1 and eta 0 are
accepted), yet the track filter rejects them. -/
theorem closed_kinematic_window_counterexample :
    defaultCuts.cfg_min_pt_track ≤ (kinematicTrack (2 / 10) 0 0 0).pt ∧
    |(kinematicTrack (2 / 10) 0 0 0).eta| ≤ defaultCuts.cfg_max_eta_track ∧
    trackFilter defaultCuts (kinematicTrack (2 / 10) 0 0 0) = false ∧
    defaultCuts.cfg_min_pt_track ≤ (kinematicTrack 1 (8 / 10) 0 0).pt ∧
    |(kinematicTrack 1 (8 / 10) 0 0).eta| ≤ defaultCuts.cfg_max_eta_track ∧
    trackFilter defaultCuts (kinematicTrack 1 (8 / 10) 0 0) = false ∧
    trackFilter defaultCuts (kinematicTrack 1 0 0 0) = true := by
  refine ⟨?_, ?_, ?_, ?_, ?_, ?_, ?_⟩ <;>
    norm_num [trackFilter, defaultCuts, kinematicTrack, sampleTrack, abs_lt, abs_le]

/-- C13, amended. The kinematic acceptance of the track filter is an open window: an
accepted track has `cfg_min_pt_track < pT` and `|eta| < cfg_max_eta_track`; a track with
pT equal to `cfg_min_pt_track` or `|eta|` equal to `cfg_max_eta_track` is rejected; a
track passing the four other requirements is accepted if and only if both strict
inequalities hold. `DefineDileptonCut` hands the pT range `(cfg_min_pt_track, 1e10)` and
the eta range `(-cfg_max_eta_track, +cfg_max_eta_track)` to the cut object. -/
theorem kinematic_acceptance_is_open (cuts : DielectronCutGroup) (track : Track) :
    (trackFilter cuts track = true →
      cuts.cfg_min_pt_track < track.pt ∧ |track.eta| < cuts.cfg_max_eta_track) ∧
    (track.pt = cuts.cfg_min_pt_track → trackFilter cuts track = false) ∧
    (|track.eta| = cuts.cfg_max_eta_track → trackFilter cuts track = false) ∧
    (track.tpcChi2NCl < cuts.cfg_max_chi2tpc ∧ track.itsChi2NCl < cuts.cfg_max_chi2its ∧
      |track.dcaXY| < cuts.cfg_max_dcaxy ∧ |track.dcaZ| < cuts.cfg_max_dcaz →
        (trackFilter cuts track = true ↔
          cuts.cfg_min_pt_track < track.pt ∧ |track.eta| < cuts.cfg_max_eta_track)) ∧
    (DefineDileptonCut cuts).TrackPtRange = (cuts.cfg_min_pt_track, 10000000000) ∧
    (DefineDileptonCut cuts).TrackEtaRange =
      (-cuts.cfg_max_eta_track, cuts.cfg_max_eta_track) := by
  refine ⟨?_, ?_, ?_, ?_, rfl, rfl⟩
  · intro h
    rw [trackFilter_iff] at h
    exact ⟨h.1, h.2.1⟩
  · intro h
    rw [← Bool.not_eq_true, trackFilter_iff]
    intro hf
    exact absurd hf.1 (by rw [h]; exact lt_irrefl _)
  · intro h
    rw [← Bool.not_eq_true, trackFilter_iff]
    intro hf
    exact absurd hf.2.1 (by rw [h]; exact lt_irrefl _)
  · rintro ⟨h3, h4, h5, h6⟩
    rw [trackFilter_iff]
    exact ⟨fun h => ⟨h.1, h.2.1⟩, fun h => ⟨h.1, h.2, h3, h4, h5, h6⟩⟩

/-- Witness of the amended C13: at the default cuts a track at pT 0.2 is rejected and a
track at pT 0.21, eta 0.79 is accepted. -/
theorem kinematic_acceptance_is_open_witness :
    trackFilter defaultCuts (kinematicTrack (2 / 10) 0 0 0) = false ∧
    trackFilter defaultCuts (kinematicTrack (21 / 100) (79 / 100) 0 0) = true :=
  ⟨(kinematic_acceptance_is_open defaultCuts (kinematicTrack (2 / 10) 0 0 0)).2.1
      (by norm_num [defaultCuts, kinematicTrack, sampleTrack]),
   ((kinematic_acceptance_is_open defaultCuts
        (kinematicTrack (21 / 100) (79 / 100) 0 0)).2.2.2.1
      (by norm_num [defaultCuts, kinematicTrack, sampleTrack])).2
      (by norm_num [defaultCuts, kinematicTrack, sampleTrack, abs_lt])⟩

/-- Counterexample to C14: at the default slope 0.0185 and intercept -0.0280 the limit
installed for the pair mass 0.1 is (0.1 + 0.028) / 0.0185 = 256/37, not
0.0185 * 0.1 - 0.028 = -0.02615. -/
theorem phiv_threshold_form_counterexample :
    (DefineDileptonCut defaultCuts).MaxPhivPairMeeDep (1 / 10) = 256 / 37 ∧
    defaultCuts.cfg_phiv_slope * (1 / 10) + defaultCuts.cfg_phiv_intercept = -523 / 20000 ∧
    (DefineDileptonCut defaultCuts).MaxPhivPairMeeDep (1 / 10) ≠
      defaultCuts.cfg_phiv_slope * (1 / 10) + defaultCuts.cfg_phiv_intercept := by
  refine ⟨?_, ?_, ?_⟩ <;> norm_num [DefineDileptonCut, defaultCuts]

/-- C14, amended. For every pair mass `m` the maximum phi_V that `DefineDileptonCut`
installs in the pair cut is `(m - cfg_phiv_intercept) / cfg_phiv_slope`; for a non-zero
slope it is the phi_V at which the line `slope * phi_V + intercept` reaches `m`, and it
is handed over together with the switch `cfg_apply_phiv`. -/
theorem phiv_threshold_form (cuts : DielectronCutGroup) (m : ℚ) :
    (DefineDileptonCut cuts).MaxPhivPairMeeDep m =
      (m - cuts.cfg_phiv_intercept) / cuts.cfg_phiv_slope ∧
    (cuts.cfg_phiv_slope ≠ 0 →
      cuts.cfg_phiv_slope * (DefineDileptonCut cuts).MaxPhivPairMeeDep m +
        cuts.cfg_phiv_intercept = m) ∧
    (DefineDileptonCut cuts).ApplyPhiV = cuts.cfg_apply_phiv := by
  refine ⟨rfl, ?_, rfl⟩
  intro h
  show cuts.cfg_phiv_slope * ((m - cuts.cfg_phiv_intercept) / cuts.cfg_phiv_slope) +
    cuts.cfg_phiv_intercept = m
  field_simp

/-- Witness of the amended C14 at the default cuts and the pair mass 0.1. -/
theorem phiv_threshold_form_witness :
    defaultCuts.cfg_phiv_slope * (DefineDileptonCut defaultCuts).MaxPhivPairMeeDep (1 / 10) +
      defaultCuts.cfg_phiv_intercept = 1 / 10 :=
  (phiv_threshold_form defaultCuts (1 / 10)).2.1 (by norm_num [defaultCuts])

/-- C15. For a non-zero `cfg_phiv_slope` and every `phi`, the phi_V limit installed by
`DefineDileptonCut` maps the mass `cfg_phiv_slope * phi + cfg_phiv_intercept` back to
`phi`: it is the inverse of the line `m = slope * phi_V + intercept`. -/
theorem phiv_limit_inverts_line (cuts : DielectronCutGroup) (phi : ℚ)
    (hslope : cuts.cfg_phiv_slope ≠ 0) :
    (DefineDileptonCut cuts).MaxPhivPairMeeDep
      (cuts.cfg_phiv_slope * phi + cuts.cfg_phiv_intercept) = phi := by
  show (cuts.cfg_phiv_slope * phi + cuts.cfg_phiv_intercept - cuts.cfg_phiv_intercept) /
    cuts.cfg_phiv_slope = phi
  field_simp

/-- Witness of C15 at the default cuts and phi_V = 2. -/
theorem phiv_limit_inverts_line_witness :
    defaultCuts.cfg_phiv_slope ≠ 0 ∧
    (DefineDileptonCut defaultCuts).MaxPhivPairMeeDep
      (defaultCuts.cfg_phiv_slope * 2 + defaultCuts.cfg_phiv_intercept) = 2 :=
  ⟨by norm_num [defaultCuts], phiv_limit_inverts_line defaultCuts 2 (by norm_num [defaultCuts])⟩

/-! ## The record of filled tracks -/

theorem tracksOnce_refl (s : Task) : TracksOnce s s :=
  ⟨[], by simp, List.nodup_nil, by simp, by simp⟩

theorem tracksOnce_append {s s1 : Task} (extra : List Fill) (h : TracksOnce s s1)
    (hn : ∀ f ∈ extra, under "Track/" f.name = false) :
    TracksOnce s { s1 with fills := s1.fills ++ extra } := by
  obtain ⟨ids, hu, hnd, hnew, hc⟩ := h
  refine ⟨ids, hu, hnd, hnew, ?_⟩
  have h0 : extra.filter (fun f => under "Track/" f.name) = [] := by
    rw [List.filter_eq_nil_iff]
    intro f hf
    rw [hn f hf]
    exact Bool.false_ne_true
  unfold trackFillCount at hc ⊢
  simp only [List.filter_append, List.length_append, h0, List.length_nil, Nat.add_zero]
  exact hc

theorem tracksOnce_fill {s s1 : Task} (name : String) (vals : List ℚ)
    (h : TracksOnce s s1) (hn : under "Track/" name = false) :
    TracksOnce s (fill s1 name vals) := by
  unfold fill
  apply tracksOnce_append _ h
  intro f hf
  rw [List.mem_singleton] at hf
  subst hf
  exact hn

theorem trackFillCount_fillTrackInfo (ext : Ext) (id : Nat) (s : Task) (t : Track)
    (h : t.globalIndex ∉ s.used_trackIds) :
    trackFillCount (fillTrackInfo ext id s t) = trackFillCount s + trackHists.length := by
  unfold fillTrackInfo
  rw [if_neg h]
  unfold trackFillCount
  simp only [List.filter_append, List.length_append]
  congr 1
  have hall : ∀ f ∈ trackHists.map (fun h =>
      (⟨"Track/" ++ ele_source_types.getD id "" ++ h, ext.trackHist t h⟩ : Fill)),
      (fun f : Fill => under "Track/" f.name) f = true := by
    intro f hf
    obtain ⟨h, _, rfl⟩ := List.mem_map.mp hf
    show under "Track/" ("Track/" ++ ele_source_types.getD id "" ++ h) = true
    rw [String.append_assoc]
    exact under_append _ _
  rw [List.filter_eq_self.mpr hall, List.length_map]

theorem toInt32_of_fitsInt (x : Int) (h : fitsInt x = true) : toInt32 x = x := by
  unfold fitsInt at h
  rw [decide_eq_true_eq] at h
  unfold toInt32
  omega

theorem tracksOnce_track {s s1 : Task} (ext : Ext) (id : Nat) (t : Track)
    (hfit : fitsInt t.globalIndex = true)
    (h : TracksOnce s s1) : TracksOnce s (fillTrackInfo ext id s1 t) := by
  by_cases hmem : t.globalIndex ∈ s1.used_trackIds
  · have : fillTrackInfo ext id s1 t = s1 := by
      unfold fillTrackInfo
      rw [if_pos hmem]
    rw [this]
    exact h
  · have hcount := trackFillCount_fillTrackInfo ext id s1 t hmem
    have hused : (fillTrackInfo ext id s1 t).used_trackIds =
        s1.used_trackIds ++ [t.globalIndex] := by
      unfold fillTrackInfo
      rw [if_neg hmem, toInt32_of_fitsInt _ hfit]
    obtain ⟨ids, hu, hnd, hnew, hc⟩ := h
    rw [hu] at hmem
    refine ⟨ids ++ [t.globalIndex], ?_, ?_, ?_, ?_⟩
    · rw [hused, hu, List.append_assoc]
    · rw [List.nodup_append]
      refine ⟨hnd, List.nodup_singleton _, ?_⟩
      intro a ha hb
      rw [List.mem_singleton] at hb
      subst hb
      exact hmem (List.mem_append_right _ ha)
    · intro i hi
      rcases List.mem_append.mp hi with hi | hi
      · exact hnew i hi
      · rw [List.mem_singleton] at hi
        subst hi
        exact fun hh => hmem (List.mem_append_left _ hh)
    · rw [hcount, hc, List.length_append, List.length_singleton]
      ring

theorem tracksOnce_ite {s a b : Task} (c : Prop) [Decidable c]
    (ha : TracksOnce s a) (hb : TracksOnce s b) : TracksOnce s (if c then a else b) := by
  split
  · exact ha
  · exact hb

theorem tracksOnce_trans {s s1 s2 : Task} (h1 : TracksOnce s s1) (h2 : TracksOnce s1 s2) :
    TracksOnce s s2 := by
  obtain ⟨ids1, hu1, hnd1, hnew1, hc1⟩ := h1
  obtain ⟨ids2, hu2, hnd2, hnew2, hc2⟩ := h2
  refine ⟨ids1 ++ ids2, ?_, ?_, ?_, ?_⟩
  · rw [hu2, hu1, List.append_assoc]
  · rw [List.nodup_append]
    refine ⟨hnd1, hnd2, ?_⟩
    intro a ha hb
    exact hnew2 a hb (by rw [hu1]; exact List.mem_append_right _ ha)
  · intro i hi
    rcases List.mem_append.mp hi with hi | hi
    · exact hnew1 i hi
    · exact fun hh => hnew2 i hi (by rw [hu1]; exact List.mem_append_left _ hh)
  · rw [hc2, hc1, List.length_append]
    ring

theorem tracksOnce_nodup {s s' : Task} (h : TracksOnce s s') (hs : s.used_trackIds.Nodup) :
    s'.used_trackIds.Nodup := by
  obtain ⟨ids, hu, hnd, hnew, _⟩ := h
  rw [hu, List.nodup_append]
  exact ⟨hs, hnd, fun a ha hb => hnew a hb ha⟩

theorem sm_tracks (ext : Ext) (s : Task) (t1 t2 : Track) (mcparticles : List MCParticle)
    (mcmother : MCParticle) (h1 : fitsInt t1.globalIndex = true)
    (h2 : fitsInt t2.globalIndex = true) :
    TracksOnce s (fillTruePairInfo_sm ext s t1 t2 mcparticles mcmother) := by
  unfold fillTruePairInfo_sm
  generalize pairHs ext s t1 t2 = hs
  generalize pairMvsPhiV ext s t1 t2 = mphiv
  dsimp only
  repeat (first
    | with_reducible exact tracksOnce_refl _
    | with_reducible apply tracksOnce_ite
    | with_reducible apply tracksOnce_track _ _ _ h1
    | with_reducible apply tracksOnce_track _ _ _ h2
    | (with_reducible apply tracksOnce_fill; rotate_left; decide))

theorem hf_tracks (ext : Ext) (s : Task) (t1 t2 : Track) (hfee_type : Int)
    (mp1 mp2 : MCParticle) (h1 : fitsInt t1.globalIndex = true)
    (h2 : fitsInt t2.globalIndex = true) :
    TracksOnce s (fillTruePairInfo_hf ext s t1 t2 hfee_type mp1 mp2) := by
  unfold fillTruePairInfo_hf
  generalize pairHs ext s t1 t2 = hs
  dsimp only
  repeat (first
    | with_reducible exact tracksOnce_refl _
    | with_reducible apply tracksOnce_ite
    | with_reducible apply tracksOnce_track _ _ _ h1
    | with_reducible apply tracksOnce_track _ _ _ h2
    | (with_reducible apply tracksOnce_fill; rotate_left; decide))

theorem fillTruePairInfo_tracks (ext : Ext) (cfg : Config) (s : Task) (collision : Collision)
    (t1 t2 : Track) (mcparticles : List MCParticle) (b : Bool) (s' : Task)
    (h1 : fitsInt t1.globalIndex = true) (h2 : fitsInt t2.globalIndex = true)
    (hr : fillTruePairInfo ext cfg s collision t1 t2 mcparticles = some (b, s')) :
    TracksOnce s s' := by
  rcases fillTruePairInfo_cases ext cfg s collision t1 t2 mcparticles _ hr with
    h | ⟨_, ⟨_, _, h⟩ | ⟨_, h | h | ⟨mp1, mp2, h⟩⟩⟩
  · simp only [Option.some.injEq, Prod.mk.injEq] at h
    rw [h.2]
    exact tracksOnce_refl s
  · cases hm : iteratorAt mcparticles
        (FindLF t1.emmcparticle t2.emmcparticle mcparticles) with
    | none => rw [hm] at h; simp at h
    | some m =>
      rw [hm] at h
      simp only [Option.map_some', Option.some.injEq, Prod.mk.injEq] at h
      rw [h.2]
      exact sm_tracks ext s t1 t2 mcparticles m h1 h2
  · simp only [Option.some.injEq, Prod.mk.injEq] at h
    rw [h.2]
    exact tracksOnce_refl s
  · simp at h
  · simp only [Option.some.injEq, Prod.mk.injEq] at h
    rw [h.2]
    exact hf_tracks ext s t1 t2 _ mp1 mp2 h1 h2

theorem fillPairs_tracks (ext : Ext) (cfg : Config) (collision : Collision)
    (mcparticles : List MCParticle) (pairs : List (Track × Track)) :
    (∀ p ∈ pairs, fitsInt p.1.globalIndex = true ∧ fitsInt p.2.globalIndex = true) →
    ∀ s s', fillPairs ext cfg collision mcparticles s pairs = some s' → TracksOnce s s' := by
  induction pairs with
  | nil =>
    intro _ s s' h
    simp only [fillPairs, Option.some.injEq] at h
    rw [← h]
    exact tracksOnce_refl s
  | cons p rest ih =>
    intro hfit s s' h
    have hp0 := hfit p (List.mem_cons_self _ _)
    obtain ⟨t1, t2⟩ := p
    unfold fillPairs at h
    cases hp : fillTruePairInfo ext cfg s collision t1 t2 mcparticles with
    | none => rw [hp] at h; simp at h
    | some r =>
      obtain ⟨b, s1⟩ := r
      rw [hp] at h
      exact tracksOnce_trans (fillTruePairInfo_tracks ext cfg s collision t1 t2 mcparticles
        b s1 hp0.1 hp0.2 hp)
        (ih (fun q hq => hfit q (List.mem_cons_of_mem _ hq)) s1 s' h)

theorem mem_CombinationsFullIndexPolicy (a b : List Track) (p : Track × Track)
    (h : p ∈ CombinationsFullIndexPolicy a b) : p.1 ∈ a ∧ p.2 ∈ b := by
  unfold CombinationsFullIndexPolicy at h
  rw [List.mem_flatMap] at h
  obtain ⟨x, hx, hp⟩ := h
  rw [List.mem_map] at hp
  obtain ⟨y, hy, rfl⟩ := hp
  exact ⟨hx, hy⟩

theorem mem_CombinationsStrictlyUpperIndexPolicy (l : List Track) (p : Track × Track) :
    p ∈ CombinationsStrictlyUpperIndexPolicy l → p.1 ∈ l ∧ p.2 ∈ l := by
  induction l with
  | nil =>
    intro h
    simp [CombinationsStrictlyUpperIndexPolicy] at h
  | cons x rest ih =>
    intro h
    unfold CombinationsStrictlyUpperIndexPolicy at h
    rcases List.mem_append.mp h with h | h
    · rw [List.mem_map] at h
      obtain ⟨y, hy, rfl⟩ := h
      exact ⟨List.mem_cons_self _ _, List.mem_cons_of_mem _ hy⟩
    · exact ⟨List.mem_cons_of_mem _ (ih h).1, List.mem_cons_of_mem _ (ih h).2⟩

theorem initCCDB_keeps_registry (ext : Ext) (cfg : Config) (ccdb : CCDB) (s : Task)
    (collision : Collision) (s' : Task)
    (h : initCCDB ext cfg ccdb s collision = Outcome.ok s') :
    s'.fills = s.fills ∧ s'.used_trackIds = s.used_trackIds := by
  unfold initCCDB at h
  by_cases h1 : s.mRunNumber = collision.runNumber
  · rw [if_pos h1] at h
    injection h with h
    subst h
    exact ⟨rfl, rfl⟩
  rw [if_neg h1] at h
  by_cases h2 : cfg.d_bz_input > -990
  · rw [if_pos h2] at h
    injection h with h
    subst h
    exact ⟨rfl, rfl⟩
  rw [if_neg h2] at h
  dsimp only at h
  cases hskip : cfg.skipGRPOquery <;>
    cases hgrpo : ccdb.getGRPObject cfg.grpPath collision.timestamp <;>
    cases hmag : ccdb.getGRPMagField cfg.grpmagPath collision.timestamp <;>
    cases hlhc : ccdb.getGRPLHCIFData "GLO/Config/GRPLHCIF" collision.timestamp <;>
    simp [hskip, hgrpo, hmag, hlhc] at h <;>
    subst h <;>
    exact ⟨rfl, rfl⟩

theorem tracksOnce_of_eq {s s' : Task} (hf : s'.fills = s.fills)
    (hu : s'.used_trackIds = s.used_trackIds) : TracksOnce s s' :=
  ⟨[], by simp [hu], List.nodup_nil, by simp, by simp [trackFillCount, hf]⟩

theorem processQCMC_collision_tracks (ext : Ext) (ev : EventUtil) (cfg : Config) (ccdb : CCDB)
    (mcparticles : List MCParticle) (s : Task) (collision : Collision) (pos neg : List Track)
    (hev : ∀ n c, ∀ f ∈ ev.fillEventInfo n c, under "Track/" f.name = false)
    (hpos : ∀ t ∈ pos, fitsInt t.globalIndex = true)
    (hneg : ∀ t ∈ neg, fitsInt t.globalIndex = true) (s' : Task)
    (hr : processQCMC_collision ext ev cfg ccdb mcparticles s collision pos neg = some s') :
    TracksOnce s s' := by
  unfold processQCMC_collision at hr
  cases h0 : initCCDB ext cfg ccdb s collision with
  | fatal u => rw [h0] at hr; simp at hr
  | nullDeref u => rw [h0] at hr; simp at hr
  | ok s0 =>
    rw [h0] at hr
    have hk := initCCDB_keeps_registry ext cfg ccdb s collision s0 h0
    have t0 : TracksOnce s s0 := tracksOnce_of_eq hk.1 hk.2
    dsimp only at hr
    cases hc : centralityOf cfg collision with
    | none => rw [hc] at hr; simp at hr
    | some centrality =>
      rw [hc] at hr
      dsimp only at hr
      by_cases hcent : centrality < cfg.cfgCentMin ∨ cfg.cfgCentMax < centrality
      · rw [if_pos hcent] at hr
        injection hr with hr
        rw [← hr]
        exact t0
      rw [if_neg hcent] at hr
      have t1 := tracksOnce_append (ev.fillEventInfo 0 collision) t0 (hev 0 collision)
      by_cases hsel : (!ext.IsSelected collision) = true
      · rw [if_pos hsel] at hr
        injection hr with hr
        rw [← hr]
        exact t1
      rw [if_neg hsel] at hr
      have t2 := tracksOnce_append (ev.fillEventInfo 1 collision) t1 (hev 1 collision)
      have t3 := tracksOnce_fill "Event/before/hCollisionCounter" [10] t2 (by decide)
      have t4 := tracksOnce_fill "Event/after/hCollisionCounter" [10] t3 (by decide)
      rw [Option.bind_eq_some] at hr
      obtain ⟨a, ha, hr⟩ := hr
      rw [Option.bind_eq_some] at hr
      obtain ⟨b, hb, hr⟩ := hr
      have huls : ∀ p ∈ CombinationsFullIndexPolicy pos neg,
          fitsInt p.1.globalIndex = true ∧ fitsInt p.2.globalIndex = true := fun p hp =>
        ⟨hpos _ (mem_CombinationsFullIndexPolicy pos neg p hp).1,
          hneg _ (mem_CombinationsFullIndexPolicy pos neg p hp).2⟩
      have hpp : ∀ p ∈ CombinationsStrictlyUpperIndexPolicy pos,
          fitsInt p.1.globalIndex = true ∧ fitsInt p.2.globalIndex = true := fun p hp =>
        ⟨hpos _ (mem_CombinationsStrictlyUpperIndexPolicy pos p hp).1,
          hpos _ (mem_CombinationsStrictlyUpperIndexPolicy pos p hp).2⟩
      have hnn : ∀ p ∈ CombinationsStrictlyUpperIndexPolicy neg,
          fitsInt p.1.globalIndex = true ∧ fitsInt p.2.globalIndex = true := fun p hp =>
        ⟨hneg _ (mem_CombinationsStrictlyUpperIndexPolicy neg p hp).1,
          hneg _ (mem_CombinationsStrictlyUpperIndexPolicy neg p hp).2⟩
      exact tracksOnce_trans (tracksOnce_trans (tracksOnce_trans t4
        (fillPairs_tracks ext cfg collision mcparticles _ huls _ a ha))
        (fillPairs_tracks ext cfg collision mcparticles _ hpp _ b hb))
        (fillPairs_tracks ext cfg collision mcparticles _ hnn _ s' hr)

theorem processQCMC_loop_tracks (ext : Ext) (ev : EventUtil) (cfg : Config) (ccdb : CCDB)
    (mcparticles : List MCParticle) (pos neg : Collision → List Track)
    (hev : ∀ n c, ∀ f ∈ ev.fillEventInfo n c, under "Track/" f.name = false)
    (collisions : List Collision) :
    (∀ c ∈ collisions, ∀ t ∈ pos c ++ neg c, fitsInt t.globalIndex = true) →
    ∀ s s', processQCMC_loop ext ev cfg ccdb mcparticles pos neg s collisions = some s' →
      TracksOnce s s' := by
  induction collisions with
  | nil =>
    intro _ s s' h
    simp only [processQCMC_loop, Option.some.injEq] at h
    rw [← h]
    exact tracksOnce_refl s
  | cons c rest ih =>
    intro hfit s s' h
    unfold processQCMC_loop at h
    cases hp : processQCMC_collision ext ev cfg ccdb mcparticles s c (pos c) (neg c) with
    | none => rw [hp] at h; simp at h
    | some s1 =>
      rw [hp] at h
      exact tracksOnce_trans
        (processQCMC_collision_tracks ext ev cfg ccdb mcparticles s c (pos c) (neg c) hev
          (fun t ht => hfit c (List.mem_cons_self _ _) t (List.mem_append_left _ ht))
          (fun t ht => hfit c (List.mem_cons_self _ _) t (List.mem_append_right _ ht)) s1 hp)
        (ih (fun d hd => hfit d (List.mem_cons_of_mem _ hd)) s1 s' h)

/-- C16. No double counting of tracks. In one `processQCMC` call whose track indices are
in the range of `int`, that starts with no duplicate in `used_trackIds` and whose
event-histogram helper fills nothing under `Track/`, the state `s'` when the collision loop
ends has `used_trackIds` extended by new indices `ids`, has no duplicate in it, and holds
exactly one set of single-track fills (one per histogram of `trackHists`) for each index of
`ids`, whatever the pairs and their source categories. For every source `id`,
`fillTrackInfo` leaves the task unchanged when the index of the track is in
`used_trackIds`, and otherwise appends the stored index and one set of fills under
`Track/`; for an index in the range of `int` a second call, with any source, changes
nothing. -/
theorem no_double_counting_of_tracks (ext : Ext) (ev : EventUtil) (cfg : Config)
    (ccdb : CCDB) (mcparticles : List MCParticle) (pos neg : Collision → List Track)
    (s : Task) (collisions : List Collision) (s' : Task)
    (hev : ∀ n c, ∀ f ∈ ev.fillEventInfo n c, under "Track/" f.name = false)
    (hfit : ∀ c ∈ collisions, ∀ t ∈ pos c ++ neg c, fitsInt t.globalIndex = true)
    (hs : s.used_trackIds.Nodup)
    (hr : processQCMC_loop ext ev cfg ccdb mcparticles pos neg s collisions = some s') :
    s'.used_trackIds.Nodup ∧
    (∃ ids, s'.used_trackIds = s.used_trackIds ++ ids ∧
      trackFillCount s' = trackFillCount s + trackHists.length * ids.length) ∧
    (∀ (id : Nat) (u : Task) (t : Track),
      (t.globalIndex ∈ u.used_trackIds → fillTrackInfo ext id u t = u) ∧
      (t.globalIndex ∉ u.used_trackIds →
        (fillTrackInfo ext id u t).used_trackIds =
          u.used_trackIds ++ [toInt32 t.globalIndex] ∧
        FillsAdded u (fillTrackInfo ext id u t) (trackHists.map (fun h =>
          ⟨"Track/" ++ ele_source_types.getD id "" ++ h, ext.trackHist t h⟩)) ∧
        trackFillCount (fillTrackInfo ext id u t) = trackFillCount u + trackHists.length) ∧
      (fitsInt t.globalIndex = true →
        (u.used_trackIds.Nodup → (fillTrackInfo ext id u t).used_trackIds.Nodup) ∧
        ∀ id2 : Nat, fillTrackInfo ext id2 (fillTrackInfo ext id u t) t =
          fillTrackInfo ext id u t)) := by
  have h := processQCMC_loop_tracks ext ev cfg ccdb mcparticles pos neg hev collisions hfit
    s s' hr
  refine ⟨tracksOnce_nodup h hs, ?_, ?_⟩
  · obtain ⟨ids, hu, _, _, hc⟩ := h
    exact ⟨ids, hu, hc⟩
  · intro id u t
    refine ⟨?_, ?_, ?_⟩
    · intro hmem
      unfold fillTrackInfo
      rw [if_pos hmem]
    · intro hmem
      refine ⟨?_, ?_, trackFillCount_fillTrackInfo ext id u t hmem⟩
      · unfold fillTrackInfo
        rw [if_neg hmem]
      · unfold fillTrackInfo FillsAdded
        rw [if_neg hmem]
    · intro ht
      refine ⟨tracksOnce_nodup (tracksOnce_track ext id t ht (tracksOnce_refl u)), ?_⟩
      intro id2
      have hin : t.globalIndex ∈ (fillTrackInfo ext id u t).used_trackIds := by
        unfold fillTrackInfo
        by_cases hmem : t.globalIndex ∈ u.used_trackIds
        · rw [if_pos hmem]
          exact hmem
        · rw [if_neg hmem, toInt32_of_fitsInt _ ht]
          exact List.mem_append_right _ (List.mem_singleton_self _)
      generalize fillTrackInfo ext id u t = v at hin
      unfold fillTrackInfo
      rw [if_pos hin]

/-- C17. The used-track set starts empty: `init` leaves `used_trackIds` empty, a
`processQCMC` call that returns leaves it empty whatever state it started from, and so
after any sequence of `processQCMC` calls from the constructed task it is empty; the next
call then starts its pair processing with an empty set, in which every track index is
new, so `fillTrackInfo` fills for it. -/
theorem used_trackIds_empty_between_calls (ext : Ext) (ev : EventUtil) (cfg : Config)
    (ccdb : CCDB) (inputs : List QCMCInput) (s' : Task)
    (hr : processQCMC_calls ext ev cfg ccdb (init ext) inputs = some s') :
    (init ext).used_trackIds = [] ∧
    (∀ (s : Task) (input : QCMCInput) (u : Task),
      processQCMC ext ev cfg ccdb s input.collisions input.posTracks_per_coll
        input.negTracks_per_coll input.mcparticles = some u → u.used_trackIds = []) ∧
    s'.used_trackIds = [] ∧
    (∀ (id : Nat) (t : Track),
      (fillTrackInfo ext id s' t).used_trackIds = [toInt32 t.globalIndex] ∧
      trackFillCount (fillTrackInfo ext id s' t) = trackFillCount s' + trackHists.length) := by
  have hcall : ∀ s (input : QCMCInput) u,
      processQCMC ext ev cfg ccdb s input.collisions input.posTracks_per_coll
        input.negTracks_per_coll input.mcparticles = some u → u.used_trackIds = [] := by
    intro s input u h
    unfold processQCMC at h
    rw [Option.map_eq_some'] at h
    obtain ⟨a, _, ha⟩ := h
    rw [← ha]
  have hcalls : ∀ (l : List QCMCInput) s u, s.used_trackIds = [] →
      processQCMC_calls ext ev cfg ccdb s l = some u → u.used_trackIds = [] := by
    intro l
    induction l with
    | nil =>
      intro s u hs h
      simp only [processQCMC_calls, Option.some.injEq] at h
      rw [← h]
      exact hs
    | cons input rest ih =>
      intro s u _ h
      unfold processQCMC_calls at h
      cases hp : processQCMC ext ev cfg ccdb s input.collisions input.posTracks_per_coll
          input.negTracks_per_coll input.mcparticles with
      | none => rw [hp] at h; simp at h
      | some s1 =>
        rw [hp] at h
        exact ih s1 u (hcall s input s1 hp) h
  have hfinal := hcalls inputs (init ext) s' rfl hr
  refine ⟨rfl, hcall, hfinal, ?_⟩
  intro id t
  have hmem : t.globalIndex ∉ s'.used_trackIds := by
    rw [hfinal]
    exact List.not_mem_nil _
  refine ⟨?_, trackFillCount_fillTrackInfo ext id s' t hmem⟩
  unfold fillTrackInfo
  rw [if_neg hmem, hfinal]
  rfl

/-! ## The sample call -/

theorem sample_jpsi_pair_first (s : Task) :
    fillTruePairInfo sampleExt overrideConfig s (sampleCollision 1) sharedPositron
        (electronCopy 1) nonPromptJPsiTable =
      some (true, fillBucket sampleExt s sharedPositron (electronCopy 1)
        ("Pair/sm/NonPromptJPsi/", 3)) := by
  have hy : ¬ |sampleExt.Rapidity (sampleExt.vsum
      (sampleExt.makeVector sharedPositron.pt sharedPositron.eta sharedPositron.phi
        sampleExt.MassElectron)
      (sampleExt.makeVector (electronCopy 1).pt (electronCopy 1).eta (electronCopy 1).phi
        sampleExt.MassElectron))| > overrideConfig.maxY := by
    norm_num [sampleExt, overrideConfig, defaultConfig, sharedPositron, electronCopy, sampleTrack]
  rw [fillTruePairInfo_after_gates sampleExt overrideConfig s (sampleCollision 1)
    sharedPositron (electronCopy 1) nonPromptJPsiTable (by decide) rfl (by decide) (by decide)
    (by decide), if_neg hy]
  unfold fillTruePairInfo_classify
  dsimp only
  rw [if_pos (by decide)]
  show some (true, fillTruePairInfo_sm sampleExt s sharedPositron (electronCopy 1)
    nonPromptJPsiTable (sampleParticle 443 [1] [3, 4])) = _
  rw [fillTruePairInfo_sm_quarkonium sampleExt s sharedPositron (electronCopy 1)
    nonPromptJPsiTable (sampleParticle 443 [1] [3, 4]) (by decide) (by decide) (by decide)
    (Or.inl (by decide))]
  rfl

theorem sample_jpsi_pair_second (s : Task) :
    fillTruePairInfo sampleExt overrideConfig s (sampleCollision 1) sharedPositron
        (electronCopy 2) nonPromptJPsiTable =
      some (true, fillBucket sampleExt s sharedPositron (electronCopy 2)
        ("Pair/sm/NonPromptJPsi/", 3)) := by
  have hy : ¬ |sampleExt.Rapidity (sampleExt.vsum
      (sampleExt.makeVector sharedPositron.pt sharedPositron.eta sharedPositron.phi
        sampleExt.MassElectron)
      (sampleExt.makeVector (electronCopy 2).pt (electronCopy 2).eta (electronCopy 2).phi
        sampleExt.MassElectron))| > overrideConfig.maxY := by
    norm_num [sampleExt, overrideConfig, defaultConfig, sharedPositron, electronCopy, sampleTrack]
  rw [fillTruePairInfo_after_gates sampleExt overrideConfig s (sampleCollision 1)
    sharedPositron (electronCopy 2) nonPromptJPsiTable (by decide) rfl (by decide) (by decide)
    (by decide), if_neg hy]
  unfold fillTruePairInfo_classify
  dsimp only
  rw [if_pos (by decide)]
  show some (true, fillTruePairInfo_sm sampleExt s sharedPositron (electronCopy 2)
    nonPromptJPsiTable (sampleParticle 443 [1] [3, 4])) = _
  rw [fillTruePairInfo_sm_quarkonium sampleExt s sharedPositron (electronCopy 2)
    nonPromptJPsiTable (sampleParticle 443 [1] [3, 4]) (by decide) (by decide) (by decide)
    (Or.inl (by decide))]
  rfl

theorem sample_like_sign_pair (s : Task) :
    fillTruePairInfo sampleExt overrideConfig s (sampleCollision 1) (electronCopy 1)
        (electronCopy 2) nonPromptJPsiTable = some (false, s) := by
  unfold fillTruePairInfo
  dsimp only
  rw [if_neg (by decide), if_neg (by simp [sampleExt]), if_neg (by decide),
    if_neg (by decide), if_pos (by decide)]

theorem sample_loop_from (s s0 : Task)
    (h0 : initCCDB sampleExt overrideConfig sampleCCDB s (sampleCollision 1) = Outcome.ok s0) :
    processQCMC_loop sampleExt sampleEventUtil overrideConfig sampleCCDB
        sampleInput.mcparticles sampleInput.posTracks_per_coll sampleInput.negTracks_per_coll
        s sampleInput.collisions = some (sampleCall s0) := by
  have hc : centralityOf overrideConfig (sampleCollision 1) = some 10 := by
    unfold centralityOf
    rw [if_neg (by decide)]
    rfl
  show (match processQCMC_collision sampleExt sampleEventUtil overrideConfig sampleCCDB
      nonPromptJPsiTable s (sampleCollision 1) [sharedPositron]
      [electronCopy 1, electronCopy 2] with
    | none => none
    | some s' => some s') = some (sampleCall s0)
  unfold processQCMC_collision
  rw [h0]
  dsimp only
  rw [hc]
  dsimp only
  rw [if_neg (by norm_num [overrideConfig, defaultConfig]), if_neg (by decide)]
  simp only [CombinationsFullIndexPolicy, CombinationsStrictlyUpperIndexPolicy, fillPairs,
    List.flatMap_cons, List.flatMap_nil, List.map_cons, List.map_nil, List.append_nil,
    List.nil_append, sample_jpsi_pair_first, sample_jpsi_pair_second, sample_like_sign_pair,
    Option.some_bind, List.singleton_append]
  rfl

theorem sample_loop :
    processQCMC_loop sampleExt sampleEventUtil overrideConfig sampleCCDB
        sampleInput.mcparticles sampleInput.posTracks_per_coll sampleInput.negTracks_per_coll
        (init sampleExt) sampleInput.collisions = some sampleLoopResult := by
  apply sample_loop_from
  unfold initCCDB
  rw [if_neg (by decide), if_pos (by norm_num [overrideConfig])]
  rfl

theorem sample_calls :
    processQCMC_calls sampleExt sampleEventUtil overrideConfig sampleCCDB (init sampleExt)
      [sampleInput, sampleInput] = some sampleCallsResult := by
  have h2 : processQCMC_loop sampleExt sampleEventUtil overrideConfig sampleCCDB
      sampleInput.mcparticles sampleInput.posTracks_per_coll sampleInput.negTracks_per_coll
      { sampleLoopResult with used_trackIds := [] } sampleInput.collisions =
      some (sampleCall { sampleLoopResult with used_trackIds := [] }) :=
    sample_loop_from _ _ (initCCDB_same_run _ _ _ _ _ rfl)
  simp only [processQCMC_calls, processQCMC, sample_loop, h2, Option.map_some']
  rfl

theorem sampleEventUtil_no_track_fill :
    ∀ n c, ∀ f ∈ sampleEventUtil.fillEventInfo n c, under "Track/" f.name = false := by
  intro n c f hf
  simp only [sampleEventUtil, List.mem_singleton] at hf
  subst hf
  show under "Track/" "Event/hCollisionCounter" = false
  decide

/-- Witness of C16: in the sample call track 0 takes part in two classified pairs; when
the collision loop ends the recorded indices are 0, 1, 2, without duplicate, and the
single-track histograms hold one set of fills for each of them. -/
theorem no_double_counting_of_tracks_witness :
    processQCMC_loop sampleExt sampleEventUtil overrideConfig sampleCCDB
        sampleInput.mcparticles sampleInput.posTracks_per_coll sampleInput.negTracks_per_coll
        (init sampleExt) sampleInput.collisions = some sampleLoopResult ∧
    sampleLoopResult.used_trackIds = [0, 1, 2] ∧
    sampleLoopResult.used_trackIds.Nodup ∧
    ∃ ids, sampleLoopResult.used_trackIds = (init sampleExt).used_trackIds ++ ids ∧
      trackFillCount sampleLoopResult =
        trackFillCount (init sampleExt) + trackHists.length * ids.length :=
  ⟨sample_loop, rfl,
    (no_double_counting_of_tracks sampleExt sampleEventUtil overrideConfig sampleCCDB
      sampleInput.mcparticles sampleInput.posTracks_per_coll sampleInput.negTracks_per_coll
      (init sampleExt) sampleInput.collisions sampleLoopResult sampleEventUtil_no_track_fill
      (by decide) List.nodup_nil sample_loop).1,
    (no_double_counting_of_tracks sampleExt sampleEventUtil overrideConfig sampleCCDB
      sampleInput.mcparticles sampleInput.posTracks_per_coll sampleInput.negTracks_per_coll
      (init sampleExt) sampleInput.collisions sampleLoopResult sampleEventUtil_no_track_fill
      (by decide) List.nodup_nil sample_loop).2.1⟩

/-- Witness of C17: after two calls on the sample tables, in each of which the tracks 0,
1 and 2 are recorded, `used_trackIds` is empty. -/
theorem used_trackIds_empty_between_calls_witness :
    processQCMC_calls sampleExt sampleEventUtil overrideConfig sampleCCDB (init sampleExt)
      [sampleInput, sampleInput] = some sampleCallsResult ∧
    (sampleCall { sampleLoopResult with used_trackIds := [] }).used_trackIds = [0, 1, 2] ∧
    sampleCallsResult.used_trackIds = [] :=
  ⟨sample_calls, rfl,
    (used_trackIds_empty_between_calls sampleExt sampleEventUtil overrideConfig sampleCCDB
      [sampleInput, sampleInput] sampleCallsResult sample_calls).2.2.1⟩

/-! ## Unexpected sign and category combinations -/

theorem fillTruePairInfo_hf_like_sign (ext : Ext) (s : Task) (t1 t2 : Track)
    (hfee_type : Int) (mp1 mp2 : MCParticle)
    (hsign : ¬ t1.emmcparticle.pdgCode * t2.emmcparticle.pdgCode < 0)
    (hcat : hfee_type = ext.kCe_Ce ∨ hfee_type = ext.kBe_Be ∨ hfee_type = ext.kBCe_BCe ∨
      hfee_type = ext.kBCe_Be_SameB) :
    fillTruePairInfo_hf ext s t1 t2 hfee_type mp1 mp2 = s := by
  unfold fillTruePairInfo_hf
  dsimp only
  rw [if_neg hsign]
  by_cases h1 : hfee_type = ext.kCe_Ce
  · rw [if_pos h1]
  rw [if_neg h1]
  by_cases h2 : hfee_type = ext.kBe_Be
  · rw [if_pos h2]
  rw [if_neg h2]
  by_cases h3 : hfee_type = ext.kBCe_BCe
  · rw [if_pos h3]
  rw [if_neg h3]
  rcases hcat with h | h | h | h
  · exact absurd h h1
  · exact absurd h h2
  · exact absurd h h3
  · rw [if_pos h]

theorem fillTruePairInfo_hf_unlike_sign_diffb (ext : Ext) (s : Task) (t1 t2 : Track)
    (hfee_type : Int) (mp1 mp2 : MCParticle)
    (hsign : t1.emmcparticle.pdgCode * t2.emmcparticle.pdgCode < 0)
    (h1 : hfee_type ≠ ext.kCe_Ce) (h2 : hfee_type ≠ ext.kBe_Be)
    (h3 : hfee_type ≠ ext.kBCe_BCe) (h4 : hfee_type ≠ ext.kBCe_Be_SameB) :
    fillTruePairInfo_hf ext s t1 t2 hfee_type mp1 mp2 = s := by
  unfold fillTruePairInfo_hf
  dsimp only
  rw [if_pos hsign, if_neg h1, if_neg h2, if_neg h3, if_neg h4]

theorem fillTruePairInfo_classify_hf (ext : Ext) (s : Task) (t1 t2 : Track)
    (mcparticles : List MCParticle) (mp1 mp2 : MCParticle)
    (hsm : ¬ (FindLF t1.emmcparticle t2.emmcparticle mcparticles > -1 ∧
      t1.emmcparticle.pdgCode * t2.emmcparticle.pdgCode < 0))
    (hhf : ext.IsHF t1.emmcparticle t2.emmcparticle mcparticles > -1)
    (hprim : (isPrimary t1.emmcparticle && isPrimary t2.emmcparticle) = true)
    (hm1 : (firstMother t1.emmcparticle).bind (iteratorAt mcparticles) = some mp1)
    (hm2 : (firstMother t2.emmcparticle).bind (iteratorAt mcparticles) = some mp2) :
    fillTruePairInfo_classify ext s t1 t2 mcparticles =
      some (true, fillTruePairInfo_hf ext s t1 t2
        (ext.IsHF t1.emmcparticle t2.emmcparticle mcparticles) mp1 mp2) := by
  unfold fillTruePairInfo_classify
  dsimp only
  rw [if_neg hsm, if_pos hhf, if_pos hprim, hm1, hm2]

theorem fillTruePairInfo_classify_secondary (ext : Ext) (s : Task) (t1 t2 : Track)
    (mcparticles : List MCParticle)
    (hsm : ¬ (FindLF t1.emmcparticle t2.emmcparticle mcparticles > -1 ∧
      t1.emmcparticle.pdgCode * t2.emmcparticle.pdgCode < 0))
    (hprim : ¬ (isPrimary t1.emmcparticle && isPrimary t2.emmcparticle) = true) :
    fillTruePairInfo_classify ext s t1 t2 mcparticles = some (true, s) := by
  unfold fillTruePairInfo_classify
  dsimp only
  rw [if_neg hsm]
  by_cases hhf : ext.IsHF t1.emmcparticle t2.emmcparticle mcparticles > -1
  · rw [if_pos hhf, if_neg hprim]
  · rw [if_neg hhf]

/-- C18. Unexpected sign/category combinations are tolerated and not filled. For a pair
that passes the cuts, the electron and same-event tests and the rapidity bound, that has a
heavy-flavour category and whose first mothers can be read when both legs are primary:
if the product of the two truth PDG codes is positive, both legs are primary and the
category is kCe_Ce, kBe_Be, kBCe_BCe or kBCe_Be_SameB, or if the product is negative,
no resonance matched and the category is kBCe_Be_DiffB (an enumerator different from the
other four), then `fillTruePairInfo` returns true and leaves the task, its histograms and
`used_trackIds` included, as it was. The reconstructed charge of the tracks plays no
part. -/
theorem unexpected_sign_category_not_filled (ext : Ext) (cfg : Config) (s : Task)
    (collision : Collision) (t1 t2 : Track) (mcparticles : List MCParticle)
    (hcut : trackCutFails ext cfg collision t1 t2 = false)
    (hpair : ext.IsSelectedPair t1 t2 s.d_bz = true)
    (hpdg : t1.emmcparticle.pdgCode.natAbs = 11 ∧ t2.emmcparticle.pdgCode.natAbs = 11)
    (hev : t1.emmcparticle.emmceventId = t2.emmcparticle.emmceventId)
    (hy : ¬ |ext.Rapidity (ext.vsum (ext.makeVector t1.pt t1.eta t1.phi ext.MassElectron)
          (ext.makeVector t2.pt t2.eta t2.phi ext.MassElectron))| > cfg.maxY)
    (hhf : ext.IsHF t1.emmcparticle t2.emmcparticle mcparticles > -1)
    (hread : (isPrimary t1.emmcparticle && isPrimary t2.emmcparticle) = true →
      ∃ mp1 mp2, (firstMother t1.emmcparticle).bind (iteratorAt mcparticles) = some mp1 ∧
        (firstMother t2.emmcparticle).bind (iteratorAt mcparticles) = some mp2)
    (hcase :
      (t1.emmcparticle.pdgCode * t2.emmcparticle.pdgCode > 0 ∧
        (isPrimary t1.emmcparticle && isPrimary t2.emmcparticle) = true ∧
        (ext.IsHF t1.emmcparticle t2.emmcparticle mcparticles = ext.kCe_Ce ∨
         ext.IsHF t1.emmcparticle t2.emmcparticle mcparticles = ext.kBe_Be ∨
         ext.IsHF t1.emmcparticle t2.emmcparticle mcparticles = ext.kBCe_BCe ∨
         ext.IsHF t1.emmcparticle t2.emmcparticle mcparticles = ext.kBCe_Be_SameB)) ∨
      (t1.emmcparticle.pdgCode * t2.emmcparticle.pdgCode < 0 ∧
        FindLF t1.emmcparticle t2.emmcparticle mcparticles < 0 ∧
        ext.IsHF t1.emmcparticle t2.emmcparticle mcparticles = ext.kBCe_Be_DiffB ∧
        ext.kBCe_Be_DiffB ≠ ext.kCe_Ce ∧ ext.kBCe_Be_DiffB ≠ ext.kBe_Be ∧
        ext.kBCe_Be_DiffB ≠ ext.kBCe_BCe ∧ ext.kBCe_Be_DiffB ≠ ext.kBCe_Be_SameB)) :
    fillTruePairInfo ext cfg s collision t1 t2 mcparticles = some (true, s) := by
  rw [fillTruePairInfo_after_gates ext cfg s collision t1 t2 mcparticles hcut hpair hpdg hev
    (fun h => absurd h.2 (by omega)), if_neg hy]
  rcases hcase with ⟨hpos, hprim, hcat⟩ | ⟨hneg, hlf, hcat, d1, d2, d3, d4⟩
  · obtain ⟨mp1, mp2, hm1, hm2⟩ := hread hprim
    rw [fillTruePairInfo_classify_hf ext s t1 t2 mcparticles mp1 mp2
      (fun h => absurd h.2 (by omega)) hhf hprim hm1 hm2,
      fillTruePairInfo_hf_like_sign ext s t1 t2 _ mp1 mp2 (by omega) hcat]
  · by_cases hprim : (isPrimary t1.emmcparticle && isPrimary t2.emmcparticle) = true
    · obtain ⟨mp1, mp2, hm1, hm2⟩ := hread hprim
      rw [fillTruePairInfo_classify_hf ext s t1 t2 mcparticles mp1 mp2
        (fun h => absurd h.1 (by omega)) hhf hprim hm1 hm2,
        fillTruePairInfo_hf_unlike_sign_diffb ext s t1 t2 _ mp1 mp2 hneg
          (by rw [hcat]; exact d1) (by rw [hcat]; exact d2) (by rw [hcat]; exact d3)
          (by rw [hcat]; exact d4)]
    · exact fillTruePairInfo_classify_secondary ext s t1 t2 mcparticles
        (fun h => absurd h.1 (by omega)) hprim

/-- Witness of C18: two electrons of code 11 from a D0 and an anti-D0 (category kCe_Ce),
reconstructed with opposite charges, and a positron from a B0 with an electron from the D
of another B (category kBCe_Be_DiffB): both calls return true and fill nothing. -/
theorem unexpected_sign_category_not_filled_witness :
    fillTruePairInfo sampleExt defaultConfig (init sampleExt) (sampleCollision 1)
        (sampleTrack 0 1 (sampleParticle 11 [0] []))
        (sampleTrack 1 (-1) (sampleParticle 11 [1] [])) likeSignCharmTable =
      some (true, init sampleExt) ∧
    fillTruePairInfo hfExt defaultConfig (init hfExt) (sampleCollision 1)
        (sampleTrack 0 1 (sampleParticle (-11) [0] []))
        (sampleTrack 1 (-1) (sampleParticle 11 [2] [])) diffBTable =
      some (true, init hfExt) :=
  ⟨unexpected_sign_category_not_filled sampleExt defaultConfig (init sampleExt)
      (sampleCollision 1) (sampleTrack 0 1 (sampleParticle 11 [0] []))
      (sampleTrack 1 (-1) (sampleParticle 11 [1] [])) likeSignCharmTable
      (by decide) (by decide) (by decide) (by decide)
      (by norm_num [sampleExt, defaultConfig, sampleTrack])
      (by decide) (fun _ => ⟨_, _, rfl, rfl⟩) (Or.inl (by decide)),
   unexpected_sign_category_not_filled hfExt defaultConfig (init hfExt)
      (sampleCollision 1) (sampleTrack 0 1 (sampleParticle (-11) [0] []))
      (sampleTrack 1 (-1) (sampleParticle 11 [2] [])) diffBTable
      (by decide) (by decide) (by decide) (by decide)
      (by norm_num [hfExt, sampleExt, defaultConfig, sampleTrack])
      (by decide) (fun _ => ⟨_, _, rfl, rfl⟩) (Or.inr (by decide))⟩

/-! ## Sub-buckets of the generated heavy-flavour pairs -/

/-- C19, failing input. The generated pair e+ (row 4) e- (row 5) of `beautyCharmTable`,
both from a D meson from a B meson, is classified `kBCe_BCe`; `processGen` fills
`Generated/bbbar/b2c2e_b2c2e/hadron_hadron/hs` and then
`Generated/bbbar/b2e_b2e/meson_meson/hs`, which does not lie under
`Generated/bbbar/b2c2e_b2c2e/`, while `fillTruePairInfo` files the same pair, once
reconstructed, under `Pair/bbbar/b2c2e_b2c2e/meson_meson/hs`. -/
theorem generated_b2c2e_sub_bucket_misfiled :
    hfExt.IsHF (sampleParticle (-11) [3] []) (sampleParticle 11 [2] []) beautyCharmTable =
      hfExt.kBCe_BCe ∧
    (processGen_ULS hfExt defaultConfig (init hfExt) (sampleParticle (-11) [3] [])
        (sampleParticle 11 [2] []) beautyCharmTable).map (fun s => s.fills.map (fun f => f.name)) =
      some ["Generated/bbbar/b2c2e_b2c2e/hadron_hadron/hs",
            "Generated/bbbar/b2e_b2e/meson_meson/hs"] ∧
    under "Generated/bbbar/b2c2e_b2c2e/" "Generated/bbbar/b2e_b2e/meson_meson/hs" = false ∧
    (fillTruePairInfo hfExt defaultConfig (init hfExt) (sampleCollision 1)
        (sampleTrack 0 1 (sampleParticle (-11) [3] []))
        (sampleTrack 1 (-1) (sampleParticle 11 [2] [])) beautyCharmTable).map
        (fun r => (r.2.fills.map (fun f => f.name)).take 2) =
      some ["Pair/bbbar/b2c2e_b2c2e/hadron_hadron/hs",
            "Pair/bbbar/b2c2e_b2c2e/meson_meson/hs"] := by
  have hy : ¬ |hfExt.Rapidity (hfExt.vsum
      (hfExt.makeVector (sampleParticle (-11) [3] []).pt (sampleParticle (-11) [3] []).eta
        (sampleParticle (-11) [3] []).phi hfExt.MassElectron)
      (hfExt.makeVector (sampleParticle 11 [2] []).pt (sampleParticle 11 [2] []).eta
        (sampleParticle 11 [2] []).phi hfExt.MassElectron))| > defaultConfig.maxY := by
    norm_num [hfExt, sampleExt, defaultConfig, sampleParticle]
  have hy2 : ¬ |hfExt.Rapidity (hfExt.vsum
      (hfExt.makeVector (sampleTrack 0 1 (sampleParticle (-11) [3] [])).pt
        (sampleTrack 0 1 (sampleParticle (-11) [3] [])).eta
        (sampleTrack 0 1 (sampleParticle (-11) [3] [])).phi hfExt.MassElectron)
      (hfExt.makeVector (sampleTrack 1 (-1) (sampleParticle 11 [2] [])).pt
        (sampleTrack 1 (-1) (sampleParticle 11 [2] [])).eta
        (sampleTrack 1 (-1) (sampleParticle 11 [2] [])).phi hfExt.MassElectron))| >
      defaultConfig.maxY := by
    norm_num [hfExt, sampleExt, defaultConfig, sampleTrack]
  have hacc : ∀ pdg m, isInAcceptance defaultConfig (sampleParticle pdg m []) = true := by
    intro pdg m
    norm_num [isInAcceptance, defaultConfig, sampleParticle]
  refine ⟨by decide, ?_, by decide, ?_⟩
  · unfold processGen_ULS
    rw [if_neg (by rw [hacc, hacc]; decide), if_neg (by decide), if_neg (by decide)]
    dsimp only
    rw [if_neg (by decide), if_neg hy, if_neg (by decide), if_pos (by decide)]
    rfl
  · unfold fillTruePairInfo
    rw [if_neg (by decide), if_neg (by decide)]
    dsimp only
    rw [if_neg (by decide), if_neg (by decide), if_neg (by decide), if_neg hy2,
      if_neg (by decide), if_pos (by decide), if_pos (by decide)]
    rfl

/-! ## Exchange of the two legs -/

theorem vsum_comm_of_cartesian (ext : Ext) (X Y Z T : PtEtaPhiMVector → ℚ)
    (SetXYZT : ℚ → ℚ → ℚ → ℚ → PtEtaPhiMVector)
    (hsum : ∀ a b, ext.vsum a b = SetXYZT (X a + X b) (Y a + Y b) (Z a + Z b) (T a + T b))
    (a b : PtEtaPhiMVector) : ext.vsum a b = ext.vsum b a := by
  rw [hsum a b, hsum b a, add_comm (X a), add_comm (Y a), add_comm (Z a), add_comm (T a)]

/-- C20. Swap invariance: when the vector sum of the library adds the Cartesian
components (`operator+` is `SetXYZT(x1 + x2, y1 + y2, z1 + z2, t1 + t2)`), the 4-vector
sum of the two legs taken with the electron mass, and with it the invariant mass and the
transverse momentum that `fillTruePairInfo` and `processGen` put first and second in the
tuple of every `hs` fill, are unchanged when leg 1 and leg 2 are exchanged. -/
theorem mass_and_pt_swap_invariant (ext : Ext) (X Y Z T : PtEtaPhiMVector → ℚ)
    (SetXYZT : ℚ → ℚ → ℚ → ℚ → PtEtaPhiMVector)
    (hsum : ∀ a b, ext.vsum a b = SetXYZT (X a + X b) (Y a + Y b) (Z a + Z b) (T a + T b))
    (s : Task) (t1 t2 : Track) (p1 p2 : MCParticle) :
    (pairHs ext s t1 t2).take 2 =
      [(ext.vsum (ext.makeVector t1.pt t1.eta t1.phi ext.MassElectron)
          (ext.makeVector t2.pt t2.eta t2.phi ext.MassElectron)).M,
       (ext.vsum (ext.makeVector t1.pt t1.eta t1.phi ext.MassElectron)
          (ext.makeVector t2.pt t2.eta t2.phi ext.MassElectron)).Pt] ∧
    (pairHs ext s t1 t2).take 2 = (pairHs ext s t2 t1).take 2 ∧
    (pairMvsPhiV ext s t1 t2).drop 1 = (pairMvsPhiV ext s t2 t1).drop 1 ∧
    (genHs ext s p1 p2).take 2 = (genHs ext s p2 p1).take 2 := by
  have hc := vsum_comm_of_cartesian ext X Y Z T SetXYZT hsum
  refine ⟨rfl, ?_, ?_, ?_⟩
  · show [_, _] = [_, _]
    rw [hc]
  · show [_] = [_]
    rw [hc]
  · show [_, _] = [_, _]
    rw [hc]

/-- Witness of C20 with the sample collaborators, whose sum adds the four stored
components: the mass and pT entries of the legs at pT 1 and pT 3 are the same in both
orders. -/
theorem mass_and_pt_swap_invariant_witness :
    (pairHs sampleExt (init sampleExt) (kinematicTrack 1 0 0 0)
        (kinematicTrack 3 (1 / 2) 0 0)).take 2 =
      (pairHs sampleExt (init sampleExt) (kinematicTrack 3 (1 / 2) 0 0)
        (kinematicTrack 1 0 0 0)).take 2 :=
  (mass_and_pt_swap_invariant sampleExt (fun v => v.Pt) (fun v => v.Eta) (fun v => v.Phi)
    (fun v => v.M) (fun x y z t => ⟨x, y / 2, z / 2, t⟩) (fun _ _ => rfl) (init sampleExt)
    (kinematicTrack 1 0 0 0) (kinematicTrack 3 (1 / 2) 0 0)
    (sampleParticle (-11) [] []) (sampleParticle 11 [] [])).2.1

/-! ## The kinematic quantities of a pair -/

theorem bringToPMPi_range (pi x : ℚ) (hpi : 0 < pi) :
    -pi < bringToPMPi pi x ∧ bringToPMPi pi x ≤ pi := by
  unfold bringToPMPi
  have h2 : (0 : ℚ) < 2 * pi := by linarith
  have hle : (x - pi) / (2 * pi) ≤ ⌈(x - pi) / (2 * pi)⌉ := Int.le_ceil _
  have hlt : (⌈(x - pi) / (2 * pi)⌉ : ℚ) < (x - pi) / (2 * pi) + 1 := Int.ceil_lt_add_one _
  rw [div_le_iff₀ h2] at hle
  have hlt2 : (⌈(x - pi) / (2 * pi)⌉ : ℚ) * (2 * pi) < x - pi + 2 * pi := by
    have := mul_lt_mul_of_pos_right hlt h2
    rw [add_mul, div_mul_cancel₀ _ (ne_of_gt h2), one_mul] at this
    exact this
  constructor <;> nlinarith

theorem abs_bringToPMPi_le (pi x : ℚ) (hpi : 0 < pi) : |bringToPMPi pi x| ≤ pi := by
  rw [abs_le]
  exact ⟨le_of_lt (bringToPMPi_range pi x hpi).1, (bringToPMPi_range pi x hpi).2⟩

theorem bringToPMPi_fixed (pi x : ℚ) (hpi : 0 < pi) (h1 : -pi < x) (h2 : x ≤ pi) :
    bringToPMPi pi x = x := by
  unfold bringToPMPi
  have hp : (0 : ℚ) < 2 * pi := by linarith
  have hc : ⌈(x - pi) / (2 * pi)⌉ = 0 := by
    rw [Int.ceil_eq_iff]
    constructor
    · rw [lt_div_iff₀ hp]
      push_cast
      linarith
    · rw [div_le_iff₀ hp]
      push_cast
      linarith
  rw [hc]
  push_cast
  ring

/-- C21. Azimuthal wrap range: the wrap, modelled from the spec as `bringToPMPi`, leaves
every input angle difference in the half-open interval `(-π, π]`, changes it by a whole
number of turns and leaves an angle of that interval as it is; with this wrap the values
`abs(dphi)` and `abs(dphi_e_ee)` that `fillTruePairInfo` and `processGen` fill (third and
eighth entry of the tuple) lie in `[0, π]`. -/
theorem azimuthal_wrap_range (ext : Ext) (s : Task) (t1 t2 : Track) (p1 p2 : MCParticle)
    (hpi : 0 < ext.M_PI) (hwrap : ∀ x, ext.bringToPMPi x = bringToPMPi ext.M_PI x) :
    (∀ x, -ext.M_PI < bringToPMPi ext.M_PI x ∧ bringToPMPi ext.M_PI x ≤ ext.M_PI ∧
      0 ≤ |bringToPMPi ext.M_PI x| ∧ |bringToPMPi ext.M_PI x| ≤ ext.M_PI ∧
      (∃ k : ℤ, bringToPMPi ext.M_PI x = x - 2 * ext.M_PI * k) ∧
      (-ext.M_PI < x → x ≤ ext.M_PI → bringToPMPi ext.M_PI x = x)) ∧
    (∃ dphi dphi_e_ee, (pairHs ext s t1 t2)[2]? = some |dphi| ∧
      (pairHs ext s t1 t2)[7]? = some |dphi_e_ee| ∧
      dphi = ext.bringToPMPi
        ((ext.makeVector t1.pt t1.eta t1.phi ext.MassElectron).Phi -
          (ext.makeVector t2.pt t2.eta t2.phi ext.MassElectron).Phi) ∧
      dphi_e_ee = ext.bringToPMPi
        ((ext.makeVector t1.pt t1.eta t1.phi ext.MassElectron).Phi -
          (ext.vsum (ext.makeVector t1.pt t1.eta t1.phi ext.MassElectron)
            (ext.makeVector t2.pt t2.eta t2.phi ext.MassElectron)).Phi) ∧
      -ext.M_PI < dphi ∧ dphi ≤ ext.M_PI ∧ -ext.M_PI < dphi_e_ee ∧ dphi_e_ee ≤ ext.M_PI ∧
      0 ≤ |dphi| ∧ |dphi| ≤ ext.M_PI ∧ 0 ≤ |dphi_e_ee| ∧ |dphi_e_ee| ≤ ext.M_PI) ∧
    (∃ dphi dphi_e_ee, (genHs ext s p1 p2)[2]? = some |dphi| ∧
      (genHs ext s p1 p2)[7]? = some |dphi_e_ee| ∧
      dphi = ext.bringToPMPi
        ((ext.makeVector p1.pt p1.eta p1.phi ext.MassElectron).Phi -
          (ext.makeVector p2.pt p2.eta p2.phi ext.MassElectron).Phi) ∧
      dphi_e_ee = ext.bringToPMPi
        ((ext.makeVector p1.pt p1.eta p1.phi ext.MassElectron).Phi -
          (ext.vsum (ext.makeVector p1.pt p1.eta p1.phi ext.MassElectron)
            (ext.makeVector p2.pt p2.eta p2.phi ext.MassElectron)).Phi) ∧
      -ext.M_PI < dphi ∧ dphi ≤ ext.M_PI ∧ -ext.M_PI < dphi_e_ee ∧ dphi_e_ee ≤ ext.M_PI ∧
      0 ≤ |dphi| ∧ |dphi| ≤ ext.M_PI ∧ 0 ≤ |dphi_e_ee| ∧ |dphi_e_ee| ≤ ext.M_PI) := by
  have hr := fun x => bringToPMPi_range ext.M_PI x hpi
  have ha := fun x => abs_bringToPMPi_le ext.M_PI x hpi
  refine ⟨fun x => ⟨(hr x).1, (hr x).2, abs_nonneg _, ha x, ⟨⌈(x - ext.M_PI) / (2 * ext.M_PI)⌉, rfl⟩,
    bringToPMPi_fixed ext.M_PI x hpi⟩, ?_, ?_⟩
  · refine ⟨_, _, rfl, rfl, rfl, rfl, ?_⟩
    rw [hwrap, hwrap]
    exact ⟨(hr _).1, (hr _).2, (hr _).1, (hr _).2, abs_nonneg _, ha _, abs_nonneg _, ha _⟩
  · refine ⟨_, _, rfl, rfl, rfl, rfl, ?_⟩
    rw [hwrap, hwrap]
    exact ⟨(hr _).1, (hr _).2, (hr _).1, (hr _).2, abs_nonneg _, ha _, abs_nonneg _, ha _⟩

/-- Witness of C21: with π taken as 355/113, the angle difference 4 - 0 of two tracks is
wrapped to 4 - 710/113 = -258/113, and 258/113 is filled. -/
theorem azimuthal_wrap_range_witness :
    bringToPMPi (355 / 113) 4 = -258 / 113 ∧
    (pairHs wrapExt (init wrapExt) (azimuthTrack 1 4) (azimuthTrack 1 0))[2]? =
      some (258 / 113) ∧
    -wrapExt.M_PI < bringToPMPi wrapExt.M_PI 4 ∧ bringToPMPi wrapExt.M_PI 4 ≤ wrapExt.M_PI := by
  have h := azimuthal_wrap_range wrapExt (init wrapExt) (azimuthTrack 1 4) (azimuthTrack 1 0)
    (sampleParticle (-11) [] []) (sampleParticle 11 [] [])
    (by norm_num [wrapExt, sampleExt]) (fun _ => rfl)
  have h4 : bringToPMPi (355 / 113) 4 = -258 / 113 := by
    unfold bringToPMPi
    have hc : ⌈((4 : ℚ) - 355 / 113) / (2 * (355 / 113))⌉ = 1 := by
      rw [Int.ceil_eq_iff]
      norm_num
    rw [hc]
    norm_num
  refine ⟨h4, ?_, (h.1 4).1, (h.1 4).2.1⟩
  show some |bringToPMPi (355 / 113) (4 - 0)| = some (258 / 113)
  rw [sub_zero, h4]
  norm_num [abs_of_neg]

/-- C22. Acoplanarity range: the sixth entry of the tuple that `fillTruePairInfo` and
`processGen` fill is `aco = 1 - |dphi| / π` for the wrapped `dphi`; for a positive π and
`|dphi|` in `[0, π]` it lies in `[0, 1]`, is 1 exactly when `dphi = 0` and is 0 exactly
when `|dphi| = π`. -/
theorem acoplanarity_range (ext : Ext) (s : Task) (t1 t2 : Track) (p1 p2 : MCParticle)
    (dphi dphigen : ℚ) (hpi : 0 < ext.M_PI)
    (hdphi : dphi = ext.bringToPMPi
      ((ext.makeVector t1.pt t1.eta t1.phi ext.MassElectron).Phi -
        (ext.makeVector t2.pt t2.eta t2.phi ext.MassElectron).Phi))
    (hdphigen : dphigen = ext.bringToPMPi
      ((ext.makeVector p1.pt p1.eta p1.phi ext.MassElectron).Phi -
        (ext.makeVector p2.pt p2.eta p2.phi ext.MassElectron).Phi))
    (hrange : |dphi| ≤ ext.M_PI) (hrangegen : |dphigen| ≤ ext.M_PI) :
    ((pairHs ext s t1 t2)[5]? = some (1 - |dphi| / ext.M_PI) ∧
      0 ≤ 1 - |dphi| / ext.M_PI ∧ 1 - |dphi| / ext.M_PI ≤ 1 ∧
      (1 - |dphi| / ext.M_PI = 1 ↔ dphi = 0) ∧
      (1 - |dphi| / ext.M_PI = 0 ↔ |dphi| = ext.M_PI)) ∧
    ((genHs ext s p1 p2)[5]? = some (1 - |dphigen| / ext.M_PI) ∧
      0 ≤ 1 - |dphigen| / ext.M_PI ∧ 1 - |dphigen| / ext.M_PI ≤ 1 ∧
      (1 - |dphigen| / ext.M_PI = 1 ↔ dphigen = 0) ∧
      (1 - |dphigen| / ext.M_PI = 0 ↔ |dphigen| = ext.M_PI)) := by
  have key : ∀ d : ℚ, |d| ≤ ext.M_PI →
      0 ≤ 1 - |d| / ext.M_PI ∧ 1 - |d| / ext.M_PI ≤ 1 ∧
      (1 - |d| / ext.M_PI = 1 ↔ d = 0) ∧ (1 - |d| / ext.M_PI = 0 ↔ |d| = ext.M_PI) := by
    intro d hd
    have h0 : 0 ≤ |d| / ext.M_PI := div_nonneg (abs_nonneg d) (le_of_lt hpi)
    have h1 : |d| / ext.M_PI ≤ 1 := by
      rw [div_le_one hpi]
      exact hd
    refine ⟨by linarith, by linarith, ?_, ?_⟩
    · constructor
      · intro h
        have hz : |d| / ext.M_PI = 0 := by linarith
        rw [div_eq_zero_iff] at hz
        rcases hz with hz | hz
        · exact abs_eq_zero.mp hz
        · exact absurd hz (ne_of_gt hpi)
      · intro h
        rw [h, abs_zero, zero_div, sub_zero]
    · constructor
      · intro h
        have hz : |d| / ext.M_PI = 1 := by linarith
        rw [div_eq_one_iff_eq (ne_of_gt hpi)] at hz
        exact hz
      · intro h
        rw [h, div_self (ne_of_gt hpi), sub_self]
  refine ⟨⟨?_, key dphi hrange⟩, ⟨?_, key dphigen hrangegen⟩⟩
  · rw [hdphi]
    rfl
  · rw [hdphigen]
    rfl

/-- Witness of C22: with the sample collaborators (π taken as 355/113, the wrap the
identity) two tracks at azimuth 355/113 and 0 have `|dphi| = π` and acoplanarity 0. -/
theorem acoplanarity_range_witness :
    (pairHs sampleExt (init sampleExt) (azimuthTrack 1 (355 / 113)) (azimuthTrack 1 0))[5]? =
      some (1 - |(355 / 113 : ℚ)| / sampleExt.M_PI) ∧
    1 - |(355 / 113 : ℚ)| / sampleExt.M_PI = 0 := by
  have h := acoplanarity_range sampleExt (init sampleExt) (azimuthTrack 1 (355 / 113))
    (azimuthTrack 1 0) (sampleParticle (-11) [] []) (sampleParticle 11 [] []) (355 / 113) 0
    (by norm_num [sampleExt])
    (by norm_num [sampleExt, azimuthTrack, kinematicTrack, sampleTrack])
    (by norm_num [sampleExt, sampleParticle])
    (by norm_num [sampleExt, abs_of_pos]) (by norm_num [sampleExt])
  exact ⟨h.1.1, h.1.2.2.2.2.mpr (by norm_num [sampleExt, abs_of_pos])⟩

theorem pairHs_asym (ext : Ext) (s : Task) (t1 t2 : Track) :
    (pairHs ext s t1 t2)[6]? =
      some (|(ext.makeVector t1.pt t1.eta t1.phi ext.MassElectron).Pt -
          (ext.makeVector t2.pt t2.eta t2.phi ext.MassElectron).Pt| /
        ((ext.makeVector t1.pt t1.eta t1.phi ext.MassElectron).Pt +
          (ext.makeVector t2.pt t2.eta t2.phi ext.MassElectron).Pt)) := rfl

theorem genHs_asym (ext : Ext) (s : Task) (p1 p2 : MCParticle) :
    (genHs ext s p1 p2)[6]? =
      some (|(ext.makeVector p1.pt p1.eta p1.phi ext.MassElectron).Pt -
          (ext.makeVector p2.pt p2.eta p2.phi ext.MassElectron).Pt| /
        ((ext.makeVector p1.pt p1.eta p1.phi ext.MassElectron).Pt +
          (ext.makeVector p2.pt p2.eta p2.phi ext.MassElectron).Pt)) := rfl

/-- C23. The pT asymmetry: the seventh entry of the tuple that `fillTruePairInfo` and
`processGen` fill is `|pT1 - pT2| / (pT1 + pT2)` for the transverse momenta of the two leg
vectors, and it is the same when the legs are exchanged; for non-negative `pT1`, `pT2` not
both zero the denominator is non-zero and the value lies in `[0, 1]` and is 0 exactly when
`pT1 = pT2`; for non-negative `pT1`, `pT2` the denominator is zero only when both are. -/
theorem pt_asymmetry (ext : Ext) (s : Task) (t1 t2 : Track) (p1 p2 : MCParticle)
    (pT1 pT2 : ℚ)
    (h1 : pT1 = (ext.makeVector t1.pt t1.eta t1.phi ext.MassElectron).Pt)
    (h2 : pT2 = (ext.makeVector t2.pt t2.eta t2.phi ext.MassElectron).Pt)
    (hn1 : 0 ≤ pT1) (hn2 : 0 ≤ pT2) :
    (pairHs ext s t1 t2)[6]? = some (|pT1 - pT2| / (pT1 + pT2)) ∧
    (genHs ext s p1 p2)[6]? =
      some (|(ext.makeVector p1.pt p1.eta p1.phi ext.MassElectron).Pt -
          (ext.makeVector p2.pt p2.eta p2.phi ext.MassElectron).Pt| /
        ((ext.makeVector p1.pt p1.eta p1.phi ext.MassElectron).Pt +
          (ext.makeVector p2.pt p2.eta p2.phi ext.MassElectron).Pt)) ∧
    (pairHs ext s t1 t2)[6]? = (pairHs ext s t2 t1)[6]? ∧
    (genHs ext s p1 p2)[6]? = (genHs ext s p2 p1)[6]? ∧
    |pT1 - pT2| / (pT1 + pT2) = |pT2 - pT1| / (pT2 + pT1) ∧
    (pT1 + pT2 = 0 ↔ pT1 = 0 ∧ pT2 = 0) ∧
    (¬ (pT1 = 0 ∧ pT2 = 0) →
      pT1 + pT2 ≠ 0 ∧ 0 ≤ |pT1 - pT2| / (pT1 + pT2) ∧ |pT1 - pT2| / (pT1 + pT2) ≤ 1 ∧
      (|pT1 - pT2| / (pT1 + pT2) = 0 ↔ pT1 = pT2)) := by
  have hzero : pT1 + pT2 = 0 ↔ pT1 = 0 ∧ pT2 = 0 := by
    constructor
    · intro h
      exact ⟨by linarith, by linarith⟩
    · rintro ⟨ha, hb⟩
      rw [ha, hb, add_zero]
  have hsym : ∀ a b : ℚ, |a - b| / (a + b) = |b - a| / (b + a) := by
    intro a b
    rw [abs_sub_comm, add_comm]
  refine ⟨by rw [h1, h2]; rfl, rfl, ?_, ?_, hsym _ _, hzero, ?_⟩
  · rw [pairHs_asym, pairHs_asym, hsym]
  · rw [genHs_asym, genHs_asym, hsym]
  · intro hnot
    have hpos : 0 < pT1 + pT2 := by
      rcases lt_or_eq_of_le (add_nonneg hn1 hn2) with h | h
      · exact h
      · exact absurd (hzero.mp h.symm) hnot
    refine ⟨ne_of_gt hpos, div_nonneg (abs_nonneg _) (le_of_lt hpos), ?_, ?_⟩
    · rw [div_le_one hpos, abs_le]
      constructor <;> linarith
    · rw [div_eq_zero_iff]
      constructor
      · rintro (h | h)
        · exact sub_eq_zero.mp (abs_eq_zero.mp h)
        · exact absurd h (ne_of_gt hpos)
      · intro h
        left
        rw [h, sub_self, abs_zero]

/-- Witness of C23: two tracks at pT 1 and 3 have asymmetry 1/2. -/
theorem pt_asymmetry_witness :
    (pairHs sampleExt (init sampleExt) (azimuthTrack 1 0) (azimuthTrack 3 0))[6]? =
      some (|(1 : ℚ) - 3| / (1 + 3)) ∧
    |(1 : ℚ) - 3| / (1 + 3) ≤ 1 ∧ ((1 : ℚ) + 3 = 0 ↔ (1 : ℚ) = 0 ∧ (3 : ℚ) = 0) := by
  have h := pt_asymmetry sampleExt (init sampleExt) (azimuthTrack 1 0) (azimuthTrack 3 0)
    (sampleParticle (-11) [] []) (sampleParticle 11 [] []) 1 3 rfl rfl
    (by norm_num) (by norm_num)
  exact ⟨h.1, (h.2.2.2.2.2.2 (by norm_num)).2.2.1, h.2.2.2.2.2.1⟩

/-- C24. The pair DCA is the quadratic mean: the ninth entry of the tuple that
`fillTruePairInfo` fills is the square root of `(d1^2 + d2^2) / 2` for the 3D DCA
significances `d1`, `d2` of the two legs, the same when the legs are exchanged; for
non-negative `d1`, `d2` the real square root of that mean lies between `min d1 d2` and
`max d1 d2` and equals `d` when `d1 = d2 = d`, and so does the value the library's root
returns whenever it is the exact non-negative root. -/
theorem pair_dca_quadratic_mean (ext : Ext) (s : Task) (t1 t2 : Track) (d1 d2 : ℚ)
    (h1 : d1 = ext.dca3DinSigma t1) (h2 : d2 = ext.dca3DinSigma t2)
    (hn1 : 0 ≤ d1) (hn2 : 0 ≤ d2) :
    (pairHs ext s t1 t2)[8]? = some (ext.sqrt ((d1 * d1 + d2 * d2) / 2)) ∧
    (pairHs ext s t1 t2)[8]? = (pairHs ext s t2 t1)[8]? ∧
    ((min d1 d2 : ℚ) : ℝ) ≤ Real.sqrt (((d1 * d1 + d2 * d2) / 2 : ℚ) : ℝ) ∧
    Real.sqrt (((d1 * d1 + d2 * d2) / 2 : ℚ) : ℝ) ≤ ((max d1 d2 : ℚ) : ℝ) ∧
    (d1 = d2 → Real.sqrt (((d1 * d1 + d2 * d2) / 2 : ℚ) : ℝ) = (d1 : ℝ)) ∧
    (∀ r : ℚ, r = ext.sqrt ((d1 * d1 + d2 * d2) / 2) → 0 ≤ r →
      r * r = (d1 * d1 + d2 * d2) / 2 →
      min d1 d2 ≤ r ∧ r ≤ max d1 d2 ∧ (d1 = d2 → r = d1)) := by
  have hsq : ∀ a b : ℚ, 0 ≤ a → a ≤ b → a * a ≤ b * b := fun a b ha hab =>
    mul_le_mul hab hab ha (le_trans ha hab)
  have hmin0 : 0 ≤ min d1 d2 := le_min hn1 hn2
  have hmax0 : 0 ≤ max d1 d2 := le_trans hn1 (le_max_left _ _)
  have hlo : min d1 d2 * min d1 d2 ≤ (d1 * d1 + d2 * d2) / 2 := by
    have a := hsq _ _ hmin0 (min_le_left d1 d2)
    have b := hsq _ _ hmin0 (min_le_right d1 d2)
    linarith
  have hhi : (d1 * d1 + d2 * d2) / 2 ≤ max d1 d2 * max d1 d2 := by
    have a := hsq _ _ hn1 (le_max_left d1 d2)
    have b := hsq _ _ hn2 (le_max_right d1 d2)
    linarith
  refine ⟨by rw [h1, h2]; rfl, ?_, ?_, ?_, ?_, ?_⟩
  · show some (ext.sqrt (_ / 2)) = some (ext.sqrt (_ / 2))
    rw [add_comm]
  · apply Real.le_sqrt_of_sq_le
    rw [sq]
    exact_mod_cast hlo
  · rw [Real.sqrt_le_left (by exact_mod_cast hmax0)]
    rw [sq]
    exact_mod_cast hhi
  · intro h
    rw [← h]
    have : ((d1 * d1 + d1 * d1) / 2 : ℚ) = d1 * d1 := by ring
    rw [this]
    push_cast
    exact Real.sqrt_mul_self (by exact_mod_cast hn1)
  · intro r _ hr0 hrr
    refine ⟨?_, ?_, ?_⟩
    · by_contra hc
      push_neg at hc
      have := mul_lt_mul'' hc hc hr0 hr0
      linarith
    · by_contra hc
      push_neg at hc
      have := mul_lt_mul'' hc hc hmax0 hmax0
      linarith
    · intro h
      rw [← h] at hrr
      have hd : r * r = d1 * d1 := by linarith
      have := abs_eq_abs.mpr ((mul_self_eq_mul_self_iff).mp hd)
      rwa [abs_of_nonneg hr0, abs_of_nonneg hn1] at this

/-- Witness of C24: with the sample collaborators both legs have significance 1 and the
pair value is 1. -/
theorem pair_dca_quadratic_mean_witness :
    (pairHs sampleExt (init sampleExt) (azimuthTrack 1 0) (azimuthTrack 3 0))[8]? =
      some (sampleExt.sqrt (((1 : ℚ) * 1 + 1 * 1) / 2)) ∧
    Real.sqrt ((((1 : ℚ) * 1 + 1 * 1) / 2 : ℚ) : ℝ) = ((1 : ℚ) : ℝ) := by
  have h := pair_dca_quadratic_mean sampleExt (init sampleExt) (azimuthTrack 1 0)
    (azimuthTrack 3 0) 1 1 rfl rfl (by norm_num) (by norm_num)
  exact ⟨h.1, h.2.2.2.2.1 rfl⟩

/-! ## The mass of the end-to-end scenario -/

theorem pairMass_scenario_sq (m : ℝ) :
    0 ≤ 4 * m ^ 2 + 2 * (1 - Real.cos (1 / 10)) ∧
    pairMass ⟨Real.cos, Real.sin, Real.cosh, Real.sinh, Real.sqrt⟩ 1 (3 / 10) 0 1 (3 / 10)
        (1 / 10) m =
      Real.sqrt (4 * m ^ 2 + 2 * (1 - Real.cos (1 / 10))) := by
  have hc1 : Real.cos (1 / 10) ≤ 1 := Real.cos_le_one _
  have hnn : 0 ≤ 4 * m ^ 2 + 2 * (1 - Real.cos (1 / 10)) := by nlinarith [sq_nonneg m]
  refine ⟨hnn, ?_⟩
  unfold pairMass invariantMass vectorSum legVector
  dsimp only
  congr 1
  have hE : 0 ≤ 1 * 1 * (Real.cosh (3 / 10) * Real.cosh (3 / 10)) + m * m := by
    nlinarith [mul_self_nonneg (Real.cosh (3 / 10)), mul_self_nonneg m]
  have hs := Real.mul_self_sqrt hE
  have hcs := Real.cos_sq_add_sin_sq (1 / 10)
  have hch := Real.cosh_sq (3 / 10)
  rw [Real.cos_zero, Real.sin_zero]
  nlinarith [hs, hcs, hch]

theorem pairMass_scenario_bounds (m : ℝ) (hm0 : 0 ≤ m) (hm1 : m ≤ 1 / 1000) :
    999 / 10000 <
      pairMass ⟨Real.cos, Real.sin, Real.cosh, Real.sinh, Real.sqrt⟩ 1 (3 / 10) 0 1 (3 / 10)
        (1 / 10) m ∧
    pairMass ⟨Real.cos, Real.sin, Real.cosh, Real.sinh, Real.sqrt⟩ 1 (3 / 10) 0 1 (3 / 10)
        (1 / 10) m < 1001 / 10000 := by
  rw [(pairMass_scenario_sq m).2]
  have hb := Real.cos_bound (show |(1 / 10 : ℝ)| ≤ 1 by rw [abs_le]; constructor <;> norm_num)
  rw [abs_le] at hb
  have habs : |(1 / 10 : ℝ)| = 1 / 10 := abs_of_pos (by norm_num)
  rw [habs] at hb
  have hm2 : m ^ 2 ≤ 1 / 1000000 := by nlinarith
  constructor
  · rw [Real.lt_sqrt (by norm_num)]
    nlinarith [hb.1, hb.2, sq_nonneg m]
  · rw [Real.sqrt_lt' (by norm_num)]
    nlinarith [hb.1, hb.2, sq_nonneg m]

/-- Counterexample to C25: with the 4-vector arithmetic modelled over the reals and the
electron mass 0.000511, the invariant mass of the sum of the two legs pt = 1, eta = 0.3,
phi = 0 and 0.1 is below 0.1001, so it is not within 0.1 of 3.097. -/
theorem end_to_end_mass_counterexample :
    ¬ |pairMass ⟨Real.cos, Real.sin, Real.cosh, Real.sinh, Real.sqrt⟩ 1 (3 / 10) 0 1 (3 / 10)
        (1 / 10) (511 / 1000000) - 3097 / 1000| ≤ 1 / 10 := by
  have h := pairMass_scenario_bounds (511 / 1000000) (by norm_num) (by norm_num)
  intro hc
  rw [abs_le] at hc
  linarith [h.2, hc.1]

/-- C25, amended. End-to-end mass value: for the two tracks with pt = 1.0, eta = 0.3 and
phi = 0 and 0.1, each taken with a lepton mass `m` between 0 and 0.001 (the electron mass
is 0.000511), the invariant mass of the 4-vector sum, modelled over the reals, is
`sqrt(4 m^2 + 2 (1 - cos 0.1))`, between 0.0999 and 0.1001 GeV, whatever the truth mother
of the pair. -/
theorem end_to_end_mass_value (m : ℝ) (hm0 : 0 ≤ m) (hm1 : m ≤ 1 / 1000) :
    pairMass ⟨Real.cos, Real.sin, Real.cosh, Real.sinh, Real.sqrt⟩ 1 (3 / 10) 0 1 (3 / 10)
        (1 / 10) m =
      Real.sqrt (4 * m ^ 2 + 2 * (1 - Real.cos (1 / 10))) ∧
    999 / 10000 <
      pairMass ⟨Real.cos, Real.sin, Real.cosh, Real.sinh, Real.sqrt⟩ 1 (3 / 10) 0 1 (3 / 10)
        (1 / 10) m ∧
    pairMass ⟨Real.cos, Real.sin, Real.cosh, Real.sinh, Real.sqrt⟩ 1 (3 / 10) 0 1 (3 / 10)
        (1 / 10) m < 1001 / 10000 :=
  ⟨(pairMass_scenario_sq m).2, (pairMass_scenario_bounds m hm0 hm1).1,
    (pairMass_scenario_bounds m hm0 hm1).2⟩

/-- Witness of the amended C25 at the electron mass 0.000511. -/
theorem end_to_end_mass_value_witness :
    (0 : ℝ) ≤ 511 / 1000000 ∧ (511 / 1000000 : ℝ) ≤ 1 / 1000 ∧
    999 / 10000 <
      pairMass ⟨Real.cos, Real.sin, Real.cosh, Real.sinh, Real.sqrt⟩ 1 (3 / 10) 0 1 (3 / 10)
        (1 / 10) (511 / 1000000 : ℝ) ∧
    pairMass ⟨Real.cos, Real.sin, Real.cosh, Real.sinh, Real.sqrt⟩ 1 (3 / 10) 0 1 (3 / 10)
        (1 / 10) (511 / 1000000 : ℝ) < 1001 / 10000 :=
  ⟨by norm_num, by norm_num,
    (end_to_end_mass_value (511 / 1000000) (by norm_num) (by norm_num)).2.1,
    (end_to_end_mass_value (511 / 1000000) (by norm_num) (by norm_num)).2.2⟩

/-! ## Track sources of the mixed beauty categories -/

/-- C26, failing input. In `sameBTable` the positron (track 0) comes from the B0 itself and
the electron (track 1) from the D- of that B0; the pair is classified `kBCe_Be_SameB`.
`fillTruePairInfo` fills the positron, whose first mother is a beauty hadron, with source 8
(`Track/b2c2e/`) and the electron, whose first mother is a charm hadron, with source 7
(`Track/b2e/`); with the legs exchanged the sources are exchanged as well, while the cases
`kBe_Be` and `kBCe_BCe` use source 7 for legs with a beauty mother and source 8 for legs
with a charm mother. -/
theorem mixed_beauty_track_sources_swapped :
    hfExt.IsHF (sampleParticle (-11) [0] []) (sampleParticle 11 [1] []) sameBTable =
      hfExt.kBCe_Be_SameB ∧
    (firstMother (sampleParticle (-11) [0] [])).bind (iteratorAt sameBTable) =
      some (sampleParticle 511 [] [1, 2]) ∧
    hfExt.isBeautyMeson (sampleParticle 511 [] [1, 2]) = true ∧
    (firstMother (sampleParticle 11 [1] [])).bind (iteratorAt sameBTable) =
      some (sampleParticle (-411) [0] [3]) ∧
    hfExt.isCharmMeson (sampleParticle (-411) [0] [3]) = true ∧
    ele_source_types.getD 7 "" = "b2e/" ∧ ele_source_types.getD 8 "" = "b2c2e/" ∧
    fillTruePairInfo hfExt defaultConfig (init hfExt) (sampleCollision 1)
        (sampleTrack 0 1 (sampleParticle (-11) [0] []))
        (sampleTrack 1 (-1) (sampleParticle 11 [1] [])) sameBTable =
      some (true,
        fillTrackInfo hfExt 7
          (fillTrackInfo hfExt 8
            (fill
              (fill (init hfExt) "Pair/bbbar/b2c2e_b2e_sameb/hadron_hadron/hs"
                (pairHs hfExt (init hfExt) (sampleTrack 0 1 (sampleParticle (-11) [0] []))
                  (sampleTrack 1 (-1) (sampleParticle 11 [1] []))))
              "Pair/bbbar/b2c2e_b2e_sameb/meson_meson/hs"
              (pairHs hfExt (init hfExt) (sampleTrack 0 1 (sampleParticle (-11) [0] []))
                (sampleTrack 1 (-1) (sampleParticle 11 [1] []))))
            (sampleTrack 0 1 (sampleParticle (-11) [0] [])))
          (sampleTrack 1 (-1) (sampleParticle 11 [1] []))) ∧
    fillTruePairInfo hfExt defaultConfig (init hfExt) (sampleCollision 1)
        (sampleTrack 1 (-1) (sampleParticle 11 [1] []))
        (sampleTrack 0 1 (sampleParticle (-11) [0] [])) sameBTable =
      some (true,
        fillTrackInfo hfExt 8
          (fillTrackInfo hfExt 7
            (fill
              (fill (init hfExt) "Pair/bbbar/b2c2e_b2e_sameb/hadron_hadron/hs"
                (pairHs hfExt (init hfExt) (sampleTrack 1 (-1) (sampleParticle 11 [1] []))
                  (sampleTrack 0 1 (sampleParticle (-11) [0] []))))
              "Pair/bbbar/b2c2e_b2e_sameb/meson_meson/hs"
              (pairHs hfExt (init hfExt) (sampleTrack 1 (-1) (sampleParticle 11 [1] []))
                (sampleTrack 0 1 (sampleParticle (-11) [0] []))))
            (sampleTrack 1 (-1) (sampleParticle 11 [1] [])))
          (sampleTrack 0 1 (sampleParticle (-11) [0] []))) := by
  have hy : ∀ a b : Track, a.eta = 0 → b.eta = 0 →
      ¬ |hfExt.Rapidity (hfExt.vsum (hfExt.makeVector a.pt a.eta a.phi hfExt.MassElectron)
        (hfExt.makeVector b.pt b.eta b.phi hfExt.MassElectron))| > defaultConfig.maxY := by
    intro a b ha hb
    simp only [hfExt, sampleExt, defaultConfig, ha, hb]
    norm_num
  refine ⟨by decide, rfl, by decide, rfl, by decide, rfl, rfl, ?_, ?_⟩
  · rw [fillTruePairInfo_after_gates hfExt defaultConfig (init hfExt) (sampleCollision 1) _ _
      sameBTable (by decide) rfl (by decide) (by decide) (by decide), if_neg (hy _ _ rfl rfl),
      fillTruePairInfo_classify_hf hfExt (init hfExt)
        (sampleTrack 0 1 (sampleParticle (-11) [0] []))
        (sampleTrack 1 (-1) (sampleParticle 11 [1] [])) sameBTable
        (sampleParticle 511 [] [1, 2]) (sampleParticle (-411) [0] [3]) (by decide) (by decide)
        (by decide) rfl rfl]
    unfold fillTruePairInfo_hf
    dsimp only
    rw [if_pos (by decide), if_neg (by decide), if_neg (by decide), if_neg (by decide),
      if_pos (by decide), if_neg (by decide), if_pos (by decide)]
  · rw [fillTruePairInfo_after_gates hfExt defaultConfig (init hfExt) (sampleCollision 1) _ _
      sameBTable (by decide) rfl (by decide) (by decide) (by decide), if_neg (hy _ _ rfl rfl),
      fillTruePairInfo_classify_hf hfExt (init hfExt)
        (sampleTrack 1 (-1) (sampleParticle 11 [1] []))
        (sampleTrack 0 1 (sampleParticle (-11) [0] [])) sameBTable
        (sampleParticle (-411) [0] [3]) (sampleParticle 511 [] [1, 2]) (by decide) (by decide)
        (by decide) rfl rfl]
    unfold fillTruePairInfo_hf
    dsimp only
    rw [if_pos (by decide), if_neg (by decide), if_neg (by decide), if_neg (by decide),
      if_pos (by decide), if_pos (by decide), if_pos (by decide)]

/-! ## The maximum of the searches and the resonances without a bucket -/

/-- C27. `FindLF` is the maximum of the thirteen searches: the value returned is one of the
thirteen search results and none of them exceeds it; it is negative if and only if all
thirteen results are negative; and when the search for one code of the allow-list returns
a non-negative index while the searches for the other codes return -1, `FindLF` returns
that index. -/
theorem FindLF_is_maximum_of_searches (posmc elemc : MCParticle)
    (mcparticles : List MCParticle) :
    (allowList.map (search posmc elemc mcparticles)).length = 13 ∧
    FindLF posmc elemc mcparticles ∈ allowList.map (search posmc elemc mcparticles) ∧
    (∀ r ∈ allowList.map (search posmc elemc mcparticles),
      r ≤ FindLF posmc elemc mcparticles) ∧
    (FindLF posmc elemc mcparticles < 0 ↔
      ∀ r ∈ allowList.map (search posmc elemc mcparticles), r < 0) ∧
    (∀ code ∈ allowList, 0 ≤ search posmc elemc mcparticles code →
      (∀ other ∈ allowList, other ≠ code → search posmc elemc mcparticles other = -1) →
      FindLF posmc elemc mcparticles = search posmc elemc mcparticles code) := by
  have hmem := FindLF_mem_results posmc elemc mcparticles
  have hle := results_le_FindLF posmc elemc mcparticles
  refine ⟨rfl, hmem, hle, ⟨fun h r hr => lt_of_le_of_lt (hle r hr) h, fun h => h _ hmem⟩, ?_⟩
  intro code hcode hpos hothers
  obtain ⟨c, hc, heq⟩ := List.mem_map.mp hmem
  by_cases hcc : c = code
  · rw [← heq, hcc]
  · have h1 : search posmc elemc mcparticles c = -1 := hothers c hc hcc
    have h2 := hle _ (List.mem_map_of_mem (search posmc elemc mcparticles) hcode)
    rw [← heq, h1] at h2
    omega

/-- Witness of C27: for the electrons of the J/psi of `nonPromptJPsiTable` only the search
for 443 matches (row 2), and `FindLF` returns 2. -/
theorem FindLF_is_maximum_of_searches_witness :
    search (sampleParticle (-11) [2] []) (sampleParticle 11 [2] []) nonPromptJPsiTable 443 = 2 ∧
    FindLF (sampleParticle (-11) [2] []) (sampleParticle 11 [2] []) nonPromptJPsiTable =
      search (sampleParticle (-11) [2] []) (sampleParticle 11 [2] []) nonPromptJPsiTable 443 :=
  ⟨by decide,
    (FindLF_is_maximum_of_searches (sampleParticle (-11) [2] []) (sampleParticle 11 [2] [])
      nonPromptJPsiTable).2.2.2.2 443 (by decide) (by decide) (by decide)⟩

theorem fillTruePairInfo_sm_no_bucket (ext : Ext) (s : Task) (t1 t2 : Track)
    (mcparticles : List MCParticle) (mcmother : MCParticle)
    (h : mcmother.pdgCode.natAbs ∈ [553, 100553, 200553, 300553] ∨
      (mcmother.pdgCode.natAbs = 22 ∧ isPrimary t1.emmcparticle = true ∧
        isPrimary t2.emmcparticle = true) ∨
      isPrimary mcmother = false ∨
      isPrimary t1.emmcparticle ≠ isPrimary t2.emmcparticle) :
    fillTruePairInfo_sm ext s t1 t2 mcparticles mcmother = s := by
  unfold fillTruePairInfo_sm
  generalize pairHs ext s t1 t2 = hs
  generalize pairMvsPhiV ext s t1 t2 = mphiv
  dsimp only
  by_cases hm : isPrimary mcmother = true
  swap
  · rw [if_neg hm]
  rw [if_pos hm]
  have hcodes : (mcmother.pdgCode.natAbs ∈ [553, 100553, 200553, 300553] ∨
      mcmother.pdgCode.natAbs = 22) →
      mcmother.pdgCode.natAbs ≠ 111 ∧ mcmother.pdgCode.natAbs ≠ 221 ∧
      mcmother.pdgCode.natAbs ≠ 331 ∧ mcmother.pdgCode.natAbs ≠ 113 ∧
      mcmother.pdgCode.natAbs ≠ 223 ∧ mcmother.pdgCode.natAbs ≠ 333 ∧
      mcmother.pdgCode.natAbs ≠ 443 ∧ mcmother.pdgCode.natAbs ≠ 100443 := by
    intro hc
    simp only [List.mem_cons, List.mem_singleton, List.not_mem_nil, or_false] at hc
    omega
  cases h1 : isPrimary t1.emmcparticle <;> cases h2 : isPrimary t2.emmcparticle
  · -- both legs secondary: only a photon mother has a bucket
    rw [if_neg (by simp), if_pos (by simp)]
    rcases h with h | h | h | h
    · have : mcmother.pdgCode.natAbs ≠ 22 := by
        simp only [List.mem_cons, List.mem_singleton, List.not_mem_nil, or_false] at h
        omega
      rw [if_neg this]
    · rw [h1] at h
      exact absurd h.2.1 (by decide)
    · rw [hm] at h
      exact absurd h (by decide)
    · rw [h1, h2] at h
      exact absurd rfl h
  · rw [if_neg (by simp), if_neg (by simp)]
  · rw [if_neg (by simp), if_neg (by simp)]
  · rw [if_pos (by simp)]
    have hc : mcmother.pdgCode.natAbs ∈ [553, 100553, 200553, 300553] ∨
        mcmother.pdgCode.natAbs = 22 := by
      rcases h with h | h | h | h
      · exact Or.inl h
      · exact Or.inr h.1
      · rw [hm] at h
        exact absurd h (by decide)
      · rw [h1, h2] at h
        exact absurd rfl h
    obtain ⟨c1, c2, c3, c4, c5, c6, c7, c8⟩ := hcodes hc
    rw [if_neg c1, if_neg c2, if_neg c3, if_neg c4, if_neg c5, if_neg c6, if_neg c7, if_neg c8]

/-- C28. A matched resonance without a bucket: for a pair that passes the cuts, the
electron and same-event tests and the rapidity bound, whose truth legs are unlike-sign and
for which `FindLF` returns the row of `mcmother`, `fillTruePairInfo` returns true and
leaves the task as it was (nothing is filled, whatever `IsHF` returns) when the mother's
`|PDG|` is 553, 100553, 200553 or 300553, or is 22 while both legs are primary, or the
mother is neither physical-primary nor generator-produced, or exactly one of the two legs
is primary. -/
theorem matched_resonance_without_bucket (ext : Ext) (cfg : Config) (s : Task)
    (collision : Collision) (t1 t2 : Track) (mcparticles : List MCParticle)
    (mcmother : MCParticle)
    (hcut : trackCutFails ext cfg collision t1 t2 = false)
    (hpair : ext.IsSelectedPair t1 t2 s.d_bz = true)
    (hpdg : t1.emmcparticle.pdgCode.natAbs = 11 ∧ t2.emmcparticle.pdgCode.natAbs = 11)
    (hev : t1.emmcparticle.emmceventId = t2.emmcparticle.emmceventId)
    (hy : ¬ |ext.Rapidity (ext.vsum (ext.makeVector t1.pt t1.eta t1.phi ext.MassElectron)
          (ext.makeVector t2.pt t2.eta t2.phi ext.MassElectron))| > cfg.maxY)
    (hlf : 0 ≤ FindLF t1.emmcparticle t2.emmcparticle mcparticles)
    (huls : t1.emmcparticle.pdgCode * t2.emmcparticle.pdgCode < 0)
    (hmother : iteratorAt mcparticles
        (FindLF t1.emmcparticle t2.emmcparticle mcparticles) = some mcmother)
    (hcase : mcmother.pdgCode.natAbs ∈ [553, 100553, 200553, 300553] ∨
      (mcmother.pdgCode.natAbs = 22 ∧ isPrimary t1.emmcparticle = true ∧
        isPrimary t2.emmcparticle = true) ∨
      isPrimary mcmother = false ∨
      isPrimary t1.emmcparticle ≠ isPrimary t2.emmcparticle) :
    fillTruePairInfo ext cfg s collision t1 t2 mcparticles = some (true, s) := by
  rw [fillTruePairInfo_after_gates ext cfg s collision t1 t2 mcparticles hcut hpair hpdg hev
    (fun h => absurd h.1 (by omega)), if_neg hy]
  unfold fillTruePairInfo_classify
  dsimp only
  rw [if_pos ⟨by omega, huls⟩, hmother]
  dsimp only
  rw [fillTruePairInfo_sm_no_bucket ext s t1 t2 mcparticles mcmother hcase]

/-- Witness of C28: the electrons of the two B mesons of an Upsilon(4S) have the Upsilon
(code 300553, row 0) as matched resonance and a heavy-flavour category as well; the call
returns true and fills nothing. -/
theorem matched_resonance_without_bucket_witness :
    sampleExt.IsHF (sampleParticle (-11) [1] []) (sampleParticle 11 [2] []) upsilonTable =
      sampleExt.kBe_Be ∧
    fillTruePairInfo sampleExt defaultConfig (init sampleExt) (sampleCollision 1)
        (sampleTrack 0 1 (sampleParticle (-11) [1] []))
        (sampleTrack 1 (-1) (sampleParticle 11 [2] [])) upsilonTable =
      some (true, init sampleExt) :=
  ⟨by decide,
    matched_resonance_without_bucket sampleExt defaultConfig (init sampleExt)
      (sampleCollision 1) (sampleTrack 0 1 (sampleParticle (-11) [1] []))
      (sampleTrack 1 (-1) (sampleParticle 11 [2] [])) upsilonTable
      (sampleParticle 300553 [] [1, 2])
      (by decide) (by decide) (by decide) (by decide)
      (by norm_num [sampleExt, defaultConfig, sampleTrack])
      (by decide) (by decide) rfl (Or.inl (by decide))⟩

/-! ## The centrality selection of the two entry points -/

theorem centralityOf_in_range (cfg : Config) (collision : Collision)
    (hest : cfg.cfgCentEstimator = 0 ∨ cfg.cfgCentEstimator = 1 ∨ cfg.cfgCentEstimator = 2) :
    centralityOf cfg collision =
      some (if cfg.cfgCentEstimator = 0 then collision.centFT0M
        else if cfg.cfgCentEstimator = 1 then collision.centFT0A else collision.centFT0C) := by
  unfold centralityOf
  rcases hest with h | h | h <;> rw [h] <;> rfl

theorem centralityContinue_false_iff (cfg : Config) (collision : Collision) (c : ℚ)
    (hc : centralityOf cfg collision = some c) :
    centralityContinue cfg collision = some false ↔ cfg.cfgCentMin ≤ c ∧ c ≤ cfg.cfgCentMax := by
  unfold centralityContinue
  rw [hc]
  simp only [Option.map_some', Option.some.injEq, decide_eq_false_iff_not, not_or, not_lt]

theorem collisionFilter_centrality_iff (cfg : Config) (collision : Collision) :
    collisionFilter_centrality cfg collision = true ↔
      ((cfg.cfgCentMin < collision.centFT0M ∧ collision.centFT0M < cfg.cfgCentMax) ∨
       (cfg.cfgCentMin < collision.centFT0A ∧ collision.centFT0A < cfg.cfgCentMax) ∨
       (cfg.cfgCentMin < collision.centFT0C ∧ collision.centFT0C < cfg.cfgCentMax)) := by
  unfold collisionFilter_centrality
  rw [decide_eq_true_eq]

theorem filter_of_selected_strict (cfg : Config) (collision : Collision) (c : ℚ)
    (hest : cfg.cfgCentEstimator = 0 ∨ cfg.cfgCentEstimator = 1 ∨ cfg.cfgCentEstimator = 2)
    (hc : centralityOf cfg collision = some c)
    (hstrict : cfg.cfgCentMin < c ∧ c < cfg.cfgCentMax) :
    collisionFilter_centrality cfg collision = true := by
  rw [centralityOf_in_range cfg collision hest] at hc
  injection hc with hc
  rw [collisionFilter_centrality_iff]
  rcases hest with h | h | h
  · rw [if_pos h] at hc
    rw [hc]
    exact Or.inl hstrict
  · rw [if_neg (by omega), if_pos h] at hc
    rw [hc]
    exact Or.inr (Or.inl hstrict)
  · rw [if_neg (by omega), if_neg (by omega)] at hc
    rw [hc]
    exact Or.inr (Or.inr hstrict)

theorem processQCMC_collision_continue (ext : Ext) (ev : EventUtil) (cfg : Config)
    (ccdb : CCDB) (mcparticles : List MCParticle) (s s0 : Task) (collision : Collision)
    (pos neg : List Track)
    (h0 : initCCDB ext cfg ccdb s collision = Outcome.ok s0)
    (hc : centralityContinue cfg collision = some true) :
    processQCMC_collision ext ev cfg ccdb mcparticles s collision pos neg = some s0 := by
  unfold centralityContinue at hc
  cases hcen : centralityOf cfg collision with
  | none => rw [hcen] at hc; simp at hc
  | some c =>
    rw [hcen] at hc
    simp only [Option.map_some', Option.some.injEq, decide_eq_true_eq] at hc
    unfold processQCMC_collision
    rw [h0]
    dsimp only
    rw [hcen]
    dsimp only
    rw [if_pos hc]

/-- Counterexample to C29: with the default window (0, 999) and the default estimator FT0C,
a collision whose FT0C value is exactly 0 while its FT0M value is 10 passes the filter and
the in-loop test, so `processQCMC` and `processGen` both select it, although the selected
estimator is not strictly inside the window. -/
theorem centrality_same_selection_counterexample :
    centralityOf defaultConfig edgeCollision = some 0 ∧
    ¬ (defaultConfig.cfgCentMin < (0 : ℚ) ∧ (0 : ℚ) < defaultConfig.cfgCentMax) ∧
    processQCMC_selects defaultConfig [edgeCollision] edgeCollision ∧
    processGen_selects defaultConfig [edgeCollision] edgeCollision := by
  have hc : centralityOf defaultConfig edgeCollision = some 0 := by
    unfold centralityOf
    rw [if_neg (by decide)]
    rfl
  have hcont : centralityContinue defaultConfig edgeCollision = some false := by
    rw [centralityContinue_false_iff _ _ 0 hc]
    norm_num [defaultConfig]
  have hfil : collisionFilter_centrality defaultConfig edgeCollision = true := by
    rw [collisionFilter_centrality_iff]
    left
    norm_num [defaultConfig, edgeCollision, sampleCollision]
  refine ⟨hc, by norm_num [defaultConfig], ⟨?_, hcont⟩, ⟨List.mem_singleton_self _, hcont⟩⟩
  unfold FilteredMyCollisions
  rw [List.mem_filter]
  exact ⟨List.mem_singleton_self _, hfil⟩

/-- C29, amended. Centrality selection: for `cfgCentEstimator` in {0, 1, 2} the index into
the centrality array is in range and selects the value `c`; `processQCMC` selects a
collision of the table if and only if one of the three centrality values lies strictly
inside `(cfgCentMin, cfgCentMax)` and `cfgCentMin <= c <= cfgCentMax`; `processGen` selects
it if and only if `cfgCentMin <= c <= cfgCentMax`. A collision selected by `processQCMC` is
selected by `processGen`; when `c` is strictly inside the window both select it; and a
collision selected by `processGen` only has `c` equal to `cfgCentMin` or `cfgCentMax` and
no centrality value strictly inside the window. When the test `continue`s, the loop body
of `processQCMC` leaves the task as `initCCDB` returned it. -/
theorem centrality_selection (cfg : Config) (collisions : List Collision)
    (collision : Collision)
    (hest : cfg.cfgCentEstimator = 0 ∨ cfg.cfgCentEstimator = 1 ∨ cfg.cfgCentEstimator = 2)
    (hmem : collision ∈ collisions) :
    ∃ c, centralityOf cfg collision = some c ∧
      c = (if cfg.cfgCentEstimator = 0 then collision.centFT0M
        else if cfg.cfgCentEstimator = 1 then collision.centFT0A else collision.centFT0C) ∧
      (processQCMC_selects cfg collisions collision ↔
        ((cfg.cfgCentMin < collision.centFT0M ∧ collision.centFT0M < cfg.cfgCentMax) ∨
         (cfg.cfgCentMin < collision.centFT0A ∧ collision.centFT0A < cfg.cfgCentMax) ∨
         (cfg.cfgCentMin < collision.centFT0C ∧ collision.centFT0C < cfg.cfgCentMax)) ∧
        cfg.cfgCentMin ≤ c ∧ c ≤ cfg.cfgCentMax) ∧
      (processGen_selects cfg collisions collision ↔
        cfg.cfgCentMin ≤ c ∧ c ≤ cfg.cfgCentMax) ∧
      (processQCMC_selects cfg collisions collision →
        processGen_selects cfg collisions collision) ∧
      (cfg.cfgCentMin < c ∧ c < cfg.cfgCentMax →
        processQCMC_selects cfg collisions collision ∧
        processGen_selects cfg collisions collision) ∧
      (processGen_selects cfg collisions collision ∧
          ¬ processQCMC_selects cfg collisions collision →
        (c = cfg.cfgCentMin ∨ c = cfg.cfgCentMax) ∧
        collisionFilter_centrality cfg collision = false) ∧
      (∀ (ext : Ext) (ev : EventUtil) (ccdb : CCDB) (mcparticles : List MCParticle)
          (s s0 : Task) (pos neg : List Track),
        initCCDB ext cfg ccdb s collision = Outcome.ok s0 →
        centralityContinue cfg collision = some true →
        processQCMC_collision ext ev cfg ccdb mcparticles s collision pos neg = some s0) := by
  have hc := centralityOf_in_range cfg collision hest
  refine ⟨_, hc, rfl, ?_⟩
  have hcont := centralityContinue_false_iff cfg collision _ hc
  have hq : processQCMC_selects cfg collisions collision ↔
      collisionFilter_centrality cfg collision = true ∧
        centralityContinue cfg collision = some false := by
    unfold processQCMC_selects FilteredMyCollisions
    rw [List.mem_filter]
    exact ⟨fun h => ⟨h.1.2, h.2⟩, fun h => ⟨⟨hmem, h.1⟩, h.2⟩⟩
  have hg : processGen_selects cfg collisions collision ↔
      centralityContinue cfg collision = some false := by
    unfold processGen_selects
    exact ⟨fun h => h.2, fun h => ⟨hmem, h⟩⟩
  refine ⟨?_, ?_, ?_, ?_, ?_, fun ext ev ccdb mcparticles s s0 pos neg h0 hcc =>
    processQCMC_collision_continue ext ev cfg ccdb mcparticles s s0 collision pos neg h0 hcc⟩
  · rw [hq, hcont, collisionFilter_centrality_iff]
  · rw [hg, hcont]
  · intro h
    exact hg.mpr (hq.mp h).2
  · intro hstrict
    have hclosed := hcont.mpr ⟨le_of_lt hstrict.1, le_of_lt hstrict.2⟩
    exact ⟨hq.mpr ⟨filter_of_selected_strict cfg collision _ hest hc hstrict, hclosed⟩,
      hg.mpr hclosed⟩
  · rintro ⟨hgen, hnot⟩
    have hclosed := hg.mp hgen
    have hfil : collisionFilter_centrality cfg collision = false := by
      rw [← Bool.not_eq_true]
      exact fun hf => hnot (hq.mpr ⟨hf, hclosed⟩)
    refine ⟨?_, hfil⟩
    have hb := hcont.mp hclosed
    by_contra hne
    push_neg at hne
    have hstrict : cfg.cfgCentMin < _ ∧ _ < cfg.cfgCentMax :=
      ⟨lt_of_le_of_ne hb.1 (Ne.symm hne.1), lt_of_le_of_ne hb.2 hne.2⟩
    rw [filter_of_selected_strict cfg collision _ hest hc hstrict] at hfil
    exact Bool.noConfusion hfil

/-- Witness of the amended C29: with the defaults a collision whose three centrality values
are 0 is selected by `processGen` and not by `processQCMC`. -/
theorem centrality_selection_witness :
    processGen_selects defaultConfig [zeroCentralityCollision] zeroCentralityCollision ∧
    ¬ processQCMC_selects defaultConfig [zeroCentralityCollision] zeroCentralityCollision := by
  obtain ⟨c, hc, hval, hq, hg, _⟩ := centrality_selection defaultConfig
    [zeroCentralityCollision] zeroCentralityCollision (Or.inr (Or.inr rfl))
    (List.mem_singleton_self _)
  have hc0 : c = 0 := by
    rw [hval]
    rfl
  constructor
  · rw [hg, hc0]
    norm_num [defaultConfig]
  · rw [hq]
    intro h
    have := h.1
    norm_num [defaultConfig, zeroCentralityCollision, sampleCollision] at this

end DielectronQCMC

namespace HfTaskSingleMuonReader

/-! # Theorems on the single-muon selection -/

theorem selectedMuon_iff (cfg : Config) (muon : Muon) :
    selectedMuon cfg muon = true ↔
      (muon.trackType : Int) = cfg.trkType ∧ cfg.etaMin ≤ muon.eta ∧ muon.eta < cfg.etaMax ∧
      cfg.rAbsMin ≤ muon.rAtAbsorberEnd ∧ muon.rAtAbsorberEnd < cfg.rAbsMax ∧
      muon.pDca < cfg.pDcaMax ∧ 0 ≤ muon.matchMCHTrackId := by
  unfold selectedMuon
  rw [decide_eq_true_eq]

theorem processMuon_selected (sqrt : ℚ → ℚ) (cfg : Config) (table : List Muon)
    (registry : List Fill) (muon matched : Muon) (hsel : selectedMuon cfg muon = true)
    (hm : matchMCHTrack_as table muon = some matched) :
    processMuon sqrt cfg table registry muon = some (registry ++ [muonFill sqrt muon matched]) := by
  obtain ⟨h1, h2, h3, h4, h5, h6, h7⟩ := (selectedMuon_iff cfg muon).mp hsel
  unfold processMuon
  dsimp only
  rw [if_neg (fun h => h h1), if_neg (by rw [not_or, not_le, not_lt]; exact ⟨h3, h2⟩),
    if_neg (by rw [not_or, not_le, not_lt]; exact ⟨h5, h4⟩), if_neg (by rw [not_le]; exact h6),
    if_pos (by unfold has_matchMCHTrack; rw [decide_eq_true_eq]; exact h7), hm]
  rfl

theorem processMuon_rejected (sqrt : ℚ → ℚ) (cfg : Config) (table : List Muon)
    (registry : List Fill) (muon : Muon) (hsel : selectedMuon cfg muon = false) :
    processMuon sqrt cfg table registry muon = some registry := by
  have hnot : ¬ selectedMuon cfg muon = true := by rw [hsel]; exact Bool.false_ne_true
  rw [selectedMuon_iff] at hnot
  unfold processMuon
  dsimp only
  by_cases h1 : (muon.trackType : Int) ≠ cfg.trkType
  · rw [if_pos h1]
  rw [if_neg h1]
  by_cases h2 : muon.eta ≥ cfg.etaMax ∨ muon.eta < cfg.etaMin
  · rw [if_pos h2]
  rw [if_neg h2]
  by_cases h3 : muon.rAtAbsorberEnd ≥ cfg.rAbsMax ∨ muon.rAtAbsorberEnd < cfg.rAbsMin
  · rw [if_pos h3]
  rw [if_neg h3]
  by_cases h4 : muon.pDca ≥ cfg.pDcaMax
  · rw [if_pos h4]
  rw [if_neg h4]
  by_cases h5 : has_matchMCHTrack muon = true
  · exfalso
    apply hnot
    rw [not_or, not_le, not_lt] at h2 h3
    rw [not_le] at h4
    unfold has_matchMCHTrack at h5
    rw [decide_eq_true_eq] at h5
    exact ⟨not_not.mp h1, h2.2, h2.1, h3.2, h3.1, h4, h5⟩
  · rw [if_neg h5]

theorem selectedFills_cons (sqrt : ℚ → ℚ) (cfg : Config) (table : List Muon) (muon : Muon)
    (rest : List Muon) :
    selectedFills sqrt cfg table (muon :: rest) =
      selectedFills sqrt cfg table [muon] ++ selectedFills sqrt cfg table rest := by
  unfold selectedFills
  rw [← List.filterMap_append]
  rfl

theorem processMuon_eq (sqrt : ℚ → ℚ) (cfg : Config) (table : List Muon)
    (registry : List Fill) (muon : Muon)
    (hwf : 0 ≤ muon.matchMCHTrackId → ∃ r, matchMCHTrack_as table muon = some r) :
    processMuon sqrt cfg table registry muon =
      some (registry ++ selectedFills sqrt cfg table [muon]) := by
  cases hsel : selectedMuon cfg muon with
  | false =>
    rw [processMuon_rejected sqrt cfg table registry muon hsel]
    simp [selectedFills, hsel]
  | true =>
    obtain ⟨r, hr⟩ := hwf ((selectedMuon_iff cfg muon).mp hsel).2.2.2.2.2.2
    rw [processMuon_selected sqrt cfg table registry muon r hsel hr]
    simp [selectedFills, hsel, hr]

theorem processMuons_eq (sqrt : ℚ → ℚ) (cfg : Config) (table : List Muon)
    (muons : List Muon) :
    (∀ m ∈ muons, 0 ≤ m.matchMCHTrackId → ∃ r, matchMCHTrack_as table m = some r) →
    ∀ registry, processMuons sqrt cfg table registry muons =
      some (registry ++ selectedFills sqrt cfg table muons) := by
  induction muons with
  | nil =>
    intro _ registry
    simp [processMuons, selectedFills]
  | cons muon rest ih =>
    intro hwf registry
    unfold processMuons
    rw [processMuon_eq sqrt cfg table registry muon (hwf muon (List.mem_cons_self _ _))]
    dsimp only
    rw [ih (fun m hm => hwf m (List.mem_cons_of_mem _ hm)), selectedFills_cons sqrt cfg table
      muon rest, List.append_assoc]

theorem selectedFills_length_le (sqrt : ℚ → ℚ) (cfg : Config) (table : List Muon)
    (muons : List Muon) : (selectedFills sqrt cfg table muons).length ≤ muons.length := by
  unfold selectedFills
  exact List.length_filterMap_le _ _

/-- C30. Single-muon selection: when every non-negative matched-track index of the muons
points into the muon table, `process` returns having filled `hVtxZ` once and then, in the
order of the muons, `hMuAfterCuts` for exactly the muons with `trackType == trkType`,
`etaMin <= eta < etaMax`, `rAbsMin <= rAtAbsorberEnd < rAbsMax`, `pDca < pDcaMax` and a
matched MCH track, with the tuple `(pt, eta, sqrt(fwdDcaX^2 + fwdDcaY^2), sign,
chi2MatchMCHMFT, matched-track pt - pt)`; the `hMuAfterCuts` fills are the same for every
value of the option `zVtx` and of the vertex z of the collision, and there are at most as
many as muons. -/
theorem single_muon_selection (sqrt : ℚ → ℚ) (cfg : Config) (table : List Muon)
    (registry : List Fill) (collision : Collision) (muons : List Muon)
    (hwf : ∀ m ∈ muons, 0 ≤ m.matchMCHTrackId → ∃ r, matchMCHTrack_as table m = some r) :
    process sqrt cfg table registry collision muons =
      some (registry ++ [⟨"hVtxZ", [collision.posZ]⟩] ++ selectedFills sqrt cfg table muons) ∧
    (∀ m ∈ muons, ∀ reg : List Fill,
      (selectedMuon cfg m = true →
        ∃ matched, matchMCHTrack_as table m = some matched ∧
          processMuon sqrt cfg table reg m = some (reg ++ [muonFill sqrt m matched]) ∧
          muonFill sqrt m matched = ⟨"hMuAfterCuts", [m.pt, m.eta,
            sqrtSumOfSquares sqrt m.fwdDcaX m.fwdDcaY, m.sign, m.chi2MatchMCHMFT,
            matched.pt - m.pt]⟩) ∧
      (selectedMuon cfg m = false → processMuon sqrt cfg table reg m = some reg) ∧
      (selectedMuon cfg m = true ↔
        (m.trackType : Int) = cfg.trkType ∧ cfg.etaMin ≤ m.eta ∧ m.eta < cfg.etaMax ∧
        cfg.rAbsMin ≤ m.rAtAbsorberEnd ∧ m.rAtAbsorberEnd < cfg.rAbsMax ∧
        m.pDca < cfg.pDcaMax ∧ has_matchMCHTrack m = true)) ∧
    (∀ (z posZ : ℚ), process sqrt { cfg with zVtx := z } table registry ⟨posZ⟩ muons =
      some (registry ++ [⟨"hVtxZ", [posZ]⟩] ++ selectedFills sqrt cfg table muons)) ∧
    (selectedFills sqrt cfg table muons).length ≤ muons.length ∧
    (∀ f ∈ selectedFills sqrt cfg table muons, f.name = "hMuAfterCuts") := by
  refine ⟨?_, ?_, ?_, selectedFills_length_le sqrt cfg table muons, ?_⟩
  · unfold process
    rw [processMuons_eq sqrt cfg table muons hwf]
  · intro m hm reg
    refine ⟨fun hsel => ?_, processMuon_rejected sqrt cfg table reg m, ?_⟩
    · obtain ⟨r, hr⟩ := hwf m hm ((selectedMuon_iff cfg m).mp hsel).2.2.2.2.2.2
      exact ⟨r, hr, processMuon_selected sqrt cfg table reg m r hsel hr, rfl⟩
    · rw [selectedMuon_iff]
      unfold has_matchMCHTrack
      rw [decide_eq_true_eq]
  · intro z posZ
    unfold process
    rw [processMuons_eq sqrt { cfg with zVtx := z } table muons hwf]
    rfl
  · intro f hf
    unfold selectedFills at hf
    rw [List.mem_filterMap] at hf
    obtain ⟨m, _, hm⟩ := hf
    split at hm
    · rw [Option.map_eq_some'] at hm
      obtain ⟨r, _, hr⟩ := hm
      rw [← hr]
      rfl
    · exact Option.noConfusion hm

theorem sampleMuons_matched (m : Muon) (hm : m ∈ sampleMuons) (hpos : 0 ≤ m.matchMCHTrackId) :
    matchMCHTrack_as sampleMuons m = some mchTrack := by
  unfold sampleMuons at hm
  simp only [List.mem_cons, List.mem_singleton, List.not_mem_nil, or_false] at hm
  rcases hm with h | h | h | h <;> subst h
  · rfl
  · exact absurd hpos (by decide)
  · rfl
  · exact absurd hpos (by decide)

theorem sampleMuons_selectedFills :
    selectedFills sampleSqrt defaultConfig sampleMuons sampleMuons =
      [⟨"hMuAfterCuts", [2, -3, 5, 1, 7, 1 / 2]⟩] := by
  have s0 : selectedMuon defaultConfig globalMuon = true := by
    rw [selectedMuon_iff]
    norm_num [defaultConfig, globalMuon]
  have s1 : selectedMuon defaultConfig mchTrack = false := by
    rw [← Bool.not_eq_true, selectedMuon_iff]
    norm_num [defaultConfig, mchTrack]
  have s2 : selectedMuon defaultConfig edgeMuon = false := by
    rw [← Bool.not_eq_true, selectedMuon_iff]
    norm_num [defaultConfig, edgeMuon, globalMuon]
  have s3 : selectedMuon defaultConfig unmatchedMuon = false := by
    rw [← Bool.not_eq_true, selectedMuon_iff]
    norm_num [defaultConfig, unmatchedMuon, globalMuon]
  have hm : matchMCHTrack_as sampleMuons globalMuon = some mchTrack := rfl
  have hfill : muonFill sampleSqrt globalMuon mchTrack =
      ⟨"hMuAfterCuts", [2, -3, 5, 1, 7, 1 / 2]⟩ := by
    unfold muonFill sampleSqrt
    norm_num [globalMuon, mchTrack]
  unfold selectedFills
  rw [show sampleMuons = [globalMuon, mchTrack, edgeMuon, unmatchedMuon] from rfl]
  simp only [List.filterMap_cons, List.filterMap_nil, s0, s1, s2, s3, if_true,
    Bool.false_eq_true, if_false]
  rw [show ([globalMuon, mchTrack, edgeMuon, unmatchedMuon] : List Muon) = sampleMuons from rfl,
    hm]
  simp only [Option.map_some', hfill]

/-- Witness of C30: of the four sample muons only the first is filled, with the tuple
(2, -3, 5, 1, 7, 1/2); the muon with `eta` exactly `etaMax` and the muon without a matched
track are not. -/
theorem single_muon_selection_witness :
    process sampleSqrt defaultConfig sampleMuons [] ⟨3⟩ sampleMuons =
      some [⟨"hVtxZ", [3]⟩, ⟨"hMuAfterCuts", [2, -3, 5, 1, 7, 1 / 2]⟩] := by
  have h := (single_muon_selection sampleSqrt defaultConfig sampleMuons [] ⟨3⟩ sampleMuons
    (fun m hm hpos => ⟨mchTrack, sampleMuons_matched m hm hpos⟩)).1
  rw [h, sampleMuons_selectedFills]
  rfl

end HfTaskSingleMuonReader
